import Mathlib

/-!
# Menu/flow state machine of `UShooterGameInstance`

A shallow embedding of `Source/ShooterGame/Private/ShooterGameInstance.cpp`.
The game instance is a record of the member variables the state machine reads
and writes; every member function becomes a function from instance to instance.
Answers of the engine (identity interface, map loading, game session, player
controller) are read from an `Engine` record, so every theorem quantifies over
all of them.  The field `Calls` is a ghost record of the hooks and engine calls
made, in the order they were made.
-/

namespace ShooterGame

/-- Engine name type `FName`: an entry of the engine's name table, compared by
identity.  The six entries the source creates in `ShooterGameInstanceState`
are listed by name, every other entry by its index. -/
inductive FName where
  | NAME_None
  | Login
  | PendingInvite
  | MainMenu
  | MessageMenu
  | Playing
  | Other (Index : Nat)
  deriving DecidableEq, Repr

namespace ShooterGameInstanceState

/-- Source: `const FName None = FName(TEXT("None"))`. -/
abbrev None : FName := FName.NAME_None
/-- Source: `const FName LoginScreen = FName(TEXT("Login"))`. -/
abbrev LoginScreen : FName := FName.Login
/-- Source: `const FName PendingInvite = FName(TEXT("PendingInvite"))`. -/
abbrev PendingInvite : FName := FName.PendingInvite
/-- Source: `const FName MainMenu = FName(TEXT("MainMenu"))`. -/
abbrev MainMenu : FName := FName.MainMenu
/-- Source: `const FName MessageMenu = FName(TEXT("MessageMenu"))`. -/
abbrev MessageMenu : FName := FName.MessageMenu
/-- Source: `const FName Playing = FName(TEXT("Playing"))`. -/
abbrev Playing : FName := FName.Playing

end ShooterGameInstanceState

/-- Engine text type `FText`, by its displayed characters. -/
abbrev FText := String

/-- Engine string type `FString`. -/
abbrev FString := String

/-- Source: `FText::GetEmpty()`. -/
abbrev FText.GetEmpty : FText := ""

/-- Source: `FText::IsEmpty()`. -/
def FText.IsEmpty (t : FText) : Bool := decide (t = "")

/-- A user identifier (`FUniqueNetId`), by its string form. -/
abbrev FUniqueNetId := String

/-- Source: `FUniqueNetIdString()`, the empty identifier. -/
abbrev FUniqueNetIdString : FUniqueNetId := ""

/-- A local player object (`ULocalPlayer*`), by its identity. -/
abbrev ULocalPlayer := Nat

/-- Source: `EOnlineMode`, used as `Offline`, `LAN`, `Online`. -/
inductive EOnlineMode where
  | Offline
  | LAN
  | Online
  deriving DecidableEq, Repr

/-- Modelled from the spec: the struct `FShooterPendingMessage` is declared in
`ShooterGameInstance.h`, which is not among the sources.  The spec lists its
content: display text, two button captions, next-state identifier and target
player reference; the field names are the ones the code uses. -/
structure FShooterPendingMessage where
  DisplayString : FText
  OKButtonString : FText
  CancelButtonString : FText
  NextState : FName
  PlayerOwner : Option ULocalPlayer
  deriving DecidableEq, Repr

/-- Modelled from the spec: the struct `FShooterPendingInvite` is declared in
`ShooterGameInstance.h`, which is not among the sources.  The spec lists its
content: a user identifier, a controller index and a "privileges checked"
flag; the field names are the ones the code uses. -/
structure FShooterPendingInvite where
  ControllerId : Int
  UserId : Option FUniqueNetId
  bPrivilegesCheckedAndAllowed : Bool
  deriving DecidableEq, Repr

/-- Source: `ELoginStatus::Type`, used as `NotLoggedIn`, `UsingLocalProfile`,
`LoggedIn`. -/
inductive ELoginStatus where
  | NotLoggedIn
  | UsingLocalProfile
  | LoggedIn
  deriving DecidableEq, Repr

/-- Source: `EBrowseReturnVal::Type`, used as `Success`, `Failure`, `Pending`. -/
inductive EBrowseReturnVal where
  | Success
  | Failure
  | Pending
  deriving DecidableEq, Repr

/-- Source: `EOnJoinSessionCompleteResult::Type`; the code names `Success`,
`SessionIsFull`, `SessionDoesNotExist` and `UnknownError`, the engine has more. -/
inductive EOnJoinSessionCompleteResult where
  | Success
  | SessionIsFull
  | SessionDoesNotExist
  | CouldNotRetrieveAddress
  | AlreadyInSession
  | UnknownError
  deriving DecidableEq, Repr

/-- Engine type `FOnlineSessionSettings`, by the three settings the code writes:
the values stored under `SETTING_GAMEMODE` and `SETTING_MAPNAME`, and
`NumPublicConnections`. -/
structure FOnlineSessionSettings where
  GameMode : FString
  MapName : FString
  NumPublicConnections : Int
  deriving DecidableEq, Repr

/-- Ghost record of one call made by the instance: a state hook, or a call into
the engine that leaves the instance. -/
inductive Call where
  | EndPendingInviteState
  | EndLoginScreenState
  | EndMainMenuState
  | EndMessageMenuState
  | EndPlayingState
  | BeginPendingInviteState
  | BeginLoginState
  | BeginMainMenuState
  | BeginMessageMenuState
  | BeginPlayingState
  | LoadFrontEndMap (MapName : FString)
  | GetUserPrivilege (UserId : FUniqueNetId)
  | DisplayOnlinePrivilegeFailureDialogs (PrivilegeResults : Nat)
  | RequestFinishAndExitToMainMenu
  | CleanupSessionOnReturnToMenu
  | RemoveNetworkFailureHandlers
  | AddNetworkFailureHandlers
  | ShowLoadingScreen
  | ClientTravelInternal (URL : FString)
  | ClientTravel (URL : FString)
  | ServerTravel (URL : FString)
  | HostSession (GameType MapName : FString) (bIsLanMatch : Bool)
  | HostSessionWithSettings (SessionSettings : FOnlineSessionSettings)
  | JoinSession
  | FinishJoinSession (Result : EOnJoinSessionCompleteResult)
  | FinishSessionCreation (Result : EOnJoinSessionCompleteResult)
  | InternalTravelToSession
  | SendPlayTogetherInvites
  | LabelPlayerAsQuitter (LocalPlayer : ULocalPlayer)
  | HandleSignInChangeMessaging
  | SetControllerId (LocalPlayer : ULocalPlayer) (ControllerIndex : Int)
  | OnChatMessageReceived (Channel FromDisplayName FromPlayerId MessageText : FString)
  | MenuPCOnChatMessageReceived (Channel FromPlayerId FromDisplayName MessageText : FString)
  deriving DecidableEq, Repr

/-- The exit hooks of the five states that have one. -/
def Call.IsExitHook : Call → Bool
  | .EndPendingInviteState => true
  | .EndLoginScreenState => true
  | .EndMainMenuState => true
  | .EndMessageMenuState => true
  | .EndPlayingState => true
  | _ => false

/-- The enter hooks of the five states that have one. -/
def Call.IsEnterHook : Call → Bool
  | .BeginPendingInviteState => true
  | .BeginLoginState => true
  | .BeginMainMenuState => true
  | .BeginMessageMenuState => true
  | .BeginPlayingState => true
  | _ => false

/-- The answers of the engine the instance reads during one operation, and the
build switches the source is compiled under. -/
structure Engine where
  /-- `Identity.IsValid() && Identity->GetLoginStatus(0) == ELoginStatus::LoggedIn` -/
  IsLoggedIn : Bool
  /-- `Online::GetIdentityInterface().IsValid()` -/
  IdentityValid : Bool
  /-- Result of `LoadFrontEndMap` (`bSuccess`). -/
  LoadFrontEndMap : Bool
  /-- `Identity->GetUserPrivilege`: the user id and privilege results it hands to
  the delegate when it runs the delegate before returning, `none` when the answer
  arrives later. -/
  GetUserPrivilege : Option (FUniqueNetId × Nat)
  /-- `World->GetGameState<AShooterGameState>()` is not null. -/
  GameState : Bool
  /-- `GetFirstLocalPlayerController() != nullptr` -/
  FirstLocalPlayerController : Bool
  /-- The menu player controller `Cast<AShooterPlayerController_Menu>(...)` is not null. -/
  MenuPC : Bool
  /-- `IOnlineSubsystem::Get() != nullptr` -/
  OnlineSub : Bool
  /-- `GetGameSession() != nullptr` -/
  GameSession : Bool
  /-- Result of `GameSession->HostSession`. -/
  HostSession : Bool
  /-- The value of `bWasSuccessful` when `GameSession->HostSession` runs the
  session-creation delegate before it returns, `none` when it does not. -/
  HostSessionCompletes : Option Bool
  /-- Result of `GameSession->JoinSession`. -/
  JoinSession : Bool
  /-- The result handed to the join delegate when `GameSession->JoinSession` runs
  it before it returns, `none` when it does not. -/
  JoinSessionCompletes : Option EOnJoinSessionCompleteResult
  /-- `CVarShooterGameTestEncryption->GetInt() != 0` -/
  TestEncryption : Bool
  /-- `IsRunningDedicatedServer()` -/
  IsRunningDedicatedServer : Bool
  /-- `GenericApplication->ApplicationLicenseValid()` -/
  ApplicationLicenseValid : Bool
  /-- `CurrentConnectionStatus == EOnlineServerConnectionStatus::Connected` for the
  status handed to `OnConnectionStatusChanged`. -/
  Connected : Bool
  /-- `GetWorld() != nullptr && GetWorld()->WorldType == EWorldType::PIE` -/
  WorldIsPIE : Bool
  /-- `World` exists and the name of its current map contains `Entry`. -/
  CurrentMapIsEntry : Bool
  /-- The first token of the command line, when there is one and it does not
  start with `-`. -/
  CommandLineToken : Option FString
  /-- `URL.Valid` for the URL built from the command line token. -/
  URLValid : Bool
  /-- Result of `Engine->Browse` in `StartGameInstance`. -/
  Browse : EBrowseReturnVal
  /-- Result of `Super::HandleOpenCommand`. -/
  SuperHandleOpenCommand : Bool
  /-- `LocalPlayer->GetCachedUniqueNetId().IsValid()` -/
  CachedUniqueNetIdValid : ULocalPlayer → Bool
  /-- `IsLocalPlayerOnline(LocalPlayer)` -/
  IsLocalPlayerOnline : ULocalPlayer → Bool
  /-- `FindLocalPlayerFromUniqueNetId(UserId)` -/
  FindLocalPlayerFromUniqueNetId : FUniqueNetId → Option ULocalPlayer
  /-- `FindLocalPlayerFromControllerId(GameUserIndex)` -/
  FindLocalPlayerFromControllerId : Int → Option ULocalPlayer
  /-- Build switch `SHOOTER_CONSOLE_UI`. -/
  SHOOTER_CONSOLE_UI : Bool
  /-- Build switch `PLATFORM_XBOXONE`. -/
  PLATFORM_XBOXONE : Bool
  /-- Build switch `PLATFORM_PS4`. -/
  PLATFORM_PS4 : Bool
  /-- Build switch `PLATFORM_SWITCH`. -/
  PLATFORM_SWITCH : Bool
  /-- Build switch `WITH_EDITOR`. -/
  WITH_EDITOR : Bool

/-- The member variables of `UShooterGameInstance` the flow code reads and
writes, and the ghost record `Calls`. -/
structure UShooterGameInstance where
  CurrentState : FName
  PendingState : FName
  PendingMessage : FShooterPendingMessage
  PendingInvite : FShooterPendingInvite
  OnlineMode : EOnlineMode
  bIsLicensed : Bool
  bPendingEnableSplitscreen : Bool
  LocalPlayers : List ULocalPlayer
  TravelURL : FString
  MainMenuMap : FString
  LoginScreenMap : FString
  LocalPlayerOnlineStatus : List ELoginStatus
  IgnorePairingChangeForControllerId : Int
  Calls : List Call
  deriving DecidableEq, Repr

namespace UShooterGameInstance

/-- Source: the constructor `UShooterGameInstance::UShooterGameInstance`
(lines 97-103): `OnlineMode(EOnlineMode::Online)`, `bIsLicensed(true)`,
`CurrentState = ShooterGameInstanceState::None`.  The other members are
default constructed: a default `FName` is the name `None`, texts and strings
are empty, pointers are null.  (Lean does not allow the source's name, that of
the structure, here.) -/
def Constructor : UShooterGameInstance :=
  { CurrentState := ShooterGameInstanceState.None
    PendingState := FName.NAME_None
    PendingMessage :=
      { DisplayString := "", OKButtonString := "", CancelButtonString := "",
        NextState := FName.NAME_None, PlayerOwner := none }
    PendingInvite := { ControllerId := -1, UserId := none, bPrivilegesCheckedAndAllowed := false }
    OnlineMode := EOnlineMode.Online
    bIsLicensed := true
    bPendingEnableSplitscreen := false
    LocalPlayers := []
    TravelURL := ""
    MainMenuMap := ""
    LoginScreenMap := ""
    LocalPlayerOnlineStatus := []
    IgnorePairingChangeForControllerId := 0
    Calls := [] }

/-- Appends one entry to the ghost record of calls. -/
def Record (c : Call) (s : UShooterGameInstance) : UShooterGameInstance :=
  { s with Calls := s.Calls ++ [c] }

/-- Source: `UShooterGameInstance::GotoState` (lines 1132-1137). -/
def GotoState (NewState : FName) (s : UShooterGameInstance) : UShooterGameInstance :=
  { s with PendingState := NewState }

/-- Source: `UShooterGameInstance::GetInitialState` (lines 935-950). -/
def GetInitialState (e : Engine) : FName :=
  if e.IsLoggedIn then ShooterGameInstanceState.MainMenu
  else ShooterGameInstanceState.LoginScreen

/-- Source: `UShooterGameInstance::GotoInitialState` (lines 952-955). -/
def GotoInitialState (e : Engine) (s : UShooterGameInstance) : UShooterGameInstance :=
  GotoState (GetInitialState e) s

/-- Source: `UShooterGameInstance::LoadFrontEndMap` (lines 1049-1089): the map
is loaded by the engine; the instance keeps nothing of it but the result. -/
def LoadFrontEndMap (e : Engine) (MapName : FString) (s : UShooterGameInstance) :
    Bool × UShooterGameInstance :=
  (e.LoadFrontEndMap, Record (Call.LoadFrontEndMap MapName) s)

/-- Source: `UShooterGameInstance::ShowLoadingScreen` (lines 1012-1025); its
body is commented out. -/
def ShowLoadingScreen (s : UShooterGameInstance) : UShooterGameInstance :=
  Record Call.ShowLoadingScreen s

/-- Source: `UShooterGameInstance::SetOnlineMode` (lines 2232-2236). -/
def SetOnlineMode (InOnlineMode : EOnlineMode) (s : UShooterGameInstance) : UShooterGameInstance :=
  { s with OnlineMode := InOnlineMode }

/-- Modelled from the spec: the engine function `UGameInstance::RemoveLocalPlayer`
is not among the sources; it removes the given player from `LocalPlayers`. -/
def RemoveLocalPlayer (ExistingPlayer : ULocalPlayer) (s : UShooterGameInstance) :
    UShooterGameInstance :=
  { s with LocalPlayers := s.LocalPlayers.filter (fun p => p ≠ ExistingPlayer) }

/-- Source: `UShooterGameInstance::RemoveExistingLocalPlayer` (lines 2095-2110). -/
def RemoveExistingLocalPlayer (ExistingPlayer : ULocalPlayer) (s : UShooterGameInstance) :
    UShooterGameInstance :=
  RemoveLocalPlayer ExistingPlayer s

/-- Source: the `while (LocalPlayers.Num() > 1)` loop of `RemoveSplitScreenPlayers`,
run for at most `fuel` rounds. -/
def RemoveSplitScreenPlayersLoop : Nat → UShooterGameInstance → UShooterGameInstance
  | 0, s => s
  | fuel + 1, s =>
    if 1 < s.LocalPlayers.length then
      match s.LocalPlayers.getLast? with
      | some PlayerToRemove =>
        RemoveSplitScreenPlayersLoop fuel (RemoveExistingLocalPlayer PlayerToRemove s)
      | none => s
    else s

/-- Source: `UShooterGameInstance::RemoveSplitScreenPlayers` (lines 2112-2121).
Every round removes at least one player, so `LocalPlayers.Num()` rounds are enough. -/
def RemoveSplitScreenPlayers (s : UShooterGameInstance) : UShooterGameInstance :=
  RemoveSplitScreenPlayersLoop s.LocalPlayers.length s

/-- Source: `IOnlineIdentity::EPrivilegeResults::NoFailures`, the value `0` of
the engine's enumeration. -/
abbrev NoFailures : Nat := 0

/-- Source: `UShooterGameInstance::CleanupOnlinePrivilegeTask` (lines 2375-2382):
it only removes the wait widget from the viewport. -/
def CleanupOnlinePrivilegeTask (s : UShooterGameInstance) : UShooterGameInstance := s

/-- Source: `UShooterGameInstance::DisplayOnlinePrivilegeFailureDialogs`
(lines 2384-2434): it only opens engine dialogs. -/
def DisplayOnlinePrivilegeFailureDialogs (PrivilegeResults : Nat) (s : UShooterGameInstance) :
    UShooterGameInstance :=
  Record (Call.DisplayOnlinePrivilegeFailureDialogs PrivilegeResults) s

/-- Source: `UShooterGameInstance::OnUserCanPlayInvite` (lines 820-836).  The
test `UserId == *PendingInvite.UserId` of line 826 dereferences the pointer
`PendingInvite.UserId` without a validity test: with `NoFailures` the source is
defined only when the pointer is valid, and the test then holds when the
identifier it points to is the reported one.  At a null pointer the instance is
returned as it is, which stands for no behaviour of the source; the property of
the flag is stated for a valid pointer. -/
def OnUserCanPlayInvite (UserId : FUniqueNetId) (PrivilegeResults : Nat)
    (s : UShooterGameInstance) : UShooterGameInstance :=
  let s := CleanupOnlinePrivilegeTask s
  if PrivilegeResults = NoFailures then
    if s.PendingInvite.UserId = some UserId then
      { s with PendingInvite := { s.PendingInvite with bPrivilegesCheckedAndAllowed := true } }
    else s
  else
    GotoState ShooterGameInstanceState.LoginScreen
      (DisplayOnlinePrivilegeFailureDialogs PrivilegeResults s)

/-- Source: `UShooterGameInstance::OnUserCanPlayTogether` (lines 838-851). -/
def OnUserCanPlayTogether (_UserId : FUniqueNetId) (PrivilegeResults : Nat)
    (s : UShooterGameInstance) : UShooterGameInstance :=
  let s := CleanupOnlinePrivilegeTask s
  if PrivilegeResults = NoFailures then
    GotoState ShooterGameInstanceState.MainMenu s
  else
    GotoState ShooterGameInstanceState.LoginScreen
      (DisplayOnlinePrivilegeFailureDialogs PrivilegeResults s)

/-- Source: `UShooterGameInstance::StartOnlinePrivilegeTask` (lines 2352-2373).
With a valid identity interface and user identifier the engine is asked, and
runs the delegate now or later; otherwise the delegate runs at once with
`NoFailures`. -/
def StartOnlinePrivilegeTask (e : Engine)
    (Delegate : FUniqueNetId → Nat → UShooterGameInstance → UShooterGameInstance)
    (UserId : Option FUniqueNetId) (s : UShooterGameInstance) : UShooterGameInstance :=
  match e.IdentityValid, UserId with
  | true, some Id =>
    match e.GetUserPrivilege with
    | some (ReportedId, PrivilegeResults) =>
      Delegate ReportedId PrivilegeResults (Record (Call.GetUserPrivilege Id) s)
    | none => Record (Call.GetUserPrivilege Id) s
  | _, _ => Delegate FUniqueNetIdString NoFailures s

/-- Source: `UShooterGameInstance::BeginPendingInviteState` (lines 1211-1221). -/
def BeginPendingInviteState (e : Engine) (s : UShooterGameInstance) : UShooterGameInstance :=
  let s := Record Call.BeginPendingInviteState s
  let r := LoadFrontEndMap e s.MainMenuMap s
  if r.1 then
    StartOnlinePrivilegeTask e OnUserCanPlayInvite r.2.PendingInvite.UserId r.2
  else
    GotoState ShooterGameInstanceState.LoginScreen r.2

/-- Source: `UShooterGameInstance::EndPendingInviteState` (lines 1223-1227). -/
def EndPendingInviteState (s : UShooterGameInstance) : UShooterGameInstance :=
  CleanupOnlinePrivilegeTask (Record Call.EndPendingInviteState s)

/-- Source: `UShooterGameInstance::BeginLoginState` (lines 1229-1250); the
player, cursor, login screen and viewport calls change engine objects only. -/
def BeginLoginState (e : Engine) (s : UShooterGameInstance) : UShooterGameInstance :=
  let s := Record Call.BeginLoginState s
  let s := SetOnlineMode EOnlineMode.Offline s
  let s := RemoveSplitScreenPlayers s
  (LoadFrontEndMap e s.LoginScreenMap s).2

/-- Source: `UShooterGameInstance::EndLoginScreenState` (lines 1252-1255). -/
def EndLoginScreenState (s : UShooterGameInstance) : UShooterGameInstance :=
  Record Call.EndLoginScreenState s

/-- Source: `UShooterGameInstance::RemoveNetworkFailureHandlers` (lines 1511-1518). -/
def RemoveNetworkFailureHandlers (s : UShooterGameInstance) : UShooterGameInstance :=
  Record Call.RemoveNetworkFailureHandlers s

/-- Source: `UShooterGameInstance::AddNetworkFailureHandlers` (lines 1520-1527). -/
def AddNetworkFailureHandlers (s : UShooterGameInstance) : UShooterGameInstance :=
  Record Call.AddNetworkFailureHandlers s

/-- Source: `UShooterGameInstance::BeginMainMenuState` (lines 1278-1345); the
viewport, presence and menu calls change engine objects only. -/
def BeginMainMenuState (e : Engine) (s : UShooterGameInstance) : UShooterGameInstance :=
  let s := Record Call.BeginMainMenuState s
  let s := SetOnlineMode EOnlineMode.Offline s
  let s := RemoveSplitScreenPlayers s
  let s := (LoadFrontEndMap e s.MainMenuMap s).2
  RemoveNetworkFailureHandlers s

/-- Source: `UShooterGameInstance::EndMainMenuState` (lines 1347-1354); its body
is commented out. -/
def EndMainMenuState (s : UShooterGameInstance) : UShooterGameInstance :=
  Record Call.EndMainMenuState s

/-- Source: `UShooterGameInstance::BeginMessageMenuState` (lines 1356-1373). -/
def BeginMessageMenuState (e : Engine) (s : UShooterGameInstance) : UShooterGameInstance :=
  let s := Record Call.BeginMessageMenuState s
  if FText.IsEmpty s.PendingMessage.DisplayString then
    GotoInitialState e s
  else
    { s with PendingMessage := { s.PendingMessage with DisplayString := FText.GetEmpty } }

/-- Source: `UShooterGameInstance::EndMessageMenuState` (lines 1375-1382); its
body is commented out. -/
def EndMessageMenuState (s : UShooterGameInstance) : UShooterGameInstance :=
  Record Call.EndMessageMenuState s

/-- Source: `UShooterGameInstance::BeginPlayingState` (lines 1384-1398). -/
def BeginPlayingState (s : UShooterGameInstance) : UShooterGameInstance :=
  let s := Record Call.BeginPlayingState s
  { s with bPendingEnableSplitscreen := true }

/-- Source: `UShooterGameInstance::CleanupSessionOnReturnToMenu` (lines 1454-1500);
its session code is commented out. -/
def CleanupSessionOnReturnToMenu (s : UShooterGameInstance) : UShooterGameInstance :=
  Record Call.CleanupSessionOnReturnToMenu s

/-- Source: `UShooterGameInstance::EndPlayingState` (lines 1400-1432). -/
def EndPlayingState (e : Engine) (s : UShooterGameInstance) : UShooterGameInstance :=
  let s := Record Call.EndPlayingState s
  if e.GameState then Record Call.RequestFinishAndExitToMainMenu s
  else CleanupSessionOnReturnToMenu s

/-- Source: `UShooterGameInstance::EndCurrentState` (lines 1156-1181). -/
def EndCurrentState (e : Engine) (_NextState : FName) (s : UShooterGameInstance) :
    UShooterGameInstance :=
  let s :=
    if s.CurrentState = ShooterGameInstanceState.PendingInvite then EndPendingInviteState s
    else if s.CurrentState = ShooterGameInstanceState.LoginScreen then EndLoginScreenState s
    else if s.CurrentState = ShooterGameInstanceState.MainMenu then EndMainMenuState s
    else if s.CurrentState = ShooterGameInstanceState.MessageMenu then EndMessageMenuState s
    else if s.CurrentState = ShooterGameInstanceState.Playing then EndPlayingState e s
    else s
  { s with CurrentState := ShooterGameInstanceState.None }

/-- Source: `UShooterGameInstance::BeginNewState` (lines 1183-1209). -/
def BeginNewState (e : Engine) (NewState _PrevState : FName) (s : UShooterGameInstance) :
    UShooterGameInstance :=
  let s :=
    if NewState = ShooterGameInstanceState.PendingInvite then BeginPendingInviteState e s
    else if NewState = ShooterGameInstanceState.LoginScreen then BeginLoginState e s
    else if NewState = ShooterGameInstanceState.MainMenu then BeginMainMenuState e s
    else if NewState = ShooterGameInstanceState.MessageMenu then BeginMessageMenuState e s
    else if NewState = ShooterGameInstanceState.Playing then BeginPlayingState s
    else s
  { s with CurrentState := NewState }

/-- Source: `UShooterGameInstance::MaybeChangeState` (lines 1139-1154).
`PendingState` is read again after `EndCurrentState`, as in the source. -/
def MaybeChangeState (e : Engine) (s : UShooterGameInstance) : UShooterGameInstance :=
  if s.PendingState ≠ s.CurrentState ∧ s.PendingState ≠ ShooterGameInstanceState.None then
    let OldState := s.CurrentState
    let s := EndCurrentState e s.PendingState s
    let s := BeginNewState e s.PendingState OldState s
    { s with PendingState := ShooterGameInstanceState.None }
  else s

/-- Source: `UShooterGameInstance::ShowMessageThenGotoState` (lines 957-1010). -/
def ShowMessageThenGotoState (e : Engine) (Message OKButtonString CancelButtonString : FText)
    (NewState : FName) (OverrideExisting : Bool) (PlayerOwner : Option ULocalPlayer)
    (s : UShooterGameInstance) : UShooterGameInstance :=
  let bAtLoginScreen : Bool :=
    decide (s.PendingState = ShooterGameInstanceState.LoginScreen) ||
      decide (s.CurrentState = ShooterGameInstanceState.LoginScreen)
  if bAtLoginScreen then s
  else
    let bAlreadyAtMessageMenu : Bool :=
      decide (s.PendingState = ShooterGameInstanceState.MessageMenu) ||
        decide (s.CurrentState = ShooterGameInstanceState.MessageMenu)
    let bAlreadyAtDestState : Bool :=
      decide (s.PendingState = NewState) || decide (s.CurrentState = NewState)
    if bAlreadyAtMessageMenu && decide (s.PendingMessage.NextState = NewState)
        && !OverrideExisting then s
    else if bAlreadyAtMessageMenu
        && decide (s.PendingMessage.NextState = ShooterGameInstanceState.LoginScreen) then s
    else if bAlreadyAtDestState && !OverrideExisting then s
    else
      let s := { s with PendingMessage :=
        { DisplayString := Message
          OKButtonString := OKButtonString
          CancelButtonString := CancelButtonString
          NextState := NewState
          PlayerOwner := PlayerOwner } }
      if s.CurrentState = ShooterGameInstanceState.MessageMenu then
        BeginMessageMenuState e (EndMessageMenuState s)
      else
        GotoState ShooterGameInstanceState.MessageMenu s

/-- Modelled from the spec: the default value of the parameter `OverrideExisting`
of `ShowMessageThenGotoState` is declared in `ShooterGameInstance.h`, which is
not among the sources; callers that pass four arguments get it.  It is `true`
(the default parameter `PlayerOwner` is the null pointer). -/
abbrev OverrideExistingDefault : Bool := true

/-- Source: `UShooterGameInstance::ShowMessageThenGoMain` (lines 1122-1125). -/
def ShowMessageThenGoMain (e : Engine) (Message OKButtonString CancelButtonString : FText)
    (s : UShooterGameInstance) : UShooterGameInstance :=
  ShowMessageThenGotoState e Message OKButtonString CancelButtonString
    ShooterGameInstanceState.MainMenu OverrideExistingDefault none s

/-- Engine function `UGameInstance::GetFirstGamePlayer`: the first entry of
`LocalPlayers`, null when there is none. -/
def GetFirstGamePlayer (s : UShooterGameInstance) : Option ULocalPlayer :=
  s.LocalPlayers.head?

/-- Source: the text `ReturnReason` of `OnConnectionStatusChanged` (lines 177-183). -/
def ConnectionLostReason (e : Engine) : FText :=
  if e.PLATFORM_XBOXONE then "Connection to Xbox LIVE has been lost."
  else if e.PLATFORM_PS4 then "Connection to \"PSN\" has been lost."
  else "Connection has been lost."

/-- Source: `UShooterGameInstance::OnConnectionStatusChanged` (lines 163-190); the
status it stores in `CurrentConnectionStatus` is read back as `e.Connected`. -/
def OnConnectionStatusChanged (e : Engine) (s : UShooterGameInstance) : UShooterGameInstance :=
  if e.SHOOTER_CONSOLE_UI then
    if s.OnlineMode ≠ EOnlineMode.Offline
        ∧ s.PendingState ≠ ShooterGameInstanceState.LoginScreen
        ∧ s.CurrentState ≠ ShooterGameInstanceState.LoginScreen
        ∧ e.Connected = false then
      ShowMessageThenGotoState e (ConnectionLostReason e) "OK" FText.GetEmpty
        ShooterGameInstanceState.MainMenu OverrideExistingDefault none s
    else s
  else s

/-- Source: `UShooterGameInstance::SetControllerAndAdvanceToMainMenu` (lines 203-214). -/
def SetControllerAndAdvanceToMainMenu (ControllerIndex : Int) (s : UShooterGameInstance) :
    UShooterGameInstance :=
  match GetFirstGamePlayer s with
  | some NewPlayerOwner =>
    if ControllerIndex ≠ -1 then
      GotoState ShooterGameInstanceState.MainMenu
        (Record (Call.SetControllerId NewPlayerOwner ControllerIndex) s)
    else s
  | none => s

/-- Source: `UShooterGameInstance::OnContinueWithoutSavingConfirm` (lines 197-201). -/
def OnContinueWithoutSavingConfirm (s : UShooterGameInstance) : UShooterGameInstance :=
  SetControllerAndAdvanceToMainMenu 0 s

/-- Source: `UShooterGameInstance::OnJoinRTSession` (lines 558-580). -/
def OnJoinRTSession (e : Engine) (MapPath : FString) (s : UShooterGameInstance) :
    UShooterGameInstance :=
  if s.PendingState = s.CurrentState ∨ s.PendingState = ShooterGameInstanceState.None then
    let s := ShowLoadingScreen s
    let s := GotoState ShooterGameInstanceState.Playing s
    if e.FirstLocalPlayerController = false then
      let s := RemoveNetworkFailureHandlers s
      ShowMessageThenGoMain e "Invalid Player Controller" "OK" FText.GetEmpty s
    else
      Record (Call.ClientTravelInternal MapPath) s
  else s

/-- Source: `UShooterGameInstance::HandleSessionFailure` (lines 772-797). -/
def HandleSessionFailure (e : Engine) (s : UShooterGameInstance) : UShooterGameInstance :=
  if e.SHOOTER_CONSOLE_UI then
    if s.OnlineMode ≠ EOnlineMode.Offline
        ∧ s.PendingState ≠ ShooterGameInstanceState.LoginScreen
        ∧ s.CurrentState ≠ ShooterGameInstanceState.LoginScreen then
      ShowMessageThenGotoState e
        (if e.PLATFORM_XBOXONE then "Connection to Xbox LIVE has been lost."
         else if e.PLATFORM_PS4 then "Connection to PSN has been lost."
         else "Connection has been lost.")
        "OK" FText.GetEmpty ShooterGameInstanceState.MainMenu OverrideExistingDefault none s
    else s
  else s

/-- Source: `UShooterGameInstance::OnPreLoadMap` (lines 799-812); the viewport
client is taken to exist. -/
def OnPreLoadMap (s : UShooterGameInstance) : UShooterGameInstance :=
  if s.bPendingEnableSplitscreen then { s with bPendingEnableSplitscreen := false } else s

/-- Source: `UShooterGameInstance::OnPostDemoPlay` (lines 853-856). -/
def OnPostDemoPlay (s : UShooterGameInstance) : UShooterGameInstance :=
  GotoState ShooterGameInstanceState.Playing s

/-- Source: `UShooterGameInstance::HandleDemoPlaybackFailure` (lines 858-867). -/
def HandleDemoPlaybackFailure (e : Engine) (ErrorString : FString) (s : UShooterGameInstance) :
    UShooterGameInstance :=
  if e.WorldIsPIE then s
  else
    ShowMessageThenGotoState e ("Demo playback failed: " ++ ErrorString) "OK" FText.GetEmpty
      ShooterGameInstanceState.MainMenu OverrideExistingDefault none s

/-- Source: `UShooterGameInstance::StartPlayInEditorGameInstance` (lines 869-884),
compiled under `WITH_EDITOR`. -/
def StartPlayInEditorGameInstance (e : Engine) (s : UShooterGameInstance) :
    UShooterGameInstance :=
  if e.WITH_EDITOR && e.CurrentMapIsEntry then GotoInitialState e s else s

/-- Engine function `FString::Find` with its default arguments (ignoring case,
from the start), on upper-cased characters: the index of the first occurrence
of a non-empty `SubStr`, `-1` (`INDEX_NONE`) when there is none. -/
def FString.FindFrom : List Char → List Char → Nat → Int
  | [], _, _ => -1
  | c :: cs, SubStr, i =>
    if SubStr ≠ [] ∧ SubStr.isPrefixOf (c :: cs) = true then (i : Int)
    else FString.FindFrom cs SubStr (i + 1)

/-- Engine function `FString::Find(SubStr)`. -/
def FString.Find (s SubStr : FString) : Int :=
  FString.FindFrom (s.data.map Char.toUpper) (SubStr.data.map Char.toUpper) 0

/-- Engine function `FString::Contains(SubStr)`: `Find(SubStr) != INDEX_NONE`. -/
def FString.Contains (s SubStr : FString) : Bool :=
  decide (FString.Find s SubStr ≠ -1)

/-- Engine function `FString::Len`. -/
def FString.Len (s : FString) : Int := (s.length : Int)

/-- Engine function `FString::RightChop(Count)`: the string without its first
`Count` characters (`Count` clamped to the length). -/
def FString.RightChop (s : FString) (Count : Int) : FString :=
  String.mk (s.data.drop Count.toNat)

/-- Engine function `FString::LeftChop(Count)`: the string without its last
`Count` characters, that is its first `Len - Count` (clamped to `0..Len`). -/
def FString.LeftChop (s : FString) (Count : Int) : FString :=
  String.mk (s.data.take (FString.Len s - Count).toNat)

/-- Source: `UShooterGameInstance::StartGameInstance` (lines 886-933). -/
def StartGameInstance (e : Engine) (s : UShooterGameInstance) : UShooterGameInstance :=
  let Fallback := GotoInitialState e s
  if e.PLATFORM_PS4 then Fallback
  else
    match e.CommandLineToken with
    | some Parm =>
      if FString.Contains s.MainMenuMap Parm = false ∧ e.URLValid = true then
        match e.Browse with
        | EBrowseReturnVal.Success => GotoState ShooterGameInstanceState.Playing s
        | EBrowseReturnVal.Pending =>
          let s := (LoadFrontEndMap e s.MainMenuMap s).2
          let s := AddNetworkFailureHandlers s
          let s := ShowLoadingScreen s
          GotoState ShooterGameInstanceState.Playing s
        | EBrowseReturnVal.Failure => Fallback
      else Fallback
    | none => Fallback

/-- Source: `UShooterGameInstance::TravelLocalSessionFailure` (lines 1106-1120). -/
def TravelLocalSessionFailure (e : Engine) (ReasonString : FString) (s : UShooterGameInstance) :
    UShooterGameInstance :=
  if e.MenuPC then
    let ReturnReason : FText :=
      if ReasonString = "" then "Join Session failed."
      else "Join Session failed. " ++ ReasonString
    ShowMessageThenGoMain e ReturnReason "OK" FText.GetEmpty s
  else s

/-- Source: `UShooterGameInstance::SetPendingInvite` (lines 1127-1130). -/
def SetPendingInvite (InPendingInvite : FShooterPendingInvite) (s : UShooterGameInstance) :
    UShooterGameInstance :=
  { s with PendingInvite := InPendingInvite }

/-- Source: `UShooterGameInstance::InternalTravelToSession` (lines 1763-1809). -/
def InternalTravelToSession (e : Engine) (s : UShooterGameInstance) : UShooterGameInstance :=
  let s := Record Call.InternalTravelToSession s
  if e.FirstLocalPlayerController = false then
    let s := RemoveNetworkFailureHandlers s
    ShowMessageThenGoMain e "Invalid Player Controller" "OK" FText.GetEmpty s
  else if e.OnlineSub = false then
    let s := RemoveNetworkFailureHandlers s
    ShowMessageThenGoMain e "OSS missing" "OK" FText.GetEmpty s
  else
    let URL : FString := if e.TestEncryption then "?EncryptionToken=1" else ""
    Record (Call.ClientTravel URL) s

/-- Source: the `switch` of `FinishJoinSession` that picks `ReturnReason`
(lines 1736-1747). -/
def JoinFailureReason : EOnJoinSessionCompleteResult → FText
  | .SessionIsFull => "Game is full."
  | .SessionDoesNotExist => "Game no longer exists."
  | _ => "Join failed."

/-- Source: `UShooterGameInstance::FinishJoinSession` (lines 1731-1756). -/
def FinishJoinSession (e : Engine) (Result : EOnJoinSessionCompleteResult)
    (s : UShooterGameInstance) : UShooterGameInstance :=
  let s := Record (Call.FinishJoinSession Result) s
  if Result ≠ EOnJoinSessionCompleteResult.Success then
    let s := RemoveNetworkFailureHandlers s
    ShowMessageThenGoMain e (JoinFailureReason Result) "OK" FText.GetEmpty s
  else
    InternalTravelToSession e s

/-- Source: `UShooterGameInstance::OnRegisterJoiningLocalPlayerComplete`
(lines 1758-1761). -/
def OnRegisterJoiningLocalPlayerComplete (e : Engine) (Result : EOnJoinSessionCompleteResult)
    (s : UShooterGameInstance) : UShooterGameInstance :=
  FinishJoinSession e Result s

/-- Source: `UShooterGameInstance::OnJoinSessionComplete` (lines 1704-1729); the
branch for a second local player is commented out. -/
def OnJoinSessionComplete (e : Engine) (Result : EOnJoinSessionCompleteResult)
    (s : UShooterGameInstance) : UShooterGameInstance :=
  if Result = EOnJoinSessionCompleteResult.Success ∧ 1 < s.LocalPlayers.length then s
  else FinishJoinSession e Result s

/-- Source: `UShooterGameInstance::FinishSessionCreation` (lines 2441-2457). -/
def FinishSessionCreation (e : Engine) (Result : EOnJoinSessionCompleteResult)
    (s : UShooterGameInstance) : UShooterGameInstance :=
  let s := Record (Call.FinishSessionCreation Result) s
  if Result = EOnJoinSessionCompleteResult.Success then
    let s := Record Call.SendPlayTogetherInvites s
    Record (Call.ServerTravel s.TravelURL) s
  else
    ShowMessageThenGoMain e "Failed to create session." "OK" FText.GetEmpty s

/-- Source: `UShooterGameInstance::OnRegisterLocalPlayerComplete` (lines 2436-2439). -/
def OnRegisterLocalPlayerComplete (e : Engine) (Result : EOnJoinSessionCompleteResult)
    (s : UShooterGameInstance) : UShooterGameInstance :=
  FinishSessionCreation e Result s

/-- Source: `UShooterGameInstance::OnCreatePresenceSessionComplete`
(lines 1811-1835); the branch for a second local player is commented out. -/
def OnCreatePresenceSessionComplete (e : Engine) (bWasSuccessful : Bool)
    (s : UShooterGameInstance) : UShooterGameInstance :=
  if e.GameSession then
    if bWasSuccessful = true ∧ 1 < s.LocalPlayers.length then s
    else
      FinishSessionCreation e
        (if bWasSuccessful then EOnJoinSessionCompleteResult.Success
         else EOnJoinSessionCompleteResult.UnknownError) s
  else s

/-- Source: `UShooterGameInstance::GetQuickMatchUrl` (lines 2459-2463). -/
def GetQuickMatchUrl : FString := "/Game/Maps/AlienLab/Lab_Deathmatch?game=TDM?listen"

/-- The call `GameSession->HostSession(...)`: the engine may run the
session-creation delegate of the instance before it returns. -/
def GameSessionHostSession (e : Engine) (c : Call) (s : UShooterGameInstance) :
    Bool × UShooterGameInstance :=
  let s := Record c s
  match e.HostSessionCompletes with
  | some bWasSuccessful => (e.HostSession, OnCreatePresenceSessionComplete e bWasSuccessful s)
  | none => (e.HostSession, s)

/-- The call `GameSession->JoinSession(...)`: the engine may run the join
delegate of the instance before it returns. -/
def GameSessionJoinSession (e : Engine) (s : UShooterGameInstance) :
    Bool × UShooterGameInstance :=
  let s := Record Call.JoinSession s
  match e.JoinSessionCompletes with
  | some Result => (e.JoinSession, OnJoinSessionComplete e Result s)
  | none => (e.JoinSession, s)

/-- Source: `UShooterGameInstance::HostQuickSession` (lines 1534-1574).  The
session is hosted with the caller's `SessionSettings`, as in the source. -/
def HostQuickSession (e : Engine) (SessionSettings : FOnlineSessionSettings)
    (s : UShooterGameInstance) : Bool × UShooterGameInstance :=
  if e.GameSession then
    let s := { s with TravelURL := GetQuickMatchUrl }
    let r := GameSessionHostSession e (Call.HostSessionWithSettings SessionSettings) s
    if r.1 = true ∧ (r.2.PendingState = r.2.CurrentState
        ∨ r.2.PendingState = ShooterGameInstanceState.None) then
      (true, GotoState ShooterGameInstanceState.Playing (ShowLoadingScreen r.2))
    else (false, r.2)
  else (false, s)

/-- Source: `UShooterGameInstance::LoadMissionLevel` (lines 1576-1587). -/
def LoadMissionLevel (e : Engine) (MapPath : FString) (s : UShooterGameInstance) :
    Bool × UShooterGameInstance :=
  if s.PendingState = s.CurrentState ∨ s.PendingState = ShooterGameInstanceState.None then
    let s := ShowLoadingScreen s
    let s := GotoState ShooterGameInstanceState.Playing s
    LoadFrontEndMap e MapPath s
  else (false, s)

/-- Source: the map name `HostGame` and `HostQuickSession` cut out of a travel URL
(lines 1551-1553 and 1620-1622). -/
def MapNameOfTravelURL (TravelURL : FString) : FString :=
  let MapNameSubStr : FString := "/Game/Maps/"
  let ChoppedMapName := FString.RightChop TravelURL (FString.Len MapNameSubStr)
  FString.LeftChop ChoppedMapName
    (FString.Len ChoppedMapName - FString.Find ChoppedMapName "?game")

/-- Source: `UShooterGameInstance::HostGame` (lines 1589-1639). -/
def HostGame (e : Engine) (GameType InTravelURL : FString) (s : UShooterGameInstance) :
    Bool × UShooterGameInstance :=
  if s.OnlineMode = EOnlineMode.Offline then
    let s := ShowLoadingScreen s
    let s := GotoState ShooterGameInstanceState.Playing s
    let s := { s with TravelURL := InTravelURL }
    (true, Record (Call.ServerTravel s.TravelURL) s)
  else if e.GameSession then
    let s := { s with TravelURL := InTravelURL }
    let bIsLanMatch := FString.Contains InTravelURL "?bIsLanMatch"
    let MapName := MapNameOfTravelURL s.TravelURL
    let r := GameSessionHostSession e (Call.HostSession GameType MapName bIsLanMatch) s
    if r.1 = true ∧ (r.2.PendingState = r.2.CurrentState
        ∨ r.2.PendingState = ShooterGameInstanceState.None) then
      (true, GotoState ShooterGameInstanceState.Playing (ShowLoadingScreen r.2))
    else (false, r.2)
  else (false, s)

/-- Source: `UShooterGameInstance::JoinSession(ULocalPlayer*, int32)`
(lines 1641-1666). -/
def JoinSession (e : Engine) (s : UShooterGameInstance) : Bool × UShooterGameInstance :=
  if e.GameSession then
    let s := AddNetworkFailureHandlers s
    let r := GameSessionJoinSession e s
    if r.1 = true ∧ (r.2.PendingState = r.2.CurrentState
        ∨ r.2.PendingState = ShooterGameInstanceState.None) then
      (true, GotoState ShooterGameInstanceState.Playing (ShowLoadingScreen r.2))
    else (false, r.2)
  else (false, s)

/-- Source: `UShooterGameInstance::JoinSession(ULocalPlayer*, const FOnlineSessionSearchResult&)`
(lines 1668-1692); its body is that of the other overload. -/
def JoinSessionSearchResult (e : Engine) (s : UShooterGameInstance) :
    Bool × UShooterGameInstance :=
  if e.GameSession then
    let s := AddNetworkFailureHandlers s
    let r := GameSessionJoinSession e s
    if r.1 = true ∧ (r.2.PendingState = r.2.CurrentState
        ∨ r.2.PendingState = ShooterGameInstanceState.None) then
      (true, GotoState ShooterGameInstanceState.Playing (ShowLoadingScreen r.2))
    else (false, r.2)
  else (false, s)

/-- Source: the text `ReturnReason` of `Tick` (line 1890). -/
def NeedLicenseReason : FText :=
  "The signed in users do not have a license for this game. Please purchase ShooterGame from the Xbox Marketplace or sign in a user with a valid license."

/-- Source: `UShooterGameInstance::Tick` (lines 1870-1936).  The body of the
pending-invite branch is commented out in the source. -/
def Tick (e : Engine) (s : UShooterGameInstance) : Bool × UShooterGameInstance :=
  if e.IsRunningDedicatedServer then (true, s)
  else
    let s := MaybeChangeState e s
    let s :=
      if s.CurrentState ≠ ShooterGameInstanceState.LoginScreen then
        if s.bIsLicensed = false ∧ s.CurrentState ≠ ShooterGameInstanceState.None then
          ShowMessageThenGotoState e NeedLicenseReason "OK" FText.GetEmpty
            ShooterGameInstanceState.LoginScreen OverrideExistingDefault none s
        else s
      else s
    (true, s)

/-- Source: `UShooterGameInstance::HandleOpenCommand` (lines 1938-1947). -/
def HandleOpenCommand (e : Engine) (s : UShooterGameInstance) : Bool × UShooterGameInstance :=
  if e.SuperHandleOpenCommand then (true, GotoState ShooterGameInstanceState.Playing s)
  else (false, s)

/-- Source: `UShooterGameInstance::HandleSignInChangeMessaging` (lines 1949-1964). -/
def HandleSignInChangeMessaging (e : Engine) (s : UShooterGameInstance) : UShooterGameInstance :=
  let s := Record Call.HandleSignInChangeMessaging s
  if s.CurrentState ≠ GetInitialState e then
    if e.SHOOTER_CONSOLE_UI then
      ShowMessageThenGotoState e "Sign in status change occurred." "OK" FText.GetEmpty
        (GetInitialState e) OverrideExistingDefault none s
    else GotoInitialState e s
  else s

/-- Source: the flag `bDowngraded` of `HandleUserLoginChanged` (lines 1969-1973). -/
def bDowngraded (e : Engine) (OnlineMode : EOnlineMode) (LoginStatus : ELoginStatus) : Bool :=
  if e.PLATFORM_SWITCH then
    decide (LoginStatus = ELoginStatus.NotLoggedIn) ||
      (decide (OnlineMode = EOnlineMode.Online) &&
        decide (LoginStatus = ELoginStatus.UsingLocalProfile))
  else
    (decide (LoginStatus = ELoginStatus.NotLoggedIn) &&
        decide (OnlineMode = EOnlineMode.Offline)) ||
      (decide (LoginStatus ≠ ELoginStatus.LoggedIn) &&
        decide (OnlineMode ≠ EOnlineMode.Offline))

/-- Source: `UShooterGameInstance::HandleUserLoginChanged` (lines 1966-2006). -/
def HandleUserLoginChanged (e : Engine) (GameUserIndex : Nat)
    (_PreviousLoginStatus LoginStatus : ELoginStatus) (UserId : FUniqueNetId)
    (s : UShooterGameInstance) : UShooterGameInstance :=
  let Downgraded := bDowngraded e s.OnlineMode LoginStatus
  let s := { s with bIsLicensed := e.ApplicationLicenseValid }
  let s := { s with
    LocalPlayerOnlineStatus := s.LocalPlayerOnlineStatus.set GameUserIndex LoginStatus }
  match e.FindLocalPlayerFromUniqueNetId UserId with
  | some LocalPlayer =>
    if Downgraded then
      let s := Record (Call.LabelPlayerAsQuitter LocalPlayer) s
      if some LocalPlayer = GetFirstGamePlayer s ∨ s.OnlineMode ≠ EOnlineMode.Offline then
        HandleSignInChangeMessaging e s
      else
        RemoveExistingLocalPlayer LocalPlayer s
    else s
  | none => s

/-- Source: `UShooterGameInstance::HandleAppResume` (lines 2064-2082): the loop
calls `HandleSignInChangeMessaging` for the first local player that was signed
out during the resume, and stops. -/
def HandleAppResume (e : Engine) (s : UShooterGameInstance) : UShooterGameInstance :=
  if s.CurrentState ≠ ShooterGameInstanceState.None ∧ s.CurrentState ≠ GetInitialState e then
    if (s.LocalPlayers.zip s.LocalPlayerOnlineStatus).any (fun x =>
        e.CachedUniqueNetIdValid x.1 && decide (x.2 = ELoginStatus.LoggedIn)
          && !e.IsLocalPlayerOnline x.1) then
      HandleSignInChangeMessaging e s
    else s
  else s

/-- Source: `UShooterGameInstance::HandleAppLicenseUpdate` (lines 2084-2088). -/
def HandleAppLicenseUpdate (e : Engine) (s : UShooterGameInstance) : UShooterGameInstance :=
  { s with bIsLicensed := e.ApplicationLicenseValid }

/-- Source: `UShooterGameInstance::OnPairingUseNewProfile` (lines 2128-2132). -/
def OnPairingUseNewProfile (e : Engine) (s : UShooterGameInstance) : UShooterGameInstance :=
  HandleSignInChangeMessaging e s

/-- Source: `UShooterGameInstance::HandleControllerPairingChanged`
(lines 2134-2186); `PreviousUserValid` and `NewUserValid` are
`PreviousUser.IsValid()` and `NewUser.IsValid()`. -/
def HandleControllerPairingChanged (e : Engine) (GameUserIndex : Int)
    (PreviousUserValid NewUserValid : Bool) (s : UShooterGameInstance) : UShooterGameInstance :=
  if s.CurrentState = ShooterGameInstanceState.LoginScreen then s
  else if e.SHOOTER_CONSOLE_UI && e.PLATFORM_XBOXONE then
    if s.IgnorePairingChangeForControllerId ≠ -1
        ∧ GameUserIndex = s.IgnorePairingChangeForControllerId then
      { s with IgnorePairingChangeForControllerId := -1 }
    else if PreviousUserValid = true ∧ NewUserValid = false then s
    else if PreviousUserValid = false ∧ NewUserValid = true then
      match e.FindLocalPlayerFromControllerId GameUserIndex with
      | some ControlledLocalPlayer =>
        if e.CachedUniqueNetIdValid ControlledLocalPlayer = false then
          HandleSignInChangeMessaging e s
        else s
      | none => s
    else s
  else s

/-- Source: `UShooterGameInstance::TravelToSession` (lines 2257-2264). -/
def TravelToSession (e : Engine) (s : UShooterGameInstance) : UShooterGameInstance :=
  let s := AddNetworkFailureHandlers s
  let s := ShowLoadingScreen s
  let s := GotoState ShooterGameInstanceState.Playing s
  InternalTravelToSession e s

/-- Source: `UShooterGameInstance::BeginHostingQuickMatch` (lines 2465-2472). -/
def BeginHostingQuickMatch (s : UShooterGameInstance) : UShooterGameInstance :=
  let s := ShowLoadingScreen s
  let s := GotoState ShooterGameInstanceState.Playing s
  Record (Call.ServerTravel GetQuickMatchUrl) s

/-- Source: the local `HostSettings` that `HostQuickSession` builds from the
caller's settings and the quick-match URL before it hosts the session (lines
1544-1557).  `GameType` is the answer of the engine's
`UGameplayStatics::ParseOption(TravelURL, "game")`. -/
def HostSettings (GameType : FString) (SessionSettings : FOnlineSessionSettings) :
    FOnlineSessionSettings :=
  let TravelURL := GetQuickMatchUrl
  let HostSettings := SessionSettings
  let MapName := MapNameOfTravelURL TravelURL
  let HostSettings := { HostSettings with GameMode := GameType }
  let HostSettings := { HostSettings with MapName := MapName }
  { HostSettings with NumPublicConnections := 16 }

/-- Source: `FString::IsEmpty`. -/
def FString.IsEmpty (s : FString) : Bool := decide (s = "")

/-- Engine enumeration `EEncryptionResponse`. -/
inductive EEncryptionResponse where
  | Failure
  | Success
  | InvalidToken
  | NoKey
  | SessionIdMismatch
  | InvalidParams
  deriving DecidableEq, Repr

/-- Engine type `FEncryptionKeyResponse`; the key is an array of bytes, each a
number below 256, and a response built without a key holds the empty array. -/
structure FEncryptionKeyResponse where
  Response : EEncryptionResponse
  ErrorMsg : FString
  EncryptionKey : List Nat
  deriving DecidableEq, Repr

/-- Source: the loop of `Init` that fills `DebugTestEncryptionKey` (lines
157-160), from index `i` on, for at most `fuel` rounds; `uint8(i)` is `i % 256`. -/
def InitDebugTestEncryptionKeyLoop : Nat → Nat → List Nat → List Nat
  | 0, _, DebugTestEncryptionKey => DebugTestEncryptionKey
  | fuel + 1, i, DebugTestEncryptionKey =>
    if i < DebugTestEncryptionKey.length then
      InitDebugTestEncryptionKeyLoop fuel (i + 1) (DebugTestEncryptionKey.set i (i % 256))
    else DebugTestEncryptionKey

/-- Source: the value `Init` leaves in the member `DebugTestEncryptionKey` (lines
154-160): `SetNum(32)` on the empty array, then the loop, which ends after one
round per element. -/
def InitDebugTestEncryptionKey : List Nat :=
  let DebugTestEncryptionKey := List.replicate 32 0
  InitDebugTestEncryptionKeyLoop DebugTestEncryptionKey.length 0 DebugTestEncryptionKey

/-- Source: `UShooterGameInstance::ReceivedNetworkEncryptionToken` (lines
2538-2561), reading the member `DebugTestEncryptionKey`; the result is the
response the delegate is executed with. -/
def ReceivedNetworkEncryptionToken (DebugTestEncryptionKey : List Nat)
    (EncryptionToken : FString) : FEncryptionKeyResponse :=
  let Response : FEncryptionKeyResponse :=
    { Response := EEncryptionResponse.Failure, ErrorMsg := "Unknown encryption failure"
      EncryptionKey := [] }
  if FString.IsEmpty EncryptionToken then
    { Response with
      Response := EEncryptionResponse.InvalidToken
      ErrorMsg := "Encryption token is empty." }
  else
    { Response with
      Response := EEncryptionResponse.Success
      EncryptionKey := DebugTestEncryptionKey }

/-- Source: `UShooterGameInstance::ReceivedNetworkEncryptionAck` (lines
2563-2578), reading the member `DebugTestEncryptionKey`; the result is the
response the delegate is executed with. -/
def ReceivedNetworkEncryptionAck (DebugTestEncryptionKey : List Nat) :
    FEncryptionKeyResponse :=
  let Response : FEncryptionKeyResponse :=
    { Response := EEncryptionResponse.Failure, ErrorMsg := "", EncryptionKey := [] }
  { Response with
    Response := EEncryptionResponse.Success
    EncryptionKey := DebugTestEncryptionKey }

/-- Source: class `RTPlayer` (RTPlayer.h, lines 12-23). -/
structure RTPlayer where
  DisplayName : FString
  ID : FString
  PeerID : Int
  bIsOnline : Bool
  deriving DecidableEq, Repr

/-- Modelled from the spec: the class `RTSessionInfo` of the member `SessionInfo`
is declared in a header that is not among the sources; of it the lookup reads
`PlayerList`, the players of the session, each entry a valid pointer. -/
structure RTSessionInfo where
  PlayerList : List RTPlayer
  deriving DecidableEq, Repr

/-- Source: the `for` loop of `GetRTPlayerFromPeerId` over the rest of
`SessionInfo->PlayerList` (lines 702-709). -/
def GetRTPlayerFromPeerIdLoop (PeerId : Int) : List RTPlayer → Option RTPlayer
  | [] => none
  | rtPlayer :: rest =>
    if rtPlayer.PeerID = PeerId then some rtPlayer
    else GetRTPlayerFromPeerIdLoop PeerId rest

/-- Source: `UShooterGameInstance::GetRTPlayerFromPeerId` (lines 698-712), reading
the member `SessionInfo`, a shared pointer that is `none` when it is not valid. -/
def GetRTPlayerFromPeerId (SessionInfo : Option RTSessionInfo) (PeerId : Int) :
    Option RTPlayer :=
  match SessionInfo with
  | some Info => GetRTPlayerFromPeerIdLoop PeerId Info.PlayerList
  | none => none

/-- Source: `UShooterGameInstance::OnChatMessageReceived` (lines 582-595).  The
result is `none` when the online subsystem is missing: the assertion fails and
the null pointer is used. -/
def OnChatMessageReceived (e : Engine)
    (Channel FromDisplayName FromPlayerId MessageText : FString)
    (s : UShooterGameInstance) : Option UShooterGameInstance :=
  let s := Record (Call.OnChatMessageReceived Channel FromDisplayName FromPlayerId
    MessageText) s
  if e.OnlineSub then
    if e.MenuPC then
      some (Record (Call.MenuPCOnChatMessageReceived Channel FromPlayerId FromDisplayName
        MessageText) s)
    else some s
  else none

/-- Source: `UShooterGameInstance::OnPlayerConnect` (lines 680-687). -/
def OnPlayerConnect (e : Engine) (SessionInfo : Option RTSessionInfo) (PeerId : Int)
    (s : UShooterGameInstance) : Option UShooterGameInstance :=
  match GetRTPlayerFromPeerId SessionInfo PeerId with
  | some player =>
    OnChatMessageReceived e "System" "System" player.DisplayName "has connected" s
  | none => some s

/-- Source: `UShooterGameInstance::OnPlayerDisconnect` (lines 689-696). -/
def OnPlayerDisconnect (e : Engine) (SessionInfo : Option RTSessionInfo) (PeerId : Int)
    (s : UShooterGameInstance) : Option UShooterGameInstance :=
  match GetRTPlayerFromPeerId SessionInfo PeerId with
  | some player =>
    OnChatMessageReceived e "System" "System" player.DisplayName "has disconnected" s
  | none => some s

/-! ## Vocabulary of the properties -/

/-- A call that is an exit hook or an enter hook of a state. -/
def HookCall (c : Call) : Bool := c.IsExitHook || c.IsEnterHook

/-- The hooks among a list of calls, in the order they ran. -/
def HooksOf (cs : List Call) : List Call := cs.filter HookCall

/-- The exit hook a state name selects: each of the five states other than
`None` has its own, `None` and every other name select none. -/
def ExitHook : FName → Option Call
  | FName.PendingInvite => some Call.EndPendingInviteState
  | FName.Login => some Call.EndLoginScreenState
  | FName.MainMenu => some Call.EndMainMenuState
  | FName.MessageMenu => some Call.EndMessageMenuState
  | FName.Playing => some Call.EndPlayingState
  | _ => none

/-- The enter hook a state name selects: each of the five states other than
`None` has its own, `None` and every other name select none. -/
def EnterHook : FName → Option Call
  | FName.PendingInvite => some Call.BeginPendingInviteState
  | FName.Login => some Call.BeginLoginState
  | FName.MainMenu => some Call.BeginMainMenuState
  | FName.MessageMenu => some Call.BeginMessageMenuState
  | FName.Playing => some Call.BeginPlayingState
  | _ => none

/-- One of the six state names `None`, `LoginScreen`, `PendingInvite`, `MainMenu`,
`MessageMenu`, `Playing`. -/
def IsStateName (n : FName) : Bool :=
  decide (n = ShooterGameInstanceState.None) || decide (n = ShooterGameInstanceState.LoginScreen)
    || decide (n = ShooterGameInstanceState.PendingInvite)
    || decide (n = ShooterGameInstanceState.MainMenu)
    || decide (n = ShooterGameInstanceState.MessageMenu)
    || decide (n = ShooterGameInstanceState.Playing)

/-- `CurrentState` and `PendingState` both hold one of the six state names. -/
def StatesNamed (s : UShooterGameInstance) : Prop :=
  IsStateName s.CurrentState = true ∧ IsStateName s.PendingState = true

instance (s : UShooterGameInstance) : Decidable (StatesNamed s) := by
  unfold StatesNamed; infer_instance

/-- The three cases in which the spec says `ShowMessageThenGotoState` is ignored:
(a) at or heading to the login screen; (b) at or heading to the message menu
with a message that leads to the login screen; (c) without `OverrideExisting`,
at or heading to the message menu with a message that leads to `NewState`, or
at or heading to `NewState`. -/
def Suppressed (s : UShooterGameInstance) (NewState : FName) (OverrideExisting : Bool) : Prop :=
  (s.PendingState = ShooterGameInstanceState.LoginScreen
      ∨ s.CurrentState = ShooterGameInstanceState.LoginScreen)
  ∨ ((s.PendingState = ShooterGameInstanceState.MessageMenu
        ∨ s.CurrentState = ShooterGameInstanceState.MessageMenu)
      ∧ s.PendingMessage.NextState = ShooterGameInstanceState.LoginScreen)
  ∨ (OverrideExisting = false
      ∧ (((s.PendingState = ShooterGameInstanceState.MessageMenu
            ∨ s.CurrentState = ShooterGameInstanceState.MessageMenu)
          ∧ s.PendingMessage.NextState = NewState)
        ∨ (s.PendingState = NewState ∨ s.CurrentState = NewState)))

instance (s : UShooterGameInstance) (n : FName) (b : Bool) : Decidable (Suppressed s n b) := by
  unfold Suppressed; infer_instance

/-- An engine in which every service answers and nothing completes early; on
a desktop build. -/
def Engine.Desktop : Engine :=
  { IsLoggedIn := true, IdentityValid := true, LoadFrontEndMap := true
    GetUserPrivilege := none, GameState := true, FirstLocalPlayerController := true
    MenuPC := true, OnlineSub := true, GameSession := true, HostSession := true
    HostSessionCompletes := none, JoinSession := true, JoinSessionCompletes := none
    TestEncryption := false, IsRunningDedicatedServer := false
    ApplicationLicenseValid := true, Connected := true, WorldIsPIE := false
    CurrentMapIsEntry := false, CommandLineToken := none, URLValid := true
    Browse := EBrowseReturnVal.Success, SuperHandleOpenCommand := true
    CachedUniqueNetIdValid := fun _ => true, IsLocalPlayerOnline := fun _ => true
    FindLocalPlayerFromUniqueNetId := fun _ => none
    FindLocalPlayerFromControllerId := fun _ => none
    SHOOTER_CONSOLE_UI := false, PLATFORM_XBOXONE := false, PLATFORM_PS4 := false
    PLATFORM_SWITCH := false, WITH_EDITOR := false }

/-- An instance at the given current and pending state, everything else as
constructed. -/
def At (Current Pending : FName) : UShooterGameInstance :=
  { Constructor with CurrentState := Current, PendingState := Pending }

/-- The operations of the instance that the engine, the menus and the callbacks
invoke. -/
inductive Op where
  | GotoState (NewState : FName)
  | GotoInitialState
  | MaybeChangeState
  | Tick
  | ShowMessageThenGotoState (Message OKButtonString CancelButtonString : FText)
      (NewState : FName) (OverrideExisting : Bool) (PlayerOwner : Option ULocalPlayer)
  | ShowMessageThenGoMain (Message OKButtonString CancelButtonString : FText)
  | OnUserCanPlayInvite (UserId : FUniqueNetId) (PrivilegeResults : Nat)
  | OnUserCanPlayTogether (UserId : FUniqueNetId) (PrivilegeResults : Nat)
  | OnJoinRTSession (MapPath : FString)
  | JoinSession
  | JoinSessionSearchResult
  | OnJoinSessionComplete (Result : EOnJoinSessionCompleteResult)
  | OnRegisterJoiningLocalPlayerComplete (Result : EOnJoinSessionCompleteResult)
  | HostGame (GameType InTravelURL : FString)
  | HostQuickSession (SessionSettings : FOnlineSessionSettings)
  | OnCreatePresenceSessionComplete (bWasSuccessful : Bool)
  | OnRegisterLocalPlayerComplete (Result : EOnJoinSessionCompleteResult)
  | LoadMissionLevel (MapPath : FString)
  | TravelToSession
  | TravelLocalSessionFailure (ReasonString : FString)
  | BeginHostingQuickMatch
  | OnConnectionStatusChanged
  | HandleSessionFailure
  | SetControllerAndAdvanceToMainMenu (ControllerIndex : Int)
  | OnContinueWithoutSavingConfirm
  | OnPostDemoPlay
  | HandleDemoPlaybackFailure (ErrorString : FString)
  | StartPlayInEditorGameInstance
  | StartGameInstance
  | HandleOpenCommand
  | HandleSignInChangeMessaging
  | HandleUserLoginChanged (GameUserIndex : Nat) (PreviousLoginStatus LoginStatus : ELoginStatus)
      (UserId : FUniqueNetId)
  | HandleAppResume
  | HandleAppLicenseUpdate
  | OnPairingUseNewProfile
  | HandleControllerPairingChanged (GameUserIndex : Int) (PreviousUserValid NewUserValid : Bool)
  | SetPendingInvite (InPendingInvite : FShooterPendingInvite)
  | OnPreLoadMap

/-- Runs one operation on the instance, with the engine answering as `e`. -/
def Op.Run (e : Engine) : Op → UShooterGameInstance → UShooterGameInstance
  | .GotoState NewState, s => UShooterGameInstance.GotoState NewState s
  | .GotoInitialState, s => UShooterGameInstance.GotoInitialState e s
  | .MaybeChangeState, s => UShooterGameInstance.MaybeChangeState e s
  | .Tick, s => (UShooterGameInstance.Tick e s).2
  | .ShowMessageThenGotoState m ok c n o p, s => UShooterGameInstance.ShowMessageThenGotoState e m ok c n o p s
  | .ShowMessageThenGoMain m ok c, s => UShooterGameInstance.ShowMessageThenGoMain e m ok c s
  | .OnUserCanPlayInvite u r, s => UShooterGameInstance.OnUserCanPlayInvite u r s
  | .OnUserCanPlayTogether u r, s => UShooterGameInstance.OnUserCanPlayTogether u r s
  | .OnJoinRTSession m, s => UShooterGameInstance.OnJoinRTSession e m s
  | .JoinSession, s => (UShooterGameInstance.JoinSession e s).2
  | .JoinSessionSearchResult, s => (UShooterGameInstance.JoinSessionSearchResult e s).2
  | .OnJoinSessionComplete r, s => UShooterGameInstance.OnJoinSessionComplete e r s
  | .OnRegisterJoiningLocalPlayerComplete r, s => UShooterGameInstance.OnRegisterJoiningLocalPlayerComplete e r s
  | .HostGame g u, s => (UShooterGameInstance.HostGame e g u s).2
  | .HostQuickSession x, s => (UShooterGameInstance.HostQuickSession e x s).2
  | .OnCreatePresenceSessionComplete b, s => UShooterGameInstance.OnCreatePresenceSessionComplete e b s
  | .OnRegisterLocalPlayerComplete r, s => UShooterGameInstance.OnRegisterLocalPlayerComplete e r s
  | .LoadMissionLevel m, s => (UShooterGameInstance.LoadMissionLevel e m s).2
  | .TravelToSession, s => UShooterGameInstance.TravelToSession e s
  | .TravelLocalSessionFailure r, s => UShooterGameInstance.TravelLocalSessionFailure e r s
  | .BeginHostingQuickMatch, s => UShooterGameInstance.BeginHostingQuickMatch s
  | .OnConnectionStatusChanged, s => UShooterGameInstance.OnConnectionStatusChanged e s
  | .HandleSessionFailure, s => UShooterGameInstance.HandleSessionFailure e s
  | .SetControllerAndAdvanceToMainMenu i, s => UShooterGameInstance.SetControllerAndAdvanceToMainMenu i s
  | .OnContinueWithoutSavingConfirm, s => UShooterGameInstance.OnContinueWithoutSavingConfirm s
  | .OnPostDemoPlay, s => UShooterGameInstance.OnPostDemoPlay s
  | .HandleDemoPlaybackFailure x, s => UShooterGameInstance.HandleDemoPlaybackFailure e x s
  | .StartPlayInEditorGameInstance, s => UShooterGameInstance.StartPlayInEditorGameInstance e s
  | .StartGameInstance, s => UShooterGameInstance.StartGameInstance e s
  | .HandleOpenCommand, s => (UShooterGameInstance.HandleOpenCommand e s).2
  | .HandleSignInChangeMessaging, s => UShooterGameInstance.HandleSignInChangeMessaging e s
  | .HandleUserLoginChanged i p l u, s => UShooterGameInstance.HandleUserLoginChanged e i p l u s
  | .HandleAppResume, s => UShooterGameInstance.HandleAppResume e s
  | .HandleAppLicenseUpdate, s => UShooterGameInstance.HandleAppLicenseUpdate e s
  | .OnPairingUseNewProfile, s => UShooterGameInstance.OnPairingUseNewProfile e s
  | .HandleControllerPairingChanged i p n, s => UShooterGameInstance.HandleControllerPairingChanged e i p n s
  | .SetPendingInvite x, s => UShooterGameInstance.SetPendingInvite x s
  | .OnPreLoadMap, s => UShooterGameInstance.OnPreLoadMap s

/-- The assumption on outside callers: `GotoState` is passed one of the six
state names.  The other operations take any argument. -/
def Op.Admissible : Op → Prop
  | .GotoState NewState => IsStateName NewState = true
  | _ => True

/-- Runs a sequence of operations, each with its own answers of the engine. -/
def RunAll : List (Engine × Op) → UShooterGameInstance → UShooterGameInstance
  | [], s => s
  | (e, op) :: rest, s => RunAll rest (op.Run e s)

/-- The calls recorded between an earlier instance and a later one. -/
def CallsSince (Before After : UShooterGameInstance) : List Call :=
  After.Calls.drop Before.Calls.length

/-- An instance at `MainMenu` that is heading to the message menu with the
message `Join failed.` that leads back to `MainMenu`: the state
`ShowMessageThenGoMain` leaves behind when a join fails at the main menu. -/
def JoinFailedAtMainMenu : UShooterGameInstance :=
  { At FName.MainMenu FName.MessageMenu with
    PendingMessage :=
      { DisplayString := "Join failed.", OKButtonString := "OK", CancelButtonString := "",
        NextState := FName.MainMenu, PlayerOwner := none } }

/-- An instance at the message menu whose message, already displayed, leads to
the login screen: the state an unlicensed player is left in. -/
def LicenseMessageShown : UShooterGameInstance :=
  { At FName.MessageMenu FName.NAME_None with
    PendingMessage :=
      { DisplayString := "", OKButtonString := "OK", CancelButtonString := "",
        NextState := FName.Login, PlayerOwner := none } }

/-- An engine that answers as `Engine.Desktop` but has no first local player
controller. -/
def Engine.NoPlayerController : Engine :=
  { Engine.Desktop with FirstLocalPlayerController := false }

/-- An engine that answers as `Engine.Desktop` but has no online subsystem. -/
def Engine.NoOnlineSub : Engine :=
  { Engine.Desktop with OnlineSub := false }

/-- The text `InternalTravelToSession` shows when it cannot travel: the player
controller is looked for first, the online subsystem second. -/
def TravelFailureReason (e : Engine) : FText :=
  if e.FirstLocalPlayerController = false then "Invalid Player Controller" else "OSS missing"

/-- An instance at the message menu, showing a message that leads to `MainMenu`,
with nothing pending. -/
def MessageShown : UShooterGameInstance :=
  { At FName.MessageMenu FName.NAME_None with
    PendingMessage :=
      { DisplayString := "", OKButtonString := "OK", CancelButtonString := "",
        NextState := FName.MainMenu, PlayerOwner := none } }

/-- An instance in the `PendingInvite` state whose invite has a valid user
identifier and has passed the privilege check. -/
def InviteAllowed : UShooterGameInstance :=
  { At FName.PendingInvite FName.NAME_None with
    PendingInvite :=
      { ControllerId := 0, UserId := some "friend", bPrivilegesCheckedAndAllowed := true } }

/-- An instance in the `PendingInvite` state whose invite has a valid user
identifier and has not passed the privilege check yet. -/
def InviteUnchecked : UShooterGameInstance :=
  { At FName.PendingInvite FName.NAME_None with
    PendingInvite :=
      { ControllerId := 0, UserId := some "friend", bPrivilegesCheckedAndAllowed := false } }

/-- An engine that answers as `Engine.Desktop` but fails to load the front-end
map. -/
def Engine.MapFails : Engine :=
  { Engine.Desktop with LoadFrontEndMap := false }

/-- Runs `Tick` once per entry of the list, in order, each with its own answers
of the engine. -/
def Ticks : List Engine → UShooterGameInstance → UShooterGameInstance
  | [], s => s
  | e :: rest, s => Ticks rest (Tick e s).2

/-- The licence message that leads to the login screen is on display: the
player is unlicensed, the machine is at `MessageMenu` with nothing else pending,
and the message leads to `LoginScreen`. -/
def LicenseMessageDisplayed (s : UShooterGameInstance) : Prop :=
  s.bIsLicensed = false
    ∧ s.CurrentState = ShooterGameInstanceState.MessageMenu
    ∧ s.PendingMessage.NextState = ShooterGameInstanceState.LoginScreen
    ∧ (s.PendingState = ShooterGameInstanceState.None
      ∨ s.PendingState = ShooterGameInstanceState.MessageMenu)

/-- The licence message is written and the machine is heading to `MessageMenu`
from another state: the player is unlicensed, the message leads to
`LoginScreen` and is not yet displayed. -/
def LicenseMessagePending (s : UShooterGameInstance) : Prop :=
  s.bIsLicensed = false
    ∧ s.CurrentState ≠ ShooterGameInstanceState.MessageMenu
    ∧ s.PendingState = ShooterGameInstanceState.MessageMenu
    ∧ s.PendingMessage.NextState = ShooterGameInstanceState.LoginScreen
    ∧ s.PendingMessage.DisplayString ≠ ""

/-- An unlicensed instance at `MainMenu` with nothing pending. -/
def UnlicensedAtMainMenu : UShooterGameInstance :=
  { At FName.MainMenu FName.NAME_None with bIsLicensed := false }

/-- A transition other than the one about to be requested is pending: the
guard `PendingState == CurrentState || PendingState == None` fails. -/
def OtherTransitionPending (s : UShooterGameInstance) : Prop :=
  s.PendingState ≠ s.CurrentState ∧ s.PendingState ≠ ShooterGameInstanceState.None

instance (s : UShooterGameInstance) : Decidable (OtherTransitionPending s) := by
  unfold OtherTransitionPending; infer_instance

/-- The instance as both overloads of `JoinSession` find it at their guard:
after `AddNetworkFailureHandlers` and the call `GameSession->JoinSession`. -/
def JoinSessionAtGuard (e : Engine) (s : UShooterGameInstance) : UShooterGameInstance :=
  (GameSessionJoinSession e (AddNetworkFailureHandlers s)).2

/-- The instance as `HostQuickSession` finds it at its guard: after the
assignment of `TravelURL` and the call `GameSession->HostSession`. -/
def HostQuickSessionAtGuard (e : Engine) (SessionSettings : FOnlineSessionSettings)
    (s : UShooterGameInstance) : UShooterGameInstance :=
  (GameSessionHostSession e (Call.HostSessionWithSettings SessionSettings)
    { s with TravelURL := GetQuickMatchUrl }).2

/-- The instance as the online branch of `HostGame` finds it at its guard: after
the assignment of `TravelURL` and the call `GameSession->HostSession`. -/
def HostGameAtGuard (e : Engine) (GameType InTravelURL : FString)
    (s : UShooterGameInstance) : UShooterGameInstance :=
  (GameSessionHostSession e
    (Call.HostSession GameType (MapNameOfTravelURL InTravelURL)
      (FString.Contains InTravelURL "?bIsLanMatch"))
    { s with TravelURL := InTravelURL }).2

/-- An engine that answers as `Engine.Desktop` but whose `JoinSession` runs the
join delegate at once with a failure, and whose `HostSession` runs the creation
delegate at once with a failure. -/
def Engine.FailsAtOnce : Engine :=
  { Engine.Desktop with
    JoinSessionCompletes := some EOnJoinSessionCompleteResult.UnknownError
    HostSessionCompletes := some false }

/-- An instance at `MainMenu` with nothing pending, in online mode. -/
def OnlineAtMainMenu : UShooterGameInstance := At FName.MainMenu FName.NAME_None

/-- An instance at `MainMenu` heading to `Playing` with two local players: a
join or a session creation is under way on a split screen. -/
def TwoPlayersJoining : UShooterGameInstance :=
  { At FName.MainMenu FName.Playing with LocalPlayers := [0, 1], TravelURL := GetQuickMatchUrl }

/-- The same with a single local player. -/
def OnePlayerJoining : UShooterGameInstance :=
  { At FName.MainMenu FName.Playing with LocalPlayers := [0], TravelURL := GetQuickMatchUrl }

/-- A string contains another one, compared ignoring case: the upper-cased
characters of `SubStr` occur as a block among those of `s`. -/
def ContainsIgnoringCase (s SubStr : FString) : Prop :=
  (SubStr.data.map Char.toUpper) <:+: (s.data.map Char.toUpper)

instance (s SubStr : FString) : Decidable (ContainsIgnoringCase s SubStr) := by
  unfold ContainsIgnoringCase; infer_instance

/-- An engine that answers as `Engine.Desktop` and knows every user identifier
as the second local player. -/
def Engine.UserIsSecondPlayer : Engine :=
  { Engine.Desktop with FindLocalPlayerFromUniqueNetId := fun _ => some 1 }

/-- The settings a caller brings to `HostQuickSession`: another game mode,
another map and eight public connections. -/
def CallerSettings : FOnlineSessionSettings :=
  { GameMode := "FFA", MapName := "Highrise", NumPublicConnections := 8 }

/-- A session of three players; two of them have the peer identifier `2`. -/
def ThreePlayerSession : RTSessionInfo :=
  { PlayerList :=
      [ { DisplayName := "Ann", ID := "a", PeerID := 1, bIsOnline := true },
        { DisplayName := "Bob", ID := "b", PeerID := 2, bIsOnline := true },
        { DisplayName := "Cid", ID := "c", PeerID := 2, bIsOnline := false } ] }

/-! ## Frame lemmas -/

theorem RemoveSplitScreenPlayersLoop_frame (fuel : Nat) (s : UShooterGameInstance) :
    RemoveSplitScreenPlayersLoop fuel s =
      { s with LocalPlayers := (RemoveSplitScreenPlayersLoop fuel s).LocalPlayers } := by
  induction fuel generalizing s with
  | zero => rfl
  | succ n ih =>
    unfold RemoveSplitScreenPlayersLoop
    split
    · split
      · next p hp =>
        rw [ih]
        simp [RemoveExistingLocalPlayer, RemoveLocalPlayer]
      · rfl
    · rfl

theorem RemoveSplitScreenPlayers_frame (s : UShooterGameInstance) :
    RemoveSplitScreenPlayers s =
      { s with LocalPlayers := (RemoveSplitScreenPlayers s).LocalPlayers } :=
  RemoveSplitScreenPlayersLoop_frame _ s

@[simp] theorem RemoveSplitScreenPlayers_CurrentState (s : UShooterGameInstance) :
    (RemoveSplitScreenPlayers s).CurrentState = s.CurrentState := by
  rw [RemoveSplitScreenPlayers_frame]

@[simp] theorem RemoveSplitScreenPlayers_PendingState (s : UShooterGameInstance) :
    (RemoveSplitScreenPlayers s).PendingState = s.PendingState := by
  rw [RemoveSplitScreenPlayers_frame]

@[simp] theorem RemoveSplitScreenPlayers_PendingMessage (s : UShooterGameInstance) :
    (RemoveSplitScreenPlayers s).PendingMessage = s.PendingMessage := by
  rw [RemoveSplitScreenPlayers_frame]

@[simp] theorem RemoveSplitScreenPlayers_Calls (s : UShooterGameInstance) :
    (RemoveSplitScreenPlayers s).Calls = s.Calls := by
  rw [RemoveSplitScreenPlayers_frame]

@[simp] theorem RemoveSplitScreenPlayers_MainMenuMap (s : UShooterGameInstance) :
    (RemoveSplitScreenPlayers s).MainMenuMap = s.MainMenuMap := by
  rw [RemoveSplitScreenPlayers_frame]

@[simp] theorem RemoveSplitScreenPlayers_LoginScreenMap (s : UShooterGameInstance) :
    (RemoveSplitScreenPlayers s).LoginScreenMap = s.LoginScreenMap := by
  rw [RemoveSplitScreenPlayers_frame]

theorem EndCurrentState_CurrentState (e : Engine) (n : FName) (s : UShooterGameInstance) :
    (EndCurrentState e n s).CurrentState = ShooterGameInstanceState.None := rfl

theorem EndCurrentState_PendingState (e : Engine) (n : FName) (s : UShooterGameInstance) :
    (EndCurrentState e n s).PendingState = s.PendingState := by
  simp only [EndCurrentState]
  split_ifs <;>
    simp [EndPendingInviteState, EndLoginScreenState, EndMainMenuState, EndMessageMenuState,
      EndPlayingState, CleanupOnlinePrivilegeTask, CleanupSessionOnReturnToMenu, Record]
  split_ifs <;> rfl

theorem EndCurrentState_PendingMessage (e : Engine) (n : FName) (s : UShooterGameInstance) :
    (EndCurrentState e n s).PendingMessage = s.PendingMessage := by
  simp only [EndCurrentState]
  split_ifs <;>
    simp [EndPendingInviteState, EndLoginScreenState, EndMainMenuState, EndMessageMenuState,
      EndPlayingState, CleanupOnlinePrivilegeTask, CleanupSessionOnReturnToMenu, Record]
  split_ifs <;> rfl

theorem BeginNewState_CurrentState (e : Engine) (n p : FName) (s : UShooterGameInstance) :
    (BeginNewState e n p s).CurrentState = n := rfl

theorem EndCurrentState_Calls (e : Engine) (n : FName) (s : UShooterGameInstance) :
    ∃ added, (EndCurrentState e n s).Calls = s.Calls ++ added
      ∧ HooksOf added = (ExitHook s.CurrentState).toList := by
  cases h : s.CurrentState <;>
    simp [EndCurrentState, h, EndPendingInviteState, EndLoginScreenState, EndMainMenuState,
      EndMessageMenuState, EndPlayingState, CleanupOnlinePrivilegeTask,
      CleanupSessionOnReturnToMenu, Record, ExitHook, HooksOf, HookCall, Call.IsExitHook,
      Call.IsEnterHook]
  split_ifs <;> simp [HookCall, Call.IsExitHook, Call.IsEnterHook]

theorem BeginNewState_Calls (e : Engine) (n p : FName) (s : UShooterGameInstance) :
    ∃ added, (BeginNewState e n p s).Calls = s.Calls ++ added
      ∧ HooksOf added = (EnterHook n).toList := by
  cases n <;>
    simp [BeginNewState, BeginPendingInviteState, BeginLoginState, BeginMainMenuState,
      BeginMessageMenuState, BeginPlayingState, LoadFrontEndMap, RemoveNetworkFailureHandlers,
      SetOnlineMode, GotoInitialState, GotoState, Record, EnterHook, HooksOf, HookCall,
      Call.IsExitHook, Call.IsEnterHook]
  · split_ifs
    · simp only [StartOnlinePrivilegeTask]
      split
      · split <;>
          simp [OnUserCanPlayInvite, CleanupOnlinePrivilegeTask, GotoState,
            DisplayOnlinePrivilegeFailureDialogs, Record, HookCall, Call.IsExitHook,
            Call.IsEnterHook]
        split_ifs <;> simp [HookCall, Call.IsExitHook, Call.IsEnterHook]
      · simp [OnUserCanPlayInvite, CleanupOnlinePrivilegeTask, HookCall, Call.IsExitHook,
          Call.IsEnterHook]
        split_ifs <;> simp [HookCall, Call.IsExitHook, Call.IsEnterHook]
    · simp [HookCall, Call.IsExitHook, Call.IsEnterHook]
  · split_ifs <;> simp [HookCall, Call.IsExitHook, Call.IsEnterHook]

theorem MaybeChangeState_transition (e : Engine) (s : UShooterGameInstance)
    (hne : s.PendingState ≠ s.CurrentState)
    (hnone : s.PendingState ≠ ShooterGameInstanceState.None) :
    MaybeChangeState e s =
      { BeginNewState e s.PendingState s.CurrentState (EndCurrentState e s.PendingState s) with
        PendingState := ShooterGameInstanceState.None } := by
  have h : s.PendingState ≠ s.CurrentState ∧ s.PendingState ≠ ShooterGameInstanceState.None :=
    ⟨hne, hnone⟩
  unfold MaybeChangeState
  rw [if_pos h]
  simp only [EndCurrentState_PendingState]

theorem MaybeChangeState_CurrentState_of_transition (e : Engine) (s : UShooterGameInstance)
    (hne : s.PendingState ≠ s.CurrentState)
    (hnone : s.PendingState ≠ ShooterGameInstanceState.None) :
    (MaybeChangeState e s).CurrentState = s.PendingState := by
  rw [MaybeChangeState_transition e s hne hnone]
  rfl

/-! ## The transition step -/

/-- C1: in every instance state in which `PendingState` differs from
`CurrentState` and is not `None`, `MaybeChangeState` ends with `CurrentState`
equal to the `PendingState` it started with and with `PendingState` equal to
`None`. -/
theorem MaybeChangeState_applies_pending (e : Engine) (s : UShooterGameInstance)
    (hne : s.PendingState ≠ s.CurrentState)
    (hnone : s.PendingState ≠ ShooterGameInstanceState.None) :
    (MaybeChangeState e s).CurrentState = s.PendingState
      ∧ (MaybeChangeState e s).PendingState = ShooterGameInstanceState.None := by
  rw [MaybeChangeState_transition e s hne hnone]
  exact ⟨rfl, rfl⟩

/-- Witness of C1: from `MainMenu` with `Playing` pending, the step ends in
`Playing` with nothing pending. -/
theorem MaybeChangeState_applies_pending_witness :
    (MaybeChangeState Engine.Desktop (At FName.MainMenu FName.Playing)).CurrentState
        = FName.Playing
      ∧ (MaybeChangeState Engine.Desktop (At FName.MainMenu FName.Playing)).PendingState
        = ShooterGameInstanceState.None :=
  MaybeChangeState_applies_pending Engine.Desktop (At FName.MainMenu FName.Playing)
    (by decide) (by decide)

/-- C2: when `MaybeChangeState` performs a transition from state `A` to state
`B` (both among the six state names), the calls it makes are appended to the
record, and the hooks among them are exactly the exit hook selected by `A`
(none when `A` is `None`) followed by the enter hook selected by `B`: no other
hook runs, and the exit hook comes first. -/
theorem MaybeChangeState_hook_sequence (e : Engine) (s : UShooterGameInstance) (A B : FName)
    (hA : s.CurrentState = A) (hB : s.PendingState = B)
    (hAname : IsStateName A = true) (hBname : IsStateName B = true)
    (hne : B ≠ A) (hnone : B ≠ ShooterGameInstanceState.None) :
    ∃ added, (MaybeChangeState e s).Calls = s.Calls ++ added
      ∧ HooksOf added = (ExitHook A).toList ++ (EnterHook B).toList
      ∧ (EnterHook B).isSome = true
      ∧ ((ExitHook A).isSome = true ↔ A ≠ ShooterGameInstanceState.None) := by
  subst hA hB
  obtain ⟨a₁, h₁, k₁⟩ := EndCurrentState_Calls e s.PendingState s
  obtain ⟨a₂, h₂, k₂⟩ := BeginNewState_Calls e s.PendingState
    s.CurrentState (EndCurrentState e s.PendingState s)
  refine ⟨a₁ ++ a₂, ?_, ?_, ?_, ?_⟩
  · rw [MaybeChangeState_transition e s hne hnone]
    exact (h₂.trans (by rw [h₁, List.append_assoc]))
  · simp only [HooksOf, List.filter_append] at k₁ k₂ ⊢
    rw [k₁, k₂]
  · revert hnone hBname
    cases s.PendingState <;> simp [EnterHook, IsStateName]
  · revert hAname
    cases s.CurrentState <;> simp [ExitHook, IsStateName]

/-- Witness of C2: from `MainMenu` to `Playing` the hooks are `EndMainMenuState`
then `BeginPlayingState`. -/
theorem MaybeChangeState_hook_sequence_witness :
    ∃ added, (MaybeChangeState Engine.Desktop (At FName.MainMenu FName.Playing)).Calls
        = (At FName.MainMenu FName.Playing).Calls ++ added
      ∧ HooksOf added = (ExitHook FName.MainMenu).toList ++ (EnterHook FName.Playing).toList
      ∧ (EnterHook FName.Playing).isSome = true
      ∧ ((ExitHook FName.MainMenu).isSome = true
          ↔ FName.MainMenu ≠ ShooterGameInstanceState.None) :=
  MaybeChangeState_hook_sequence Engine.Desktop (At FName.MainMenu FName.Playing)
    FName.MainMenu FName.Playing rfl rfl (by decide) (by decide) (by decide) (by decide)

/-- C3: if `PendingState` equals `CurrentState` or `PendingState` is `None`,
`MaybeChangeState` leaves the whole instance as it was: `CurrentState`,
`PendingState` and `PendingMessage` are unchanged and no call is recorded, so no
exit hook and no enter hook runs. -/
theorem MaybeChangeState_no_transition (e : Engine) (s : UShooterGameInstance)
    (h : s.PendingState = s.CurrentState ∨ s.PendingState = ShooterGameInstanceState.None) :
    MaybeChangeState e s = s
      ∧ (MaybeChangeState e s).CurrentState = s.CurrentState
      ∧ (MaybeChangeState e s).PendingState = s.PendingState
      ∧ (MaybeChangeState e s).PendingMessage = s.PendingMessage
      ∧ (MaybeChangeState e s).Calls = s.Calls := by
  have hs : MaybeChangeState e s = s := by
    unfold MaybeChangeState
    rw [if_neg]
    intro hc
    rcases h with h | h
    · exact hc.1 h
    · exact hc.2 h
  rw [hs]
  exact ⟨rfl, rfl, rfl, rfl, rfl⟩

/-- Witness of C3: at `MainMenu` with `MainMenu` pending nothing happens. -/
theorem MaybeChangeState_no_transition_witness :
    MaybeChangeState Engine.Desktop (At FName.MainMenu FName.MainMenu)
        = At FName.MainMenu FName.MainMenu
      ∧ (MaybeChangeState Engine.Desktop (At FName.MainMenu FName.MainMenu)).CurrentState
        = (At FName.MainMenu FName.MainMenu).CurrentState
      ∧ (MaybeChangeState Engine.Desktop (At FName.MainMenu FName.MainMenu)).PendingState
        = (At FName.MainMenu FName.MainMenu).PendingState
      ∧ (MaybeChangeState Engine.Desktop (At FName.MainMenu FName.MainMenu)).PendingMessage
        = (At FName.MainMenu FName.MainMenu).PendingMessage
      ∧ (MaybeChangeState Engine.Desktop (At FName.MainMenu FName.MainMenu)).Calls
        = (At FName.MainMenu FName.MainMenu).Calls :=
  MaybeChangeState_no_transition Engine.Desktop (At FName.MainMenu FName.MainMenu)
    (Or.inl rfl)

/-! ## Requests: `GotoState` and `ShowMessageThenGotoState` -/

theorem ShowMessageThenGotoState_of_suppressed (e : Engine) (Message OK Cancel : FText)
    (NewState : FName) (OverrideExisting : Bool) (PlayerOwner : Option ULocalPlayer)
    (s : UShooterGameInstance) (h : Suppressed s NewState OverrideExisting) :
    ShowMessageThenGotoState e Message OK Cancel NewState OverrideExisting PlayerOwner s = s := by
  unfold Suppressed at h
  unfold ShowMessageThenGotoState
  simp only [Bool.or_eq_true, Bool.and_eq_true, decide_eq_true_eq, Bool.not_eq_true']
  split_ifs <;> first | rfl | (exfalso; tauto)

theorem ShowMessageThenGotoState_of_not_suppressed (e : Engine) (Message OK Cancel : FText)
    (NewState : FName) (OverrideExisting : Bool) (PlayerOwner : Option ULocalPlayer)
    (s : UShooterGameInstance) (h : ¬ Suppressed s NewState OverrideExisting) :
    ShowMessageThenGotoState e Message OK Cancel NewState OverrideExisting PlayerOwner s =
      if s.CurrentState = ShooterGameInstanceState.MessageMenu then
        BeginMessageMenuState e (EndMessageMenuState { s with PendingMessage :=
          { DisplayString := Message, OKButtonString := OK, CancelButtonString := Cancel,
            NextState := NewState, PlayerOwner := PlayerOwner } })
      else
        GotoState ShooterGameInstanceState.MessageMenu { s with PendingMessage :=
          { DisplayString := Message, OKButtonString := OK, CancelButtonString := Cancel,
            NextState := NewState, PlayerOwner := PlayerOwner } } := by
  unfold Suppressed at h
  unfold ShowMessageThenGotoState
  simp only [Bool.or_eq_true, Bool.and_eq_true, decide_eq_true_eq, Bool.not_eq_true']
  split_ifs <;> first | rfl | (exfalso; cases OverrideExisting <;> tauto)

theorem BeginMessageMenuState_CurrentState (e : Engine) (s : UShooterGameInstance) :
    (BeginMessageMenuState e s).CurrentState = s.CurrentState := by
  unfold BeginMessageMenuState
  simp only [GotoInitialState, GotoState, Record]
  split_ifs <;> rfl

theorem ShowMessageThenGotoState_CurrentState (e : Engine) (Message OK Cancel : FText)
    (NewState : FName) (OverrideExisting : Bool) (PlayerOwner : Option ULocalPlayer)
    (s : UShooterGameInstance) :
    (ShowMessageThenGotoState e Message OK Cancel NewState OverrideExisting PlayerOwner
      s).CurrentState = s.CurrentState := by
  by_cases h : Suppressed s NewState OverrideExisting
  · rw [ShowMessageThenGotoState_of_suppressed e Message OK Cancel NewState OverrideExisting
      PlayerOwner s h]
  · rw [ShowMessageThenGotoState_of_not_suppressed e Message OK Cancel NewState OverrideExisting
      PlayerOwner s h]
    split_ifs
    · rw [BeginMessageMenuState_CurrentState]; rfl
    · rfl

theorem MaybeChangeState_CurrentState (e : Engine) (s : UShooterGameInstance) :
    (MaybeChangeState e s).CurrentState = s.PendingState
      ∨ (MaybeChangeState e s).CurrentState = s.CurrentState := by
  by_cases h : s.PendingState ≠ s.CurrentState ∧ s.PendingState ≠ ShooterGameInstanceState.None
  · left
    rw [MaybeChangeState_transition e s h.1 h.2]
    rfl
  · right
    unfold MaybeChangeState
    rw [if_neg h]

theorem Tick_CurrentState (e : Engine) (s : UShooterGameInstance) :
    (Tick e s).2.CurrentState = s.CurrentState
      ∨ (e.IsRunningDedicatedServer = false
          ∧ (Tick e s).2.CurrentState = (MaybeChangeState e s).CurrentState) := by
  unfold Tick
  cases hd : e.IsRunningDedicatedServer
  · right
    refine ⟨rfl, ?_⟩
    simp only [Bool.false_eq_true, if_false]
    split_ifs
    · exact ShowMessageThenGotoState_CurrentState _ _ _ _ _ _ _ _
    · rfl
    · rfl
  · left
    rfl

theorem MaybeChangeState_Calls (e : Engine) (s : UShooterGameInstance) :
    ∃ added, (MaybeChangeState e s).Calls = s.Calls ++ added
      ∧ HooksOf added =
        if s.PendingState ≠ s.CurrentState ∧ s.PendingState ≠ ShooterGameInstanceState.None then
          (ExitHook s.CurrentState).toList ++ (EnterHook s.PendingState).toList
        else [] := by
  by_cases h : s.PendingState ≠ s.CurrentState ∧ s.PendingState ≠ ShooterGameInstanceState.None
  · obtain ⟨a₁, h₁, k₁⟩ := EndCurrentState_Calls e s.PendingState s
    obtain ⟨a₂, h₂, k₂⟩ := BeginNewState_Calls e s.PendingState
      s.CurrentState (EndCurrentState e s.PendingState s)
    refine ⟨a₁ ++ a₂, ?_, ?_⟩
    · rw [MaybeChangeState_transition e s h.1 h.2]
      exact (h₂.trans (by rw [h₁, List.append_assoc]))
    · rw [if_pos h]
      simp only [HooksOf, List.filter_append] at k₁ k₂ ⊢
      rw [k₁, k₂]
  · refine ⟨[], ?_, ?_⟩
    · unfold MaybeChangeState
      rw [if_neg h, List.append_nil]
    · rw [if_neg h]; rfl

theorem EnterHook_HookCall (n : FName) (c : Call) (h : EnterHook n = some c) :
    HookCall c = true ∧ c.IsEnterHook = true := by
  cases n <;> simp [EnterHook] at h <;> subst h <;> exact ⟨rfl, rfl⟩

theorem ExitHook_not_enter (n : FName) (c : Call) (h : ExitHook n = some c) :
    c.IsEnterHook = false := by
  cases n <;> simp [ExitHook] at h <;> subst h <;> rfl

theorem EnterHook_injective (a b : FName) (c : Call) (ha : EnterHook a = some c)
    (hb : EnterHook b = some c) : a = b := by
  cases a <;> cases b <;> simp [EnterHook] at ha hb <;> subst ha <;> first | rfl | cases hb

/-- C4: `GotoState` only records the request: it sets `PendingState` to its
argument and leaves `CurrentState` (and every other member) unchanged; for all
names `a` and `b`, `GotoState a` followed by `GotoState b` yields the same
instance as `GotoState b` alone; so after the next `MaybeChangeState`, and after
the next `Tick`, `CurrentState` is `b` or what it was before, and unless `a`
equals `b` the enter hook of `a` is not among the calls of that step. -/
theorem GotoState_keeps_latest_request (e : Engine) (a b : FName) (s : UShooterGameInstance) :
    (GotoState a s).PendingState = a
      ∧ (GotoState a s).CurrentState = s.CurrentState
      ∧ GotoState a s = { s with PendingState := a }
      ∧ GotoState b (GotoState a s) = GotoState b s
      ∧ ((MaybeChangeState e (GotoState b (GotoState a s))).CurrentState = b
          ∨ (MaybeChangeState e (GotoState b (GotoState a s))).CurrentState = s.CurrentState)
      ∧ ((Tick e (GotoState b (GotoState a s))).2.CurrentState = b
          ∨ (Tick e (GotoState b (GotoState a s))).2.CurrentState = s.CurrentState)
      ∧ (a = b
          ∨ (CallsSince (GotoState b (GotoState a s))
              (MaybeChangeState e (GotoState b (GotoState a s)))).all
                (fun c => decide (EnterHook a ≠ some c)) = true) := by
  have hm := MaybeChangeState_CurrentState e (GotoState b (GotoState a s))
  refine ⟨rfl, rfl, rfl, rfl, hm, ?_, ?_⟩
  · rcases Tick_CurrentState e (GotoState b (GotoState a s)) with ht | ⟨_, ht⟩
    · exact Or.inr ht
    · rw [ht]; exact hm
  · by_cases hab : a = b
    · exact Or.inl hab
    · right
      obtain ⟨added, hc, hh⟩ := MaybeChangeState_Calls e (GotoState b (GotoState a s))
      have hsince : CallsSince (GotoState b (GotoState a s))
          (MaybeChangeState e (GotoState b (GotoState a s))) = added := by
        unfold CallsSince
        rw [hc, List.drop_left]
      rw [hsince, List.all_eq_true]
      intro c hcmem
      rw [decide_eq_true_eq]
      intro hac
      have hk := EnterHook_HookCall a c hac
      have hmem : c ∈ HooksOf added := List.mem_filter.mpr ⟨hcmem, hk.1⟩
      rw [hh] at hmem
      split_ifs at hmem
      · rcases List.mem_append.mp hmem with hx | hx
        · have hx' : ExitHook (GotoState b (GotoState a s)).CurrentState = some c := by
            simpa [Option.mem_toList] using hx
          have := ExitHook_not_enter _ c hx'
          rw [hk.2] at this
          cases this
        · have hx' : EnterHook b = some c := by
            simpa [Option.mem_toList, GotoState] using hx
          exact hab (EnterHook_injective a b c hac hx')
      · cases hmem

/-- C5: `ShowMessageThenGotoState` never overrides the login screen: whenever
`PendingState` or `CurrentState` is `LoginScreen`, the call, for every message,
captions, target state, owner and value of `OverrideExisting`, leaves the
instance as it was: `CurrentState`, `PendingState` and every field of
`PendingMessage` are unchanged. -/
theorem ShowMessageThenGotoState_never_overrides_login (e : Engine)
    (Message OK Cancel : FText) (NewState : FName) (OverrideExisting : Bool)
    (PlayerOwner : Option ULocalPlayer) (s : UShooterGameInstance)
    (h : s.PendingState = ShooterGameInstanceState.LoginScreen
      ∨ s.CurrentState = ShooterGameInstanceState.LoginScreen) :
    ShowMessageThenGotoState e Message OK Cancel NewState OverrideExisting PlayerOwner s = s
      ∧ (ShowMessageThenGotoState e Message OK Cancel NewState OverrideExisting PlayerOwner
          s).CurrentState = s.CurrentState
      ∧ (ShowMessageThenGotoState e Message OK Cancel NewState OverrideExisting PlayerOwner
          s).PendingState = s.PendingState
      ∧ (ShowMessageThenGotoState e Message OK Cancel NewState OverrideExisting PlayerOwner
          s).PendingMessage = s.PendingMessage := by
  have hs := ShowMessageThenGotoState_of_suppressed e Message OK Cancel NewState
    OverrideExisting PlayerOwner s (Or.inl h)
  rw [hs]
  exact ⟨rfl, rfl, rfl, rfl⟩

/-- Witness of C5: at the login screen, a forced message that leads to
`MainMenu` changes nothing. -/
theorem ShowMessageThenGotoState_never_overrides_login_witness :
    ShowMessageThenGotoState Engine.Desktop "Join failed." "OK" "" FName.MainMenu true none
        (At FName.Login FName.NAME_None) = At FName.Login FName.NAME_None
      ∧ (ShowMessageThenGotoState Engine.Desktop "Join failed." "OK" "" FName.MainMenu true none
          (At FName.Login FName.NAME_None)).CurrentState
        = (At FName.Login FName.NAME_None).CurrentState
      ∧ (ShowMessageThenGotoState Engine.Desktop "Join failed." "OK" "" FName.MainMenu true none
          (At FName.Login FName.NAME_None)).PendingState
        = (At FName.Login FName.NAME_None).PendingState
      ∧ (ShowMessageThenGotoState Engine.Desktop "Join failed." "OK" "" FName.MainMenu true none
          (At FName.Login FName.NAME_None)).PendingMessage
        = (At FName.Login FName.NAME_None).PendingMessage :=
  ShowMessageThenGotoState_never_overrides_login Engine.Desktop "Join failed." "OK" ""
    FName.MainMenu true none (At FName.Login FName.NAME_None) (Or.inr rfl)

/-- C6: a message that leads to the login screen cannot be displaced: whenever
`PendingState` or `CurrentState` is `MessageMenu` and `PendingMessage.NextState`
is `LoginScreen`, every call of `ShowMessageThenGotoState`, for every target
state and also with `OverrideExisting` true, leaves the instance as it was:
`PendingMessage`, `PendingState` and `CurrentState` are unchanged. -/
theorem ShowMessageThenGotoState_keeps_login_message (e : Engine)
    (Message OK Cancel : FText) (NewState : FName) (OverrideExisting : Bool)
    (PlayerOwner : Option ULocalPlayer) (s : UShooterGameInstance)
    (hmenu : s.PendingState = ShooterGameInstanceState.MessageMenu
      ∨ s.CurrentState = ShooterGameInstanceState.MessageMenu)
    (hnext : s.PendingMessage.NextState = ShooterGameInstanceState.LoginScreen) :
    ShowMessageThenGotoState e Message OK Cancel NewState OverrideExisting PlayerOwner s = s
      ∧ (ShowMessageThenGotoState e Message OK Cancel NewState OverrideExisting PlayerOwner
          s).PendingMessage = s.PendingMessage
      ∧ (ShowMessageThenGotoState e Message OK Cancel NewState OverrideExisting PlayerOwner
          s).PendingState = s.PendingState
      ∧ (ShowMessageThenGotoState e Message OK Cancel NewState OverrideExisting PlayerOwner
          s).CurrentState = s.CurrentState := by
  have hs := ShowMessageThenGotoState_of_suppressed e Message OK Cancel NewState
    OverrideExisting PlayerOwner s (Or.inr (Or.inl ⟨hmenu, hnext⟩))
  rw [hs]
  exact ⟨rfl, rfl, rfl, rfl⟩

/-- Witness of C6: while the licence message that leads to the login screen is
displayed, a forced message that leads to `MainMenu` changes nothing. -/
theorem ShowMessageThenGotoState_keeps_login_message_witness :
    ShowMessageThenGotoState Engine.Desktop "Join failed." "OK" "" FName.MainMenu true none
        LicenseMessageShown = LicenseMessageShown
      ∧ (ShowMessageThenGotoState Engine.Desktop "Join failed." "OK" "" FName.MainMenu true none
          LicenseMessageShown).PendingMessage = LicenseMessageShown.PendingMessage
      ∧ (ShowMessageThenGotoState Engine.Desktop "Join failed." "OK" "" FName.MainMenu true none
          LicenseMessageShown).PendingState = LicenseMessageShown.PendingState
      ∧ (ShowMessageThenGotoState Engine.Desktop "Join failed." "OK" "" FName.MainMenu true none
          LicenseMessageShown).CurrentState = LicenseMessageShown.CurrentState :=
  ShowMessageThenGotoState_keeps_login_message Engine.Desktop "Join failed." "OK" ""
    FName.MainMenu true none LicenseMessageShown (Or.inr rfl) rfl

/-- C7, counterexample: at `MainMenu`, heading to the message menu with the
message `Join failed.` that leads to `MainMenu`, the same request made again
with `OverrideExisting` true is in none of the cases (a), (b), (c), and yet no
field of the instance changes: "no field changes" does not hold exactly in
those cases. -/
theorem ShowMessageThenGotoState_unchanged_without_suppression :
    (ShowMessageThenGotoState Engine.Desktop "Join failed." "OK" "" FName.MainMenu true none
        JoinFailedAtMainMenu = JoinFailedAtMainMenu
      ∧ ¬ Suppressed JoinFailedAtMainMenu FName.MainMenu true)
    ∧ ¬ (ShowMessageThenGotoState Engine.Desktop "Join failed." "OK" "" FName.MainMenu true none
          JoinFailedAtMainMenu = JoinFailedAtMainMenu
        ↔ Suppressed JoinFailedAtMainMenu FName.MainMenu true) := by
  have h₁ : ShowMessageThenGotoState Engine.Desktop "Join failed." "OK" "" FName.MainMenu true
      none JoinFailedAtMainMenu = JoinFailedAtMainMenu := by decide
  have h₂ : ¬ Suppressed JoinFailedAtMainMenu FName.MainMenu true := by decide
  exact ⟨⟨h₁, h₂⟩, fun h => h₂ (h.mp h₁)⟩

/-- C7, amended: if one of the cases (a), (b), (c) holds, the call is ignored
and no field of the instance changes.  If none holds, the call writes the
pending message: the captions, `NextState` and `PlayerOwner` equal the
arguments; with `CurrentState` different from `MessageMenu` it ends with the
five `PendingMessage` fields equal to the arguments, `PendingState` equal to
`MessageMenu` and `CurrentState` as before, so that no field changes exactly
when the instance already had that `PendingState` and that `PendingMessage`. -/
theorem ShowMessageThenGotoState_ignored_or_written (e : Engine)
    (Message OK Cancel : FText) (NewState : FName) (OverrideExisting : Bool)
    (PlayerOwner : Option ULocalPlayer) (s : UShooterGameInstance) :
    (Suppressed s NewState OverrideExisting →
      ShowMessageThenGotoState e Message OK Cancel NewState OverrideExisting PlayerOwner s = s)
    ∧ (¬ Suppressed s NewState OverrideExisting →
      (ShowMessageThenGotoState e Message OK Cancel NewState OverrideExisting PlayerOwner
          s).PendingMessage.OKButtonString = OK
        ∧ (ShowMessageThenGotoState e Message OK Cancel NewState OverrideExisting PlayerOwner
          s).PendingMessage.CancelButtonString = Cancel
        ∧ (ShowMessageThenGotoState e Message OK Cancel NewState OverrideExisting PlayerOwner
          s).PendingMessage.NextState = NewState
        ∧ (ShowMessageThenGotoState e Message OK Cancel NewState OverrideExisting PlayerOwner
          s).PendingMessage.PlayerOwner = PlayerOwner)
    ∧ (¬ Suppressed s NewState OverrideExisting →
      s.CurrentState ≠ ShooterGameInstanceState.MessageMenu →
      (ShowMessageThenGotoState e Message OK Cancel NewState OverrideExisting PlayerOwner
          s).PendingMessage =
          { DisplayString := Message, OKButtonString := OK, CancelButtonString := Cancel,
            NextState := NewState, PlayerOwner := PlayerOwner }
        ∧ (ShowMessageThenGotoState e Message OK Cancel NewState OverrideExisting PlayerOwner
          s).PendingState = ShooterGameInstanceState.MessageMenu
        ∧ (ShowMessageThenGotoState e Message OK Cancel NewState OverrideExisting PlayerOwner
          s).CurrentState = s.CurrentState
        ∧ (ShowMessageThenGotoState e Message OK Cancel NewState OverrideExisting PlayerOwner
            s = s
          ↔ s.PendingState = ShooterGameInstanceState.MessageMenu
            ∧ s.PendingMessage =
              { DisplayString := Message, OKButtonString := OK, CancelButtonString := Cancel,
                NextState := NewState, PlayerOwner := PlayerOwner })) := by
  refine ⟨ShowMessageThenGotoState_of_suppressed e Message OK Cancel NewState OverrideExisting
    PlayerOwner s, ?_, ?_⟩
  · intro h
    rw [ShowMessageThenGotoState_of_not_suppressed e Message OK Cancel NewState OverrideExisting
      PlayerOwner s h]
    split_ifs
    · unfold BeginMessageMenuState
      simp only [GotoInitialState, GotoState, Record, EndMessageMenuState]
      split_ifs <;> exact ⟨rfl, rfl, rfl, rfl⟩
    · exact ⟨rfl, rfl, rfl, rfl⟩
  · intro h hcur
    rw [ShowMessageThenGotoState_of_not_suppressed e Message OK Cancel NewState OverrideExisting
      PlayerOwner s h, if_neg hcur]
    refine ⟨rfl, rfl, rfl, ?_⟩
    constructor
    · intro heq
      exact ⟨(congrArg UShooterGameInstance.PendingState heq).symm,
        (congrArg UShooterGameInstance.PendingMessage heq).symm⟩
    · rintro ⟨hp, hm⟩
      cases s
      simp only [GotoState] at hp hm ⊢
      subst hp hm
      rfl

/-- Witness of C7, amended: at `MainMenu` with nothing pending, a message that
leads to `Playing` is in none of the cases, and is written. -/
theorem ShowMessageThenGotoState_ignored_or_written_witness :
    (¬ Suppressed (At FName.MainMenu FName.NAME_None) FName.Playing true
      ∧ (At FName.MainMenu FName.NAME_None).CurrentState ≠ ShooterGameInstanceState.MessageMenu)
    ∧ ((ShowMessageThenGotoState Engine.Desktop "Hello" "OK" "" FName.Playing true none
          (At FName.MainMenu FName.NAME_None)).PendingMessage =
          { DisplayString := "Hello", OKButtonString := "OK", CancelButtonString := "",
            NextState := FName.Playing, PlayerOwner := none }
        ∧ (ShowMessageThenGotoState Engine.Desktop "Hello" "OK" "" FName.Playing true none
          (At FName.MainMenu FName.NAME_None)).PendingState = ShooterGameInstanceState.MessageMenu
        ∧ (ShowMessageThenGotoState Engine.Desktop "Hello" "OK" "" FName.Playing true none
          (At FName.MainMenu FName.NAME_None)).CurrentState
            = (At FName.MainMenu FName.NAME_None).CurrentState
        ∧ (ShowMessageThenGotoState Engine.Desktop "Hello" "OK" "" FName.Playing true none
            (At FName.MainMenu FName.NAME_None) = At FName.MainMenu FName.NAME_None
          ↔ (At FName.MainMenu FName.NAME_None).PendingState
              = ShooterGameInstanceState.MessageMenu
            ∧ (At FName.MainMenu FName.NAME_None).PendingMessage =
              { DisplayString := "Hello", OKButtonString := "OK", CancelButtonString := "",
                NextState := FName.Playing, PlayerOwner := none })) :=
  ⟨⟨by decide, by decide⟩,
    (ShowMessageThenGotoState_ignored_or_written Engine.Desktop "Hello" "OK" "" FName.Playing
      true none (At FName.MainMenu FName.NAME_None)).2.2 (by decide) (by decide)⟩

/-! ## `None` and the displayed message -/

/-- C9: `None` is only the initial state: a newly constructed instance has
`CurrentState` `None`, and from every instance state with `CurrentState`
different from `None`, `CurrentState` is still different from `None` after
`MaybeChangeState` and after `Tick`, whatever `PendingState` was. -/
theorem CurrentState_None_only_initially (e : Engine) (s : UShooterGameInstance)
    (h : s.CurrentState ≠ ShooterGameInstanceState.None) :
    Constructor.CurrentState = ShooterGameInstanceState.None
      ∧ (MaybeChangeState e s).CurrentState ≠ ShooterGameInstanceState.None
      ∧ (Tick e s).2.CurrentState ≠ ShooterGameInstanceState.None := by
  have hm : (MaybeChangeState e s).CurrentState ≠ ShooterGameInstanceState.None := by
    by_cases ht : s.PendingState ≠ s.CurrentState
        ∧ s.PendingState ≠ ShooterGameInstanceState.None
    · rw [(MaybeChangeState_CurrentState_of_transition e s ht.1 ht.2)]
      exact ht.2
    · unfold MaybeChangeState
      rw [if_neg ht]
      exact h
  refine ⟨rfl, hm, ?_⟩
  rcases Tick_CurrentState e s with ht | ⟨_, ht⟩
  · rw [ht]; exact h
  · rw [ht]; exact hm

/-- Witness of C9: from `MainMenu` with `Playing` pending, the state after the
step is not `None`. -/
theorem CurrentState_None_only_initially_witness :
    Constructor.CurrentState = ShooterGameInstanceState.None
      ∧ (MaybeChangeState Engine.Desktop (At FName.MainMenu FName.Playing)).CurrentState
        ≠ ShooterGameInstanceState.None
      ∧ (Tick Engine.Desktop (At FName.MainMenu FName.Playing)).2.CurrentState
        ≠ ShooterGameInstanceState.None :=
  CurrentState_None_only_initially Engine.Desktop (At FName.MainMenu FName.Playing)
    (by decide)

/-- C10: the pending message is cleared after display: for every pending
message with a non-empty `DisplayString`, after `BeginMessageMenuState` has run
`PendingMessage.DisplayString` is empty; so it is after the tick step that
enters `MessageMenu`. -/
theorem BeginMessageMenuState_clears_DisplayString (e : Engine) (s : UShooterGameInstance)
    (h : s.PendingMessage.DisplayString ≠ "") :
    (BeginMessageMenuState e s).PendingMessage.DisplayString = ""
      ∧ (s.PendingState = ShooterGameInstanceState.MessageMenu →
          s.CurrentState ≠ ShooterGameInstanceState.MessageMenu →
          (MaybeChangeState e s).CurrentState = ShooterGameInstanceState.MessageMenu
            ∧ (MaybeChangeState e s).PendingMessage.DisplayString = "") := by
  have hb : ∀ t : UShooterGameInstance, t.PendingMessage.DisplayString ≠ "" →
      (BeginMessageMenuState e t).PendingMessage.DisplayString = "" := by
    intro t ht
    unfold BeginMessageMenuState
    simp only [FText.IsEmpty, Record, decide_eq_true_eq]
    rw [if_neg ht]
  refine ⟨hb s h, ?_⟩
  intro hp hc
  have hne : s.PendingState ≠ s.CurrentState := by
    rw [hp]; exact fun hx => hc hx.symm
  have hnone : s.PendingState ≠ ShooterGameInstanceState.None := by
    rw [hp]; decide
  rw [MaybeChangeState_transition e s hne hnone, hp]
  refine ⟨rfl, ?_⟩
  show (BeginNewState e ShooterGameInstanceState.MessageMenu s.CurrentState
    (EndCurrentState e ShooterGameInstanceState.MessageMenu s)).PendingMessage.DisplayString = ""
  have hE := EndCurrentState_PendingMessage e ShooterGameInstanceState.MessageMenu s
  have : BeginNewState e ShooterGameInstanceState.MessageMenu s.CurrentState
      (EndCurrentState e ShooterGameInstanceState.MessageMenu s) =
      { BeginMessageMenuState e (EndCurrentState e ShooterGameInstanceState.MessageMenu s) with
        CurrentState := ShooterGameInstanceState.MessageMenu } := by
    simp [BeginNewState]
  rw [this]
  exact hb _ (by rw [hE]; exact h)

/-- Witness of C10: the message `Join failed.` is cleared when `MessageMenu` is
entered from `MainMenu`. -/
theorem BeginMessageMenuState_clears_DisplayString_witness :
    JoinFailedAtMainMenu.PendingMessage.DisplayString ≠ ""
      ∧ (BeginMessageMenuState Engine.Desktop
          JoinFailedAtMainMenu).PendingMessage.DisplayString = ""
      ∧ (MaybeChangeState Engine.Desktop JoinFailedAtMainMenu).CurrentState
          = ShooterGameInstanceState.MessageMenu
      ∧ (MaybeChangeState Engine.Desktop
          JoinFailedAtMainMenu).PendingMessage.DisplayString = "" :=
  ⟨by decide,
    (BeginMessageMenuState_clears_DisplayString Engine.Desktop JoinFailedAtMainMenu
      (by decide)).1,
    (BeginMessageMenuState_clears_DisplayString Engine.Desktop JoinFailedAtMainMenu
      (by decide)).2 rfl (by decide)⟩

/-! ## The six state names -/

theorem StatesNamed_GotoState (n : FName) (s : UShooterGameInstance)
    (hn : IsStateName n = true) (h : StatesNamed s) : StatesNamed (GotoState n s) :=
  ⟨h.1, hn⟩

theorem StatesNamed_Record (c : Call) (s : UShooterGameInstance) (h : StatesNamed s) :
    StatesNamed (Record c s) := h

theorem StatesNamed_GotoInitialState (e : Engine) (s : UShooterGameInstance)
    (h : StatesNamed s) : StatesNamed (GotoInitialState e s) := by
  refine StatesNamed_GotoState _ s ?_ h
  unfold GetInitialState
  split_ifs <;> rfl

theorem IsStateName_GetInitialState (e : Engine) : IsStateName (GetInitialState e) = true := by
  unfold GetInitialState
  split_ifs <;> rfl

theorem StatesNamed_BeginMessageMenuState (e : Engine) (s : UShooterGameInstance)
    (h : StatesNamed s) : StatesNamed (BeginMessageMenuState e s) := by
  unfold BeginMessageMenuState
  simp only []
  split_ifs
  · exact StatesNamed_GotoInitialState e _ (StatesNamed_Record _ s h)
  · exact h

theorem StatesNamed_ShowMessageThenGotoState (e : Engine) (Message OK Cancel : FText)
    (NewState : FName) (OverrideExisting : Bool) (PlayerOwner : Option ULocalPlayer)
    (s : UShooterGameInstance) (h : StatesNamed s) :
    StatesNamed (ShowMessageThenGotoState e Message OK Cancel NewState OverrideExisting
      PlayerOwner s) := by
  by_cases hs : Suppressed s NewState OverrideExisting
  · rw [ShowMessageThenGotoState_of_suppressed e Message OK Cancel NewState OverrideExisting
      PlayerOwner s hs]
    exact h
  · rw [ShowMessageThenGotoState_of_not_suppressed e Message OK Cancel NewState OverrideExisting
      PlayerOwner s hs]
    split_ifs
    · exact StatesNamed_BeginMessageMenuState e _ h
    · exact ⟨h.1, rfl⟩

theorem StatesNamed_ShowMessageThenGoMain (e : Engine) (Message OK Cancel : FText)
    (s : UShooterGameInstance) (h : StatesNamed s) :
    StatesNamed (ShowMessageThenGoMain e Message OK Cancel s) :=
  StatesNamed_ShowMessageThenGotoState e Message OK Cancel _ _ _ s h

theorem StatesNamed_MaybeChangeState (e : Engine) (s : UShooterGameInstance)
    (h : StatesNamed s) : StatesNamed (MaybeChangeState e s) := by
  by_cases ht : s.PendingState ≠ s.CurrentState
      ∧ s.PendingState ≠ ShooterGameInstanceState.None
  · rw [MaybeChangeState_transition e s ht.1 ht.2]
    exact ⟨h.2, rfl⟩
  · unfold MaybeChangeState
    rw [if_neg ht]
    exact h

theorem StatesNamed_Tick (e : Engine) (s : UShooterGameInstance)
    (h : StatesNamed s) : StatesNamed (Tick e s).2 := by
  unfold Tick
  simp only []
  split_ifs
  · exact h
  · exact StatesNamed_ShowMessageThenGotoState e _ _ _ _ _ _ _ (StatesNamed_MaybeChangeState e s h)
  · exact StatesNamed_MaybeChangeState e s h
  · exact StatesNamed_MaybeChangeState e s h

set_option maxHeartbeats 4000000 in
theorem StatesNamed_Run (e : Engine) (op : Op) (s : UShooterGameInstance)
    (ha : op.Admissible) (h : StatesNamed s) : StatesNamed (op.Run e s) := by
  cases op
  case GotoState n => exact StatesNamed_GotoState n s ha h
  case MaybeChangeState => exact StatesNamed_MaybeChangeState e s h
  case Tick => exact StatesNamed_Tick e s h
  all_goals
    simp only [Op.Run, OnUserCanPlayInvite, OnUserCanPlayTogether, OnJoinRTSession,
      InternalTravelToSession, FinishJoinSession, OnRegisterJoiningLocalPlayerComplete,
      OnJoinSessionComplete, FinishSessionCreation, OnRegisterLocalPlayerComplete,
      OnCreatePresenceSessionComplete, GameSessionHostSession, GameSessionJoinSession,
      HostQuickSession, LoadMissionLevel, HostGame, JoinSession, JoinSessionSearchResult,
      TravelToSession, TravelLocalSessionFailure, BeginHostingQuickMatch,
      OnConnectionStatusChanged, HandleSessionFailure, SetControllerAndAdvanceToMainMenu,
      OnContinueWithoutSavingConfirm, OnPostDemoPlay, HandleDemoPlaybackFailure,
      StartPlayInEditorGameInstance, StartGameInstance, HandleOpenCommand,
      HandleSignInChangeMessaging, HandleUserLoginChanged, HandleAppResume,
      HandleAppLicenseUpdate, OnPairingUseNewProfile, HandleControllerPairingChanged,
      SetPendingInvite, OnPreLoadMap, ShowLoadingScreen, RemoveNetworkFailureHandlers,
      AddNetworkFailureHandlers, LoadFrontEndMap, CleanupOnlinePrivilegeTask,
      DisplayOnlinePrivilegeFailureDialogs, RemoveExistingLocalPlayer, RemoveLocalPlayer]
  all_goals repeat' split
  all_goals try dsimp only
  all_goals
    repeat' first
      | with_reducible exact h
      | with_reducible apply StatesNamed_Record
      | with_reducible apply StatesNamed_GotoState
      | with_reducible apply StatesNamed_GotoInitialState
      | with_reducible apply StatesNamed_ShowMessageThenGotoState
      | with_reducible apply StatesNamed_ShowMessageThenGoMain
      | with_reducible apply IsStateName_GetInitialState
      | (show IsStateName _ = true; decide)
      | (constructor <;> first | exact h.1 | exact h.2 | rfl)

theorem StatesNamed_RunAll (steps : List (Engine × Op)) (s : UShooterGameInstance)
    (ha : ∀ x ∈ steps, x.2.Admissible) (h : StatesNamed s) :
    StatesNamed (RunAll steps s) := by
  induction steps generalizing s with
  | nil => exact h
  | cons x rest ih =>
    obtain ⟨e, op⟩ := x
    exact ih (op.Run e s) (fun y hy => ha y (List.mem_cons_of_mem _ hy))
      (StatesNamed_Run e op s (ha (e, op) (List.mem_cons_self _ _)) h)

/-- C8: `CurrentState` and `PendingState` always hold one of the six names
`None`, `LoginScreen`, `PendingInvite`, `MainMenu`, `MessageMenu`, `Playing`:
this holds for a newly constructed instance, it is preserved by every operation
of the instance (with any argument, `ShowMessageThenGotoState` with any
`NewState` included) as long as `GotoState` is passed one of the six names, and
so it holds after every sequence of such operations. -/
theorem StatesNamed_always (steps : List (Engine × Op))
    (ha : ∀ x ∈ steps, x.2.Admissible) :
    StatesNamed Constructor
      ∧ (∀ (e : Engine) (op : Op) (s : UShooterGameInstance),
          op.Admissible → StatesNamed s → StatesNamed (op.Run e s))
      ∧ StatesNamed (RunAll steps Constructor) := by
  have h₀ : StatesNamed Constructor := ⟨rfl, rfl⟩
  exact ⟨h₀, StatesNamed_Run, StatesNamed_RunAll steps Constructor ha h₀⟩

/-- Witness of C8: the instance starts, ticks into its initial state, is asked
for a message that leads to a name outside the six, ticks, is sent to `Playing`
and ticks again. -/
theorem StatesNamed_always_witness :
    (∀ x ∈ [(Engine.Desktop, Op.StartGameInstance), (Engine.Desktop, Op.Tick),
        (Engine.Desktop, Op.ShowMessageThenGotoState "Hello" "OK" "" (FName.Other 7) true none),
        (Engine.Desktop, Op.Tick), (Engine.Desktop, Op.GotoState FName.Playing),
        (Engine.Desktop, Op.Tick)], x.2.Admissible)
    ∧ (StatesNamed Constructor
      ∧ (∀ (e : Engine) (op : Op) (s : UShooterGameInstance),
          op.Admissible → StatesNamed s → StatesNamed (op.Run e s))
      ∧ StatesNamed (RunAll [(Engine.Desktop, Op.StartGameInstance), (Engine.Desktop, Op.Tick),
        (Engine.Desktop, Op.ShowMessageThenGotoState "Hello" "OK" "" (FName.Other 7) true none),
        (Engine.Desktop, Op.Tick), (Engine.Desktop, Op.GotoState FName.Playing),
        (Engine.Desktop, Op.Tick)] Constructor)) :=
  ⟨by simp [Op.Admissible, IsStateName],
    StatesNamed_always _ (by simp [Op.Admissible, IsStateName])⟩

/-! ## Failures on the way to a session -/

theorem ShowMessageThenGotoState_Calls (e : Engine) (Message OK Cancel : FText)
    (NewState : FName) (OverrideExisting : Bool) (PlayerOwner : Option ULocalPlayer)
    (s : UShooterGameInstance) :
    (ShowMessageThenGotoState e Message OK Cancel NewState OverrideExisting PlayerOwner s).Calls
      = s.Calls ++
        (if ¬ Suppressed s NewState OverrideExisting
            ∧ s.CurrentState = ShooterGameInstanceState.MessageMenu then
          [Call.EndMessageMenuState, Call.BeginMessageMenuState]
        else []) := by
  by_cases h : Suppressed s NewState OverrideExisting
  · rw [ShowMessageThenGotoState_of_suppressed e Message OK Cancel NewState OverrideExisting
      PlayerOwner s h, if_neg (fun hc => hc.1 h), List.append_nil]
  · rw [ShowMessageThenGotoState_of_not_suppressed e Message OK Cancel NewState OverrideExisting
      PlayerOwner s h]
    by_cases hc : s.CurrentState = ShooterGameInstanceState.MessageMenu
    · rw [if_pos hc, if_pos ⟨h, hc⟩]
      unfold BeginMessageMenuState
      simp only [GotoInitialState, GotoState, Record, EndMessageMenuState]
      split_ifs <;> simp
    · rw [if_neg hc, if_neg (fun hx => hc hx.2)]
      simp [GotoState]

theorem ShowMessageThenGotoState_PendingState (e : Engine) (Message OK Cancel : FText)
    (NewState : FName) (OverrideExisting : Bool) (PlayerOwner : Option ULocalPlayer)
    (s : UShooterGameInstance) (hm : Message ≠ "") :
    (ShowMessageThenGotoState e Message OK Cancel NewState OverrideExisting PlayerOwner
        s).PendingState =
      if Suppressed s NewState OverrideExisting
          ∨ s.CurrentState = ShooterGameInstanceState.MessageMenu then s.PendingState
      else ShooterGameInstanceState.MessageMenu := by
  by_cases h : Suppressed s NewState OverrideExisting
  · rw [ShowMessageThenGotoState_of_suppressed e Message OK Cancel NewState OverrideExisting
      PlayerOwner s h, if_pos (Or.inl h)]
  · rw [ShowMessageThenGotoState_of_not_suppressed e Message OK Cancel NewState OverrideExisting
      PlayerOwner s h]
    by_cases hc : s.CurrentState = ShooterGameInstanceState.MessageMenu
    · rw [if_pos hc, if_pos (Or.inr hc)]
      unfold BeginMessageMenuState
      simp only [FText.IsEmpty, Record, EndMessageMenuState, decide_eq_true_eq]
      rw [if_neg hm]
    · rw [if_neg hc, if_neg (fun hx => hx.elim h hc)]
      rfl

theorem ShowMessageThenGotoState_PendingMessage (e : Engine) (Message OK Cancel : FText)
    (NewState : FName) (OverrideExisting : Bool) (PlayerOwner : Option ULocalPlayer)
    (s : UShooterGameInstance) (hm : Message ≠ "") :
    (ShowMessageThenGotoState e Message OK Cancel NewState OverrideExisting PlayerOwner
        s).PendingMessage =
      if Suppressed s NewState OverrideExisting then s.PendingMessage
      else
        { DisplayString :=
            if s.CurrentState = ShooterGameInstanceState.MessageMenu then "" else Message
          OKButtonString := OK, CancelButtonString := Cancel, NextState := NewState
          PlayerOwner := PlayerOwner } := by
  by_cases h : Suppressed s NewState OverrideExisting
  · rw [ShowMessageThenGotoState_of_suppressed e Message OK Cancel NewState OverrideExisting
      PlayerOwner s h, if_pos h]
  · rw [ShowMessageThenGotoState_of_not_suppressed e Message OK Cancel NewState OverrideExisting
      PlayerOwner s h, if_neg h]
    by_cases hc : s.CurrentState = ShooterGameInstanceState.MessageMenu
    · rw [if_pos hc, if_pos hc]
      unfold BeginMessageMenuState
      simp only [FText.IsEmpty, Record, EndMessageMenuState, decide_eq_true_eq]
      rw [if_neg hm]
    · rw [if_neg hc, if_neg hc]
      rfl

theorem InternalTravelToSession_of_failure (e : Engine) (s : UShooterGameInstance)
    (hfail : e.FirstLocalPlayerController = false ∨ e.OnlineSub = false) :
    InternalTravelToSession e s =
      ShowMessageThenGoMain e (TravelFailureReason e) "OK" FText.GetEmpty
        (RemoveNetworkFailureHandlers (Record Call.InternalTravelToSession s)) := by
  unfold InternalTravelToSession TravelFailureReason
  by_cases hp : e.FirstLocalPlayerController = false
  · simp only [hp, if_true]
  · have ho : e.OnlineSub = false := hfail.resolve_left hp
    rw [if_neg hp, if_neg hp, if_pos ho]

theorem TravelFailureReason_ne_empty (e : Engine) : TravelFailureReason e ≠ "" := by
  unfold TravelFailureReason
  split_ifs <;> decide

/-- C11, counterexample: at the login screen, with no first local player
controller, `InternalTravelToSession` returns with `PendingMessage.NextState`
still `None`, without the failure text, and with the machine neither at nor
heading to `MessageMenu`. -/
theorem InternalTravelToSession_suppressed_at_login :
    (InternalTravelToSession Engine.NoPlayerController
        (At FName.Login FName.NAME_None)).PendingMessage.NextState
        ≠ ShooterGameInstanceState.MainMenu
      ∧ (InternalTravelToSession Engine.NoPlayerController
        (At FName.Login FName.NAME_None)).PendingMessage.DisplayString
        ≠ "Invalid Player Controller"
      ∧ (InternalTravelToSession Engine.NoPlayerController
        (At FName.Login FName.NAME_None)).CurrentState ≠ ShooterGameInstanceState.MessageMenu
      ∧ (InternalTravelToSession Engine.NoPlayerController
        (At FName.Login FName.NAME_None)).PendingState ≠ ShooterGameInstanceState.MessageMenu := by
  decide

/-- C11, amended: when `InternalTravelToSession` finds no first local player
controller, or no online subsystem, it does not call `ClientTravel` and falls
back to `ShowMessageThenGoMain` with the failure text.  Unless that request is
suppressed (the machine is at or heading to `LoginScreen`, or at or heading to
`MessageMenu` with a message that leads to `LoginScreen`), on return
`PendingMessage.NextState` is `MainMenu`, the machine is at or heading to
`MessageMenu`, and `PendingMessage.DisplayString` is the failure text, or is
empty because already displayed when `CurrentState` was `MessageMenu`.  When the
request is suppressed, `CurrentState`, `PendingState` and `PendingMessage` are
left as they were. -/
theorem InternalTravelToSession_failure_fallback (e : Engine) (s : UShooterGameInstance)
    (hfail : e.FirstLocalPlayerController = false ∨ e.OnlineSub = false) :
    (∀ URL, Call.ClientTravel URL ∉ CallsSince s (InternalTravelToSession e s))
      ∧ (¬ Suppressed s ShooterGameInstanceState.MainMenu OverrideExistingDefault →
          (InternalTravelToSession e s).PendingMessage.NextState
              = ShooterGameInstanceState.MainMenu
            ∧ ((InternalTravelToSession e s).CurrentState = ShooterGameInstanceState.MessageMenu
              ∨ (InternalTravelToSession e s).PendingState
                = ShooterGameInstanceState.MessageMenu)
            ∧ (InternalTravelToSession e s).PendingMessage.DisplayString
              = if s.CurrentState = ShooterGameInstanceState.MessageMenu then ""
                else TravelFailureReason e)
      ∧ (Suppressed s ShooterGameInstanceState.MainMenu OverrideExistingDefault →
          (InternalTravelToSession e s).CurrentState = s.CurrentState
            ∧ (InternalTravelToSession e s).PendingState = s.PendingState
            ∧ (InternalTravelToSession e s).PendingMessage = s.PendingMessage) := by
  rw [InternalTravelToSession_of_failure e s hfail]
  unfold ShowMessageThenGoMain
  have hm := TravelFailureReason_ne_empty e
  refine ⟨?_, ?_, ?_⟩
  · intro URL
    unfold CallsSince
    rw [ShowMessageThenGotoState_Calls]
    simp only [RemoveNetworkFailureHandlers, Record, List.append_assoc, List.drop_left]
    split_ifs <;> simp
  · intro hs
    have hs' : ¬ Suppressed (RemoveNetworkFailureHandlers (Record Call.InternalTravelToSession s))
        ShooterGameInstanceState.MainMenu OverrideExistingDefault := hs
    rw [ShowMessageThenGotoState_PendingMessage _ _ _ _ _ _ _ _ hm,
      ShowMessageThenGotoState_PendingState _ _ _ _ _ _ _ _ hm,
      ShowMessageThenGotoState_CurrentState, if_neg hs']
    refine ⟨rfl, ?_, rfl⟩
    by_cases hc : s.CurrentState = ShooterGameInstanceState.MessageMenu
    · exact Or.inl hc
    · right
      rw [if_neg (fun hx => hx.elim hs' hc)]
  · intro hs
    have hs' : Suppressed (RemoveNetworkFailureHandlers (Record Call.InternalTravelToSession s))
        ShooterGameInstanceState.MainMenu OverrideExistingDefault := hs
    rw [ShowMessageThenGotoState_of_suppressed _ _ _ _ _ _ _ _ hs']
    exact ⟨rfl, rfl, rfl⟩

/-- Witness of C11, amended: at `MainMenu` heading to `Playing`, without a
player controller, the fallback replaces the pending `Playing` by the message. -/
theorem InternalTravelToSession_failure_fallback_witness :
    (Engine.NoPlayerController.FirstLocalPlayerController = false
      ∨ Engine.NoPlayerController.OnlineSub = false)
    ∧ ¬ Suppressed (At FName.MainMenu FName.Playing) ShooterGameInstanceState.MainMenu
        OverrideExistingDefault
    ∧ ((InternalTravelToSession Engine.NoPlayerController
          (At FName.MainMenu FName.Playing)).PendingMessage.NextState
          = ShooterGameInstanceState.MainMenu
        ∧ ((InternalTravelToSession Engine.NoPlayerController
            (At FName.MainMenu FName.Playing)).CurrentState
            = ShooterGameInstanceState.MessageMenu
          ∨ (InternalTravelToSession Engine.NoPlayerController
            (At FName.MainMenu FName.Playing)).PendingState
            = ShooterGameInstanceState.MessageMenu)
        ∧ (InternalTravelToSession Engine.NoPlayerController
            (At FName.MainMenu FName.Playing)).PendingMessage.DisplayString
          = if (At FName.MainMenu FName.Playing).CurrentState
              = ShooterGameInstanceState.MessageMenu then ""
            else TravelFailureReason Engine.NoPlayerController)
    ∧ (InternalTravelToSession Engine.NoOnlineSub
        (At FName.MainMenu FName.Playing)).PendingMessage.DisplayString = "OSS missing" :=
  ⟨Or.inl rfl, by decide,
    (InternalTravelToSession_failure_fallback Engine.NoPlayerController
      (At FName.MainMenu FName.Playing) (Or.inl rfl)).2.1 (by decide),
    ((InternalTravelToSession_failure_fallback Engine.NoOnlineSub
      (At FName.MainMenu FName.Playing) (Or.inr rfl)).2.1 (by decide)).2.2.trans (by decide)⟩

theorem OnJoinRTSession_of_failure (e : Engine) (MapPath : FString) (s : UShooterGameInstance)
    (hguard : s.PendingState = s.CurrentState
      ∨ s.PendingState = ShooterGameInstanceState.None)
    (hpc : e.FirstLocalPlayerController = false) :
    OnJoinRTSession e MapPath s =
      ShowMessageThenGoMain e "Invalid Player Controller" "OK" FText.GetEmpty
        (RemoveNetworkFailureHandlers
          (GotoState ShooterGameInstanceState.Playing (ShowLoadingScreen s))) := by
  unfold OnJoinRTSession
  rw [if_pos hguard]
  simp only [hpc, if_true]

/-- C12, counterexample: at the login screen with nothing pending the guard of
`OnJoinRTSession` passes, and without a first local player controller it
returns with `PendingState` equal to `Playing`, not `MessageMenu`; so it does
while a message that leads to `MainMenu` is displayed. -/
theorem OnJoinRTSession_failure_leaves_Playing :
    ((At FName.Login FName.NAME_None).PendingState = ShooterGameInstanceState.None
      ∧ (OnJoinRTSession Engine.NoPlayerController "/Game/Maps/Map"
          (At FName.Login FName.NAME_None)).PendingState = ShooterGameInstanceState.Playing
      ∧ (OnJoinRTSession Engine.NoPlayerController "/Game/Maps/Map"
          (At FName.Login FName.NAME_None)).PendingMessage.NextState
          ≠ ShooterGameInstanceState.MainMenu)
    ∧ (MessageShown.PendingState = ShooterGameInstanceState.None
      ∧ (OnJoinRTSession Engine.NoPlayerController "/Game/Maps/Map"
          MessageShown).PendingState = ShooterGameInstanceState.Playing) := by
  decide

/-- C12, amended: in every instance state in which the guard of
`OnJoinRTSession` passes and no first local player controller exists, the
function does not travel; and when `CurrentState` is neither `LoginScreen` nor
`MessageMenu` it returns with `PendingState` equal to `MessageMenu` and
`PendingMessage.NextState` equal to `MainMenu`, not with `PendingState` equal to
`Playing`. -/
theorem OnJoinRTSession_failure_shows_message (e : Engine) (MapPath : FString)
    (s : UShooterGameInstance)
    (hguard : s.PendingState = s.CurrentState
      ∨ s.PendingState = ShooterGameInstanceState.None)
    (hpc : e.FirstLocalPlayerController = false) :
    (∀ URL, Call.ClientTravelInternal URL ∉ CallsSince s (OnJoinRTSession e MapPath s))
      ∧ (s.CurrentState ≠ ShooterGameInstanceState.LoginScreen →
          s.CurrentState ≠ ShooterGameInstanceState.MessageMenu →
          (OnJoinRTSession e MapPath s).PendingState = ShooterGameInstanceState.MessageMenu
            ∧ (OnJoinRTSession e MapPath s).PendingMessage.NextState
              = ShooterGameInstanceState.MainMenu
            ∧ (OnJoinRTSession e MapPath s).PendingMessage.DisplayString
              = "Invalid Player Controller"
            ∧ (OnJoinRTSession e MapPath s).PendingState ≠ ShooterGameInstanceState.Playing) := by
  rw [OnJoinRTSession_of_failure e MapPath s hguard hpc]
  unfold ShowMessageThenGoMain
  refine ⟨?_, ?_⟩
  · intro URL
    unfold CallsSince
    rw [ShowMessageThenGotoState_Calls]
    simp only [RemoveNetworkFailureHandlers, ShowLoadingScreen, GotoState, Record,
      List.append_assoc, List.drop_left]
    split_ifs <;> simp
  · intro hl hm
    have hs : ¬ Suppressed (RemoveNetworkFailureHandlers
        (GotoState ShooterGameInstanceState.Playing (ShowLoadingScreen s)))
        ShooterGameInstanceState.MainMenu OverrideExistingDefault := by
      unfold Suppressed
      simp [RemoveNetworkFailureHandlers, ShowLoadingScreen, GotoState, Record, hl, hm]
    have hc : (RemoveNetworkFailureHandlers
        (GotoState ShooterGameInstanceState.Playing (ShowLoadingScreen s))).CurrentState
        ≠ ShooterGameInstanceState.MessageMenu := hm
    have hne : ("Invalid Player Controller" : FText) ≠ "" := by decide
    rw [ShowMessageThenGotoState_PendingMessage _ _ _ _ _ _ _ _ hne,
      ShowMessageThenGotoState_PendingState _ _ _ _ _ _ _ _ hne,
      if_neg hs, if_neg (fun hx => hx.elim hs hc), if_neg hc]
    exact ⟨rfl, rfl, rfl, by decide⟩

/-- Witness of C12, amended: at `MainMenu` with nothing pending and no player
controller, the failed join ends heading to the message menu. -/
theorem OnJoinRTSession_failure_shows_message_witness :
    ((At FName.MainMenu FName.NAME_None).PendingState
        = (At FName.MainMenu FName.NAME_None).CurrentState
      ∨ (At FName.MainMenu FName.NAME_None).PendingState = ShooterGameInstanceState.None)
    ∧ Engine.NoPlayerController.FirstLocalPlayerController = false
    ∧ ((OnJoinRTSession Engine.NoPlayerController "/Game/Maps/Map"
          (At FName.MainMenu FName.NAME_None)).PendingState
          = ShooterGameInstanceState.MessageMenu
        ∧ (OnJoinRTSession Engine.NoPlayerController "/Game/Maps/Map"
          (At FName.MainMenu FName.NAME_None)).PendingMessage.NextState
          = ShooterGameInstanceState.MainMenu
        ∧ (OnJoinRTSession Engine.NoPlayerController "/Game/Maps/Map"
          (At FName.MainMenu FName.NAME_None)).PendingMessage.DisplayString
          = "Invalid Player Controller"
        ∧ (OnJoinRTSession Engine.NoPlayerController "/Game/Maps/Map"
          (At FName.MainMenu FName.NAME_None)).PendingState
          ≠ ShooterGameInstanceState.Playing) :=
  ⟨Or.inr rfl, rfl,
    (OnJoinRTSession_failure_shows_message Engine.NoPlayerController "/Game/Maps/Map"
      (At FName.MainMenu FName.NAME_None) (Or.inr rfl) rfl).2 (by decide) (by decide)⟩

theorem InternalTravelToSession_Calls (e : Engine) (s : UShooterGameInstance) :
    ∃ added, (InternalTravelToSession e s).Calls
        = s.Calls ++ Call.InternalTravelToSession :: added
      ∧ added.count Call.InternalTravelToSession = 0 := by
  unfold InternalTravelToSession
  simp only [ShowMessageThenGoMain, RemoveNetworkFailureHandlers]
  split_ifs
  · rw [ShowMessageThenGotoState_Calls]
    simp only [Record, List.append_assoc]
    split_ifs
    · exact ⟨_, rfl, by decide⟩
    · exact ⟨_, rfl, by decide⟩
  · rw [ShowMessageThenGotoState_Calls]
    simp only [Record, List.append_assoc]
    split_ifs
    · exact ⟨_, rfl, by decide⟩
    · exact ⟨_, rfl, by decide⟩
  · simp only [Record, List.append_assoc]
    exact ⟨_, rfl, by simp⟩
  · simp only [Record, List.append_assoc]
    exact ⟨_, rfl, by simp⟩

/-- C13: `FinishJoinSession` routes every failure through the show-message
mechanism and travels only on success: for every `Result` other than `Success`
it is `ShowMessageThenGoMain` (target `MainMenu`) with the text `Game is full.`
for `SessionIsFull`, `Game no longer exists.` for `SessionDoesNotExist` and
`Join failed.` for every other result, and it does not call
`InternalTravelToSession`; for `Success` it shows no message of its own and
calls `InternalTravelToSession` once, which, when the player controller and the
online subsystem exist, travels and leaves the pending message as it was. -/
theorem FinishJoinSession_message_or_travel (e : Engine)
    (Result : EOnJoinSessionCompleteResult) (s : UShooterGameInstance) :
    FinishJoinSession e Result s =
        (if Result = EOnJoinSessionCompleteResult.Success then
          InternalTravelToSession e (Record (Call.FinishJoinSession Result) s)
        else
          ShowMessageThenGoMain e
            (if Result = EOnJoinSessionCompleteResult.SessionIsFull then "Game is full."
             else if Result = EOnJoinSessionCompleteResult.SessionDoesNotExist then
               "Game no longer exists."
             else "Join failed.")
            "OK" FText.GetEmpty
            (RemoveNetworkFailureHandlers (Record (Call.FinishJoinSession Result) s)))
      ∧ (CallsSince s (FinishJoinSession e Result s)).count Call.InternalTravelToSession
          = (if Result = EOnJoinSessionCompleteResult.Success then 1 else 0)
      ∧ (Result = EOnJoinSessionCompleteResult.Success →
          e.FirstLocalPlayerController = true → e.OnlineSub = true →
          (FinishJoinSession e Result s).PendingMessage = s.PendingMessage
            ∧ (FinishJoinSession e Result s).PendingState = s.PendingState
            ∧ (FinishJoinSession e Result s).CurrentState = s.CurrentState
            ∧ ∃ URL, Call.ClientTravel URL ∈ CallsSince s (FinishJoinSession e Result s)) := by
  have heq : FinishJoinSession e Result s =
      (if Result = EOnJoinSessionCompleteResult.Success then
        InternalTravelToSession e (Record (Call.FinishJoinSession Result) s)
      else
        ShowMessageThenGoMain e
          (if Result = EOnJoinSessionCompleteResult.SessionIsFull then "Game is full."
           else if Result = EOnJoinSessionCompleteResult.SessionDoesNotExist then
             "Game no longer exists."
           else "Join failed.")
          "OK" FText.GetEmpty
          (RemoveNetworkFailureHandlers (Record (Call.FinishJoinSession Result) s))) := by
    cases Result <;> simp [FinishJoinSession, JoinFailureReason]
  refine ⟨heq, ?_, ?_⟩
  · rw [heq]
    unfold CallsSince
    by_cases hr : Result = EOnJoinSessionCompleteResult.Success
    · rw [if_pos hr, if_pos hr]
      obtain ⟨added, hc, hn⟩ :=
        InternalTravelToSession_Calls e (Record (Call.FinishJoinSession Result) s)
      rw [hc]
      simp only [Record, List.append_assoc, List.drop_left]
      simp [hn]
    · rw [if_neg hr, if_neg hr]
      unfold ShowMessageThenGoMain
      rw [ShowMessageThenGotoState_Calls]
      simp only [RemoveNetworkFailureHandlers, Record, List.append_assoc, List.drop_left]
      split_ifs <;> simp
  · intro hr hp ho
    rw [heq, if_pos hr]
    have htravel : InternalTravelToSession e (Record (Call.FinishJoinSession Result) s) =
        Record (Call.ClientTravel (if e.TestEncryption then "?EncryptionToken=1" else ""))
          (Record Call.InternalTravelToSession (Record (Call.FinishJoinSession Result) s)) := by
      unfold InternalTravelToSession
      simp [hp, ho]
    rw [htravel]
    refine ⟨rfl, rfl, rfl, (if e.TestEncryption then "?EncryptionToken=1" else ""), ?_⟩
    simp [CallsSince, Record]

/-- Witness of C13: a successful join with player controller and online
subsystem travels and shows no message. -/
theorem FinishJoinSession_message_or_travel_witness :
    (FinishJoinSession Engine.Desktop EOnJoinSessionCompleteResult.Success
        (At FName.MainMenu FName.Playing)).PendingMessage
        = (At FName.MainMenu FName.Playing).PendingMessage
      ∧ (FinishJoinSession Engine.Desktop EOnJoinSessionCompleteResult.Success
        (At FName.MainMenu FName.Playing)).PendingState
        = (At FName.MainMenu FName.Playing).PendingState
      ∧ (FinishJoinSession Engine.Desktop EOnJoinSessionCompleteResult.Success
        (At FName.MainMenu FName.Playing)).CurrentState
        = (At FName.MainMenu FName.Playing).CurrentState
      ∧ ∃ URL, Call.ClientTravel URL ∈ CallsSince (At FName.MainMenu FName.Playing)
          (FinishJoinSession Engine.Desktop EOnJoinSessionCompleteResult.Success
            (At FName.MainMenu FName.Playing)) :=
  (FinishJoinSession_message_or_travel Engine.Desktop EOnJoinSessionCompleteResult.Success
    (At FName.MainMenu FName.Playing)).2.2 rfl rfl rfl

/-! ## The pending invite -/

/-- C14, the code at the failing input: with a valid `PendingInvite.UserId`,
`bPrivilegesCheckedAndAllowed` true and `CurrentState` equal to `PendingInvite`,
`Tick` returns the instance as it was: no call is made, no transition is
requested and `PendingInvite.UserId` is still valid; so it is after a second
`Tick`. -/
theorem Tick_does_not_act_on_invite :
    (InviteAllowed.PendingInvite.UserId.isSome = true
      ∧ InviteAllowed.PendingInvite.bPrivilegesCheckedAndAllowed = true
      ∧ InviteAllowed.CurrentState = ShooterGameInstanceState.PendingInvite)
    ∧ (Tick Engine.Desktop InviteAllowed).2 = InviteAllowed
    ∧ (Tick Engine.Desktop InviteAllowed).2.PendingInvite.UserId = some "friend"
    ∧ (Tick Engine.Desktop InviteAllowed).2.PendingState = ShooterGameInstanceState.None
    ∧ CallsSince InviteAllowed (Tick Engine.Desktop InviteAllowed).2 = []
    ∧ (Tick Engine.Desktop (Tick Engine.Desktop InviteAllowed).2).2 = InviteAllowed := by
  decide

/-- C15: where the source is defined, that is with `PendingInvite.UserId` a valid
pointer whenever `PrivilegeResults` is `NoFailures` (line 826 dereferences it
then), `OnUserCanPlayInvite` sets `PendingInvite.bPrivilegesCheckedAndAllowed`
to true if and only if `PrivilegeResults` equals `NoFailures` and the reported
`UserId` equals `PendingInvite.UserId` (otherwise the flag keeps its value);
when `PrivilegeResults` is anything else `PendingState` becomes `LoginScreen`;
when it is `NoFailures`, `PendingState` is left unchanged.  The user identifier
and controller index of the invite, and `CurrentState`, are never changed. -/
theorem OnUserCanPlayInvite_sets_flag (UserId : FUniqueNetId) (PrivilegeResults : Nat)
    (s : UShooterGameInstance)
    (hv : PrivilegeResults = NoFailures → s.PendingInvite.UserId ≠ none) :
    (OnUserCanPlayInvite UserId PrivilegeResults s).PendingInvite.bPrivilegesCheckedAndAllowed
        = (if PrivilegeResults = NoFailures ∧ s.PendingInvite.UserId = some UserId then true
           else s.PendingInvite.bPrivilegesCheckedAndAllowed)
      ∧ ((OnUserCanPlayInvite UserId PrivilegeResults s).PendingInvite.bPrivilegesCheckedAndAllowed
          ≠ s.PendingInvite.bPrivilegesCheckedAndAllowed →
        PrivilegeResults = NoFailures
          ∧ ∃ PendingUserId, s.PendingInvite.UserId = some PendingUserId
            ∧ UserId = PendingUserId)
      ∧ (OnUserCanPlayInvite UserId PrivilegeResults s).PendingState
        = (if PrivilegeResults = NoFailures then s.PendingState
           else ShooterGameInstanceState.LoginScreen)
      ∧ (OnUserCanPlayInvite UserId PrivilegeResults s).PendingInvite.UserId
        = s.PendingInvite.UserId
      ∧ (OnUserCanPlayInvite UserId PrivilegeResults s).PendingInvite.ControllerId
        = s.PendingInvite.ControllerId
      ∧ (OnUserCanPlayInvite UserId PrivilegeResults s).CurrentState = s.CurrentState := by
  unfold OnUserCanPlayInvite
  simp only [CleanupOnlinePrivilegeTask, DisplayOnlinePrivilegeFailureDialogs, GotoState, Record]
  by_cases hr : PrivilegeResults = NoFailures
  · obtain ⟨PendingUserId, hp⟩ := Option.ne_none_iff_exists'.1 (hv hr)
    by_cases hu : s.PendingInvite.UserId = some UserId
    · rw [if_pos hr, if_pos hu, if_pos ⟨hr, hu⟩, if_pos hr]
      refine ⟨rfl, fun _ => ⟨hr, PendingUserId, hp, ?_⟩, rfl, rfl, rfl, rfl⟩
      rw [hp] at hu
      exact (Option.some.inj hu).symm
    · rw [if_pos hr, if_neg hu, if_neg (fun hx => hu hx.2), if_pos hr]
      exact ⟨rfl, fun hne => absurd rfl hne, rfl, rfl, rfl, rfl⟩
  · rw [if_neg hr, if_neg (fun hx => hr hx.1), if_neg hr]
    exact ⟨rfl, fun hne => absurd rfl hne, rfl, rfl, rfl, rfl⟩

/-- Witness of C15: the invite of the user `friend` has not been checked; the
report `NoFailures` for `friend` sets the flag and leaves `PendingState` alone. -/
theorem OnUserCanPlayInvite_sets_flag_witness :
    (NoFailures = NoFailures → InviteUnchecked.PendingInvite.UserId ≠ none)
      ∧ InviteUnchecked.PendingInvite.bPrivilegesCheckedAndAllowed = false
      ∧ (OnUserCanPlayInvite "friend" NoFailures
          InviteUnchecked).PendingInvite.bPrivilegesCheckedAndAllowed = true
      ∧ (OnUserCanPlayInvite "friend" NoFailures InviteUnchecked).PendingState
        = ShooterGameInstanceState.None :=
  have h := OnUserCanPlayInvite_sets_flag "friend" NoFailures InviteUnchecked
    (fun _ => by decide)
  ⟨fun _ => by decide, rfl, h.1, h.2.2.1⟩

/-- C16, the code at the failing input: entering `MessageMenu` with an empty
`DisplayString`, the enter hook asks for the initial state (here `MainMenu`),
but `MaybeChangeState` returns with `PendingState` equal to `None`, and the
next tick stays in `MessageMenu`; entering `PendingInvite` when the front-end
map fails to load, the hook asks for `LoginScreen`, but `MaybeChangeState`
returns with `PendingState` equal to `None`, and the next tick stays in
`PendingInvite`. -/
theorem MaybeChangeState_drops_redirect :
    ((At FName.MainMenu FName.MessageMenu).PendingMessage.DisplayString = ""
      ∧ (BeginMessageMenuState Engine.Desktop
          (EndCurrentState Engine.Desktop FName.MessageMenu
            (At FName.MainMenu FName.MessageMenu))).PendingState
          = GetInitialState Engine.Desktop
      ∧ GetInitialState Engine.Desktop = ShooterGameInstanceState.MainMenu
      ∧ (MaybeChangeState Engine.Desktop (At FName.MainMenu FName.MessageMenu)).PendingState
          = ShooterGameInstanceState.None
      ∧ (MaybeChangeState Engine.Desktop (At FName.MainMenu FName.MessageMenu)).CurrentState
          = ShooterGameInstanceState.MessageMenu
      ∧ (Tick Engine.Desktop
          (MaybeChangeState Engine.Desktop
            (At FName.MainMenu FName.MessageMenu))).2.CurrentState
          = ShooterGameInstanceState.MessageMenu)
    ∧ ((BeginPendingInviteState Engine.MapFails
          (EndCurrentState Engine.MapFails FName.PendingInvite
            (At FName.MainMenu FName.PendingInvite))).PendingState
          = ShooterGameInstanceState.LoginScreen
      ∧ (MaybeChangeState Engine.MapFails (At FName.MainMenu FName.PendingInvite)).PendingState
          = ShooterGameInstanceState.None
      ∧ (MaybeChangeState Engine.MapFails (At FName.MainMenu FName.PendingInvite)).CurrentState
          = ShooterGameInstanceState.PendingInvite
      ∧ (Tick Engine.MapFails
          (MaybeChangeState Engine.MapFails
            (At FName.MainMenu FName.PendingInvite))).2.CurrentState
          = ShooterGameInstanceState.PendingInvite) := by
  decide

/-! ## The unlicensed player -/

theorem RemoveSplitScreenPlayers_bIsLicensed (s : UShooterGameInstance) :
    (RemoveSplitScreenPlayers s).bIsLicensed = s.bIsLicensed := by
  rw [RemoveSplitScreenPlayers_frame]

theorem EndCurrentState_bIsLicensed (e : Engine) (n : FName) (s : UShooterGameInstance) :
    (EndCurrentState e n s).bIsLicensed = s.bIsLicensed := by
  simp only [EndCurrentState]
  split_ifs <;>
    simp [EndPendingInviteState, EndLoginScreenState, EndMainMenuState, EndMessageMenuState,
      EndPlayingState, CleanupOnlinePrivilegeTask, CleanupSessionOnReturnToMenu, Record]
  split_ifs <;> rfl

theorem BeginNewState_bIsLicensed (e : Engine) (n p : FName) (s : UShooterGameInstance) :
    (BeginNewState e n p s).bIsLicensed = s.bIsLicensed := by
  cases n <;>
    simp [BeginNewState, BeginPendingInviteState, BeginLoginState, BeginMainMenuState,
      BeginMessageMenuState, BeginPlayingState, LoadFrontEndMap, RemoveNetworkFailureHandlers,
      SetOnlineMode, GotoInitialState, GotoState, Record, RemoveSplitScreenPlayers_bIsLicensed]
  · split_ifs
    · simp only [StartOnlinePrivilegeTask]
      split
      · split <;>
          simp [OnUserCanPlayInvite, CleanupOnlinePrivilegeTask, GotoState,
            DisplayOnlinePrivilegeFailureDialogs, Record]
        split_ifs <;> simp
      · simp [OnUserCanPlayInvite, CleanupOnlinePrivilegeTask]
        split_ifs <;> simp
    · rfl
  · split_ifs <;> rfl

theorem MaybeChangeState_bIsLicensed (e : Engine) (s : UShooterGameInstance) :
    (MaybeChangeState e s).bIsLicensed = s.bIsLicensed := by
  by_cases h : s.PendingState ≠ s.CurrentState ∧ s.PendingState ≠ ShooterGameInstanceState.None
  · rw [MaybeChangeState_transition e s h.1 h.2]
    show (BeginNewState e s.PendingState s.CurrentState
      (EndCurrentState e s.PendingState s)).bIsLicensed = s.bIsLicensed
    rw [BeginNewState_bIsLicensed, EndCurrentState_bIsLicensed]
  · unfold MaybeChangeState
    rw [if_neg h]

theorem MaybeChangeState_PendingState (e : Engine) (s : UShooterGameInstance) :
    (MaybeChangeState e s).PendingState = ShooterGameInstanceState.None
      ∨ (MaybeChangeState e s).PendingState = (MaybeChangeState e s).CurrentState := by
  by_cases h : s.PendingState ≠ s.CurrentState ∧ s.PendingState ≠ ShooterGameInstanceState.None
  · left
    rw [MaybeChangeState_transition e s h.1 h.2]
  · have hs : MaybeChangeState e s = s := by
      unfold MaybeChangeState
      rw [if_neg h]
    rw [hs]
    by_cases hn : s.PendingState = ShooterGameInstanceState.None
    · exact Or.inl hn
    · right
      by_contra hc
      exact h ⟨hc, hn⟩

theorem ShowMessageThenGotoState_bIsLicensed (e : Engine) (Message OK Cancel : FText)
    (NewState : FName) (OverrideExisting : Bool) (PlayerOwner : Option ULocalPlayer)
    (s : UShooterGameInstance) :
    (ShowMessageThenGotoState e Message OK Cancel NewState OverrideExisting PlayerOwner
      s).bIsLicensed = s.bIsLicensed := by
  by_cases h : Suppressed s NewState OverrideExisting
  · rw [ShowMessageThenGotoState_of_suppressed e Message OK Cancel NewState OverrideExisting
      PlayerOwner s h]
  · rw [ShowMessageThenGotoState_of_not_suppressed e Message OK Cancel NewState OverrideExisting
      PlayerOwner s h]
    split_ifs
    · unfold BeginMessageMenuState
      simp only [GotoInitialState, GotoState, Record, EndMessageMenuState]
      split_ifs <;> rfl
    · rfl

theorem Tick_of_not_dedicated (e : Engine) (s : UShooterGameInstance)
    (hd : e.IsRunningDedicatedServer = false) :
    (Tick e s).2 =
      if (MaybeChangeState e s).CurrentState ≠ ShooterGameInstanceState.LoginScreen
          ∧ (MaybeChangeState e s).bIsLicensed = false
          ∧ (MaybeChangeState e s).CurrentState ≠ ShooterGameInstanceState.None then
        ShowMessageThenGotoState e NeedLicenseReason "OK" FText.GetEmpty
          ShooterGameInstanceState.LoginScreen OverrideExistingDefault none
          (MaybeChangeState e s)
      else MaybeChangeState e s := by
  unfold Tick
  simp only [hd, Bool.false_eq_true, if_false]
  split_ifs <;> first | rfl | (exfalso; tauto)

theorem NeedLicenseReason_ne_empty : NeedLicenseReason ≠ "" := by decide

theorem Tick_of_displayed (e : Engine) (s : UShooterGameInstance)
    (h : LicenseMessageDisplayed s) : (Tick e s).2 = s := by
  obtain ⟨hl, hc, hn, hp⟩ := h
  have hm : MaybeChangeState e s = s := by
    unfold MaybeChangeState
    rw [if_neg]
    rintro ⟨h₁, h₂⟩
    rcases hp with hp | hp
    · exact h₂ hp
    · exact h₁ (hp.trans hc.symm)
  cases hd : e.IsRunningDedicatedServer
  · rw [Tick_of_not_dedicated e s hd, hm]
    have hs : Suppressed s ShooterGameInstanceState.LoginScreen OverrideExistingDefault :=
      Or.inr (Or.inl ⟨Or.inr hc, hn⟩)
    rw [ShowMessageThenGotoState_of_suppressed _ _ _ _ _ _ _ _ hs]
    split_ifs <;> rfl
  · unfold Tick
    simp only [hd, if_true]

theorem Ticks_of_displayed (later : List Engine) (s : UShooterGameInstance)
    (h : LicenseMessageDisplayed s) : Ticks later s = s := by
  induction later with
  | nil => rfl
  | cons e rest ih =>
    unfold Ticks
    rw [Tick_of_displayed e s h]
    exact ih

theorem Tick_first_bounce (e : Engine) (s : UShooterGameInstance)
    (hd : e.IsRunningDedicatedServer = false) (hl : s.bIsLicensed = false)
    (hlogin : (MaybeChangeState e s).CurrentState ≠ ShooterGameInstanceState.LoginScreen)
    (hnone : (MaybeChangeState e s).CurrentState ≠ ShooterGameInstanceState.None) :
    LicenseMessageDisplayed (Tick e s).2 ∨ LicenseMessagePending (Tick e s).2 := by
  have hlm : (MaybeChangeState e s).bIsLicensed = false := by
    rw [MaybeChangeState_bIsLicensed]; exact hl
  rw [Tick_of_not_dedicated e s hd, if_pos ⟨hlogin, hlm, hnone⟩]
  have hp := MaybeChangeState_PendingState e s
  generalize MaybeChangeState e s = m at hlogin hnone hlm hp
  by_cases hs : Suppressed m ShooterGameInstanceState.LoginScreen OverrideExistingDefault
  · rw [ShowMessageThenGotoState_of_suppressed _ _ _ _ _ _ _ _ hs]
    left
    have hpl : m.PendingState ≠ ShooterGameInstanceState.LoginScreen := by
      rcases hp with hp | hp
      · rw [hp]; decide
      · rw [hp]; exact hlogin
    rcases hs with hs | hs | hs
    · exact absurd hs (fun hx => hx.elim hpl hlogin)
    · obtain ⟨hmm, hnext⟩ := hs
      have hc : m.CurrentState = ShooterGameInstanceState.MessageMenu := by
        rcases hmm with hmm | hmm
        · rcases hp with hp | hp
          · rw [hp] at hmm; cases hmm
          · rw [← hp]; exact hmm
        · exact hmm
      refine ⟨hlm, hc, hnext, ?_⟩
      rcases hp with hp | hp
      · exact Or.inl hp
      · exact Or.inr (hp.trans hc)
    · exact absurd hs.1 (by decide)
  · have hne := NeedLicenseReason_ne_empty
    by_cases hc : m.CurrentState = ShooterGameInstanceState.MessageMenu
    · left
      refine ⟨?_, ?_, ?_, ?_⟩
      · rw [ShowMessageThenGotoState_bIsLicensed]; exact hlm
      · rw [ShowMessageThenGotoState_CurrentState]; exact hc
      · rw [ShowMessageThenGotoState_PendingMessage _ _ _ _ _ _ _ _ hne, if_neg hs]
      · rw [ShowMessageThenGotoState_PendingState _ _ _ _ _ _ _ _ hne, if_pos (Or.inr hc)]
        rcases hp with hp | hp
        · exact Or.inl hp
        · exact Or.inr (hp.trans hc)
    · right
      refine ⟨?_, ?_, ?_, ?_, ?_⟩
      · rw [ShowMessageThenGotoState_bIsLicensed]; exact hlm
      · rw [ShowMessageThenGotoState_CurrentState]; exact hc
      · rw [ShowMessageThenGotoState_PendingState _ _ _ _ _ _ _ _ hne,
          if_neg (fun hx => hx.elim hs hc)]
      · rw [ShowMessageThenGotoState_PendingMessage _ _ _ _ _ _ _ _ hne, if_neg hs]
      · rw [ShowMessageThenGotoState_PendingMessage _ _ _ _ _ _ _ _ hne, if_neg hs]
        show (if m.CurrentState = ShooterGameInstanceState.MessageMenu then ""
          else NeedLicenseReason) ≠ ""
        rw [if_neg hc]
        exact hne

theorem ExitHook_count_BeginMessageMenuState (n : FName) :
    (ExitHook n).toList.count Call.BeginMessageMenuState = 0 := by
  cases n <;> simp [ExitHook]

theorem Tick_of_pending (e : Engine) (s : UShooterGameInstance)
    (hd : e.IsRunningDedicatedServer = false) (h : LicenseMessagePending s) :
    LicenseMessageDisplayed (Tick e s).2
      ∧ (CallsSince s (Tick e s).2).count Call.BeginMessageMenuState = 1 := by
  obtain ⟨hl, hc, hp, hn, hdisp⟩ := h
  have hne : s.PendingState ≠ s.CurrentState := by
    rw [hp]; exact fun hx => hc hx.symm
  have hnone : s.PendingState ≠ ShooterGameInstanceState.None := by
    rw [hp]; decide
  have hlm : (MaybeChangeState e s).bIsLicensed = false := by
    rw [MaybeChangeState_bIsLicensed]; exact hl
  obtain ⟨added, hcalls, hhooks⟩ := MaybeChangeState_Calls e s
  rw [if_pos ⟨hne, hnone⟩, hp] at hhooks
  have hmc : (MaybeChangeState e s).CurrentState = ShooterGameInstanceState.MessageMenu := by
    rw [MaybeChangeState_CurrentState_of_transition e s hne hnone, hp]
  have hmp : (MaybeChangeState e s).PendingState = ShooterGameInstanceState.None := by
    rw [MaybeChangeState_transition e s hne hnone]
  have hmn : (MaybeChangeState e s).PendingMessage.NextState
      = ShooterGameInstanceState.LoginScreen := by
    rw [MaybeChangeState_transition e s hne hnone, hp]
    show (BeginNewState e ShooterGameInstanceState.MessageMenu s.CurrentState
      (EndCurrentState e ShooterGameInstanceState.MessageMenu s)).PendingMessage.NextState = _
    have hE := EndCurrentState_PendingMessage e ShooterGameInstanceState.MessageMenu s
    have hB : BeginNewState e ShooterGameInstanceState.MessageMenu s.CurrentState
        (EndCurrentState e ShooterGameInstanceState.MessageMenu s) =
        { BeginMessageMenuState e (EndCurrentState e ShooterGameInstanceState.MessageMenu s) with
          CurrentState := ShooterGameInstanceState.MessageMenu } := by
      simp [BeginNewState]
    rw [hB]
    unfold BeginMessageMenuState
    simp only [FText.IsEmpty, Record, decide_eq_true_eq, hE]
    rw [if_neg hdisp]
    exact hn
  have hdis : LicenseMessageDisplayed (MaybeChangeState e s) := ⟨hlm, hmc, hmn, Or.inl hmp⟩
  have ht : (Tick e s).2 = MaybeChangeState e s := by
    rw [Tick_of_not_dedicated e s hd]
    have hs : Suppressed (MaybeChangeState e s) ShooterGameInstanceState.LoginScreen
        OverrideExistingDefault := Or.inr (Or.inl ⟨Or.inr hmc, hmn⟩)
    rw [ShowMessageThenGotoState_of_suppressed _ _ _ _ _ _ _ _ hs]
    split_ifs <;> rfl
  rw [ht]
  refine ⟨hdis, ?_⟩
  unfold CallsSince
  rw [hcalls, List.drop_left]
  have hcount : (HooksOf added).count Call.BeginMessageMenuState
      = added.count Call.BeginMessageMenuState := by
    unfold HooksOf
    exact List.count_filter (l := added) (p := HookCall) (a := Call.BeginMessageMenuState) rfl
  rw [← hcount, hhooks, List.count_append, ExitHook_count_BeginMessageMenuState]
  rfl

/-- C17: an unlicensed player is bounced toward the login screen once, not once
per frame.  On a process that is not a dedicated server (so that `Tick`
performs its state change), if `bIsLicensed` is false and after the tick's
state change `CurrentState` is neither `LoginScreen` nor `None`, `Tick` leaves
`PendingMessage.NextState` equal to `LoginScreen` with the machine at or heading
to `MessageMenu`; and after every non-empty sequence of later ticks with no
other request in between, `bIsLicensed` is still false,
`PendingMessage.NextState` is `LoginScreen`, `CurrentState` is `MessageMenu`,
and `BeginMessageMenuState` has run in those ticks only to display the message
for the first time: not at all when the message was already displayed, once
when the machine was heading to `MessageMenu`. -/
theorem Tick_bounces_unlicensed_once (e : Engine) (later : List Engine)
    (s : UShooterGameInstance)
    (hd : e.IsRunningDedicatedServer = false)
    (hlater : ∀ e' ∈ later, e'.IsRunningDedicatedServer = false)
    (hl : s.bIsLicensed = false)
    (hlogin : (MaybeChangeState e s).CurrentState ≠ ShooterGameInstanceState.LoginScreen)
    (hnone : (MaybeChangeState e s).CurrentState ≠ ShooterGameInstanceState.None) :
    ((Tick e s).2.PendingMessage.NextState = ShooterGameInstanceState.LoginScreen
      ∧ ((Tick e s).2.CurrentState = ShooterGameInstanceState.MessageMenu
        ∨ (Tick e s).2.PendingState = ShooterGameInstanceState.MessageMenu))
    ∧ (later ≠ [] →
        (Ticks later (Tick e s).2).bIsLicensed = false
          ∧ (Ticks later (Tick e s).2).PendingMessage.NextState
            = ShooterGameInstanceState.LoginScreen
          ∧ (Ticks later (Tick e s).2).CurrentState = ShooterGameInstanceState.MessageMenu
          ∧ (CallsSince (Tick e s).2 (Ticks later (Tick e s).2)).count
              Call.BeginMessageMenuState
            = (if (Tick e s).2.CurrentState = ShooterGameInstanceState.MessageMenu then 0
               else 1)) := by
  rcases Tick_first_bounce e s hd hl hlogin hnone with h | h
  · refine ⟨⟨h.2.2.1, Or.inl h.2.1⟩, ?_⟩
    intro _
    rw [Ticks_of_displayed later _ h, if_pos h.2.1]
    refine ⟨h.1, h.2.2.1, h.2.1, ?_⟩
    simp [CallsSince]
  · refine ⟨⟨h.2.2.2.1, Or.inr h.2.2.1⟩, ?_⟩
    intro hne
    cases later with
    | nil => exact absurd rfl hne
    | cons e' rest =>
      have hd' : e'.IsRunningDedicatedServer = false := hlater e' (List.mem_cons_self _ _)
      obtain ⟨hdis, hcount⟩ := Tick_of_pending e' (Tick e s).2 hd' h
      unfold Ticks
      rw [Ticks_of_displayed rest _ hdis, if_neg h.2.1]
      exact ⟨hdis.1, hdis.2.2.1, hdis.2.1, hcount⟩

/-- Witness of C17: an unlicensed player at `MainMenu` is sent to the message
menu by the first tick, is there after three more ticks, and the message was
displayed once. -/
theorem Tick_bounces_unlicensed_once_witness :
    (Engine.Desktop.IsRunningDedicatedServer = false
      ∧ (∀ e' ∈ [Engine.Desktop, Engine.Desktop, Engine.Desktop],
          e'.IsRunningDedicatedServer = false)
      ∧ UnlicensedAtMainMenu.bIsLicensed = false
      ∧ (MaybeChangeState Engine.Desktop UnlicensedAtMainMenu).CurrentState
          ≠ ShooterGameInstanceState.LoginScreen
      ∧ (MaybeChangeState Engine.Desktop UnlicensedAtMainMenu).CurrentState
          ≠ ShooterGameInstanceState.None)
    ∧ ((Tick Engine.Desktop UnlicensedAtMainMenu).2.PendingMessage.NextState
          = ShooterGameInstanceState.LoginScreen
      ∧ ((Tick Engine.Desktop UnlicensedAtMainMenu).2.CurrentState
          = ShooterGameInstanceState.MessageMenu
        ∨ (Tick Engine.Desktop UnlicensedAtMainMenu).2.PendingState
          = ShooterGameInstanceState.MessageMenu))
    ∧ ((Ticks [Engine.Desktop, Engine.Desktop, Engine.Desktop]
          (Tick Engine.Desktop UnlicensedAtMainMenu).2).bIsLicensed = false
      ∧ (Ticks [Engine.Desktop, Engine.Desktop, Engine.Desktop]
          (Tick Engine.Desktop UnlicensedAtMainMenu).2).PendingMessage.NextState
          = ShooterGameInstanceState.LoginScreen
      ∧ (Ticks [Engine.Desktop, Engine.Desktop, Engine.Desktop]
          (Tick Engine.Desktop UnlicensedAtMainMenu).2).CurrentState
          = ShooterGameInstanceState.MessageMenu
      ∧ (CallsSince (Tick Engine.Desktop UnlicensedAtMainMenu).2
          (Ticks [Engine.Desktop, Engine.Desktop, Engine.Desktop]
            (Tick Engine.Desktop UnlicensedAtMainMenu).2)).count Call.BeginMessageMenuState
        = (if (Tick Engine.Desktop UnlicensedAtMainMenu).2.CurrentState
              = ShooterGameInstanceState.MessageMenu then 0
           else 1)) :=
  ⟨⟨rfl, by simp [Engine.Desktop], rfl, by decide, by decide⟩,
    (Tick_bounces_unlicensed_once Engine.Desktop [Engine.Desktop, Engine.Desktop, Engine.Desktop]
      UnlicensedAtMainMenu rfl (by simp [Engine.Desktop]) rfl (by decide) (by decide)).1,
    (Tick_bounces_unlicensed_once Engine.Desktop [Engine.Desktop, Engine.Desktop, Engine.Desktop]
      UnlicensedAtMainMenu rfl (by simp [Engine.Desktop]) rfl (by decide) (by decide)).2
      (by simp)⟩

/-! ## The guards in front of `Playing` -/

/-- C18: the operations that enter the `Playing` state behind a guard never
override a different pending transition: in `LoadMissionLevel`,
`OnJoinRTSession`, both `JoinSession` overloads, `HostQuickSession` and the
online branch of `HostGame`, if at the guard `PendingState` differs from
`CurrentState` and is not `None`, the operation returns the instance as it was
at the guard (no `GotoState`, `PendingState` unchanged) and, where it returns a
bool, returns false; and each of `JoinSession`, `HostQuickSession` and
`HostGame` returns true only with `PendingState` set to `Playing`. -/
theorem Playing_guard_keeps_pending (e : Engine) (MapPath GameType InTravelURL : FString)
    (SessionSettings : FOnlineSessionSettings) (s : UShooterGameInstance) :
    (OtherTransitionPending s →
        LoadMissionLevel e MapPath s = (false, s) ∧ OnJoinRTSession e MapPath s = s)
      ∧ (e.GameSession = true → OtherTransitionPending (JoinSessionAtGuard e s) →
        JoinSession e s = (false, JoinSessionAtGuard e s)
          ∧ JoinSessionSearchResult e s = (false, JoinSessionAtGuard e s))
      ∧ (e.GameSession = true →
        OtherTransitionPending (HostQuickSessionAtGuard e SessionSettings s) →
        HostQuickSession e SessionSettings s
          = (false, HostQuickSessionAtGuard e SessionSettings s))
      ∧ (s.OnlineMode ≠ EOnlineMode.Offline → e.GameSession = true →
        OtherTransitionPending (HostGameAtGuard e GameType InTravelURL s) →
        HostGame e GameType InTravelURL s = (false, HostGameAtGuard e GameType InTravelURL s))
      ∧ ((JoinSession e s).1 = true →
        (JoinSession e s).2.PendingState = ShooterGameInstanceState.Playing)
      ∧ ((JoinSessionSearchResult e s).1 = true →
        (JoinSessionSearchResult e s).2.PendingState = ShooterGameInstanceState.Playing)
      ∧ ((HostQuickSession e SessionSettings s).1 = true →
        (HostQuickSession e SessionSettings s).2.PendingState
          = ShooterGameInstanceState.Playing)
      ∧ ((HostGame e GameType InTravelURL s).1 = true →
        (HostGame e GameType InTravelURL s).2.PendingState
          = ShooterGameInstanceState.Playing) := by
  refine ⟨?_, ?_, ?_, ?_, ?_, ?_, ?_, ?_⟩
  · intro h
    have hg : ¬ (s.PendingState = s.CurrentState
        ∨ s.PendingState = ShooterGameInstanceState.None) := fun hx => hx.elim h.1 h.2
    unfold LoadMissionLevel OnJoinRTSession
    rw [if_neg hg, if_neg hg]
    exact ⟨rfl, rfl⟩
  · intro hs h
    have hg : ¬ ((JoinSessionAtGuard e s).PendingState = (JoinSessionAtGuard e s).CurrentState
        ∨ (JoinSessionAtGuard e s).PendingState = ShooterGameInstanceState.None) :=
      fun hx => hx.elim h.1 h.2
    unfold JoinSession JoinSessionSearchResult
    simp only [hs, if_true]
    unfold JoinSessionAtGuard at hg ⊢
    rw [if_neg (fun hx => hg hx.2)]
    exact ⟨rfl, rfl⟩
  · intro hs h
    have hg : ¬ ((HostQuickSessionAtGuard e SessionSettings s).PendingState
          = (HostQuickSessionAtGuard e SessionSettings s).CurrentState
        ∨ (HostQuickSessionAtGuard e SessionSettings s).PendingState
          = ShooterGameInstanceState.None) := fun hx => hx.elim h.1 h.2
    unfold HostQuickSession
    simp only [hs, if_true]
    unfold HostQuickSessionAtGuard at hg ⊢
    rw [if_neg (fun hx => hg hx.2)]
  · intro ho hs h
    have hg : ¬ ((HostGameAtGuard e GameType InTravelURL s).PendingState
          = (HostGameAtGuard e GameType InTravelURL s).CurrentState
        ∨ (HostGameAtGuard e GameType InTravelURL s).PendingState
          = ShooterGameInstanceState.None) := fun hx => hx.elim h.1 h.2
    unfold HostGame
    rw [if_neg ho]
    simp only [hs, if_true]
    unfold HostGameAtGuard at hg ⊢
    rw [if_neg (fun hx => hg hx.2)]
  · unfold JoinSession
    simp only []
    split_ifs <;> simp [GotoState]
  · unfold JoinSessionSearchResult
    simp only []
    split_ifs <;> simp [GotoState]
  · unfold HostQuickSession
    simp only []
    split_ifs <;> simp [GotoState]
  · unfold HostGame
    simp only []
    split_ifs <;> simp [GotoState, Record]

/-- Witness of C18: with a message pending at `MainMenu`, `LoadMissionLevel` and
`OnJoinRTSession` do nothing; when the join or the session creation fails
inside the engine call, the message it leaves pending is kept and the function
returns false; a join that goes well returns true with `Playing` pending. -/
theorem Playing_guard_keeps_pending_witness :
    (OtherTransitionPending (At FName.MainMenu FName.MessageMenu)
      ∧ LoadMissionLevel Engine.Desktop "/Game/Maps/Map" (At FName.MainMenu FName.MessageMenu)
          = (false, At FName.MainMenu FName.MessageMenu)
      ∧ OnJoinRTSession Engine.Desktop "/Game/Maps/Map" (At FName.MainMenu FName.MessageMenu)
          = At FName.MainMenu FName.MessageMenu)
    ∧ (OtherTransitionPending (JoinSessionAtGuard Engine.FailsAtOnce OnlineAtMainMenu)
      ∧ JoinSession Engine.FailsAtOnce OnlineAtMainMenu
          = (false, JoinSessionAtGuard Engine.FailsAtOnce OnlineAtMainMenu)
      ∧ JoinSessionSearchResult Engine.FailsAtOnce OnlineAtMainMenu
          = (false, JoinSessionAtGuard Engine.FailsAtOnce OnlineAtMainMenu))
    ∧ (OtherTransitionPending
        (HostQuickSessionAtGuard Engine.FailsAtOnce
          { GameMode := "", MapName := "", NumPublicConnections := 8 } OnlineAtMainMenu)
      ∧ HostQuickSession Engine.FailsAtOnce
          { GameMode := "", MapName := "", NumPublicConnections := 8 } OnlineAtMainMenu
          = (false, HostQuickSessionAtGuard Engine.FailsAtOnce
              { GameMode := "", MapName := "", NumPublicConnections := 8 } OnlineAtMainMenu))
    ∧ (OtherTransitionPending
        (HostGameAtGuard Engine.FailsAtOnce "TDM" GetQuickMatchUrl OnlineAtMainMenu)
      ∧ HostGame Engine.FailsAtOnce "TDM" GetQuickMatchUrl OnlineAtMainMenu
          = (false, HostGameAtGuard Engine.FailsAtOnce "TDM" GetQuickMatchUrl OnlineAtMainMenu))
    ∧ ((JoinSession Engine.Desktop OnlineAtMainMenu).1 = true
      ∧ (JoinSession Engine.Desktop OnlineAtMainMenu).2.PendingState
          = ShooterGameInstanceState.Playing) :=
  ⟨⟨by decide,
      (Playing_guard_keeps_pending Engine.Desktop "/Game/Maps/Map" "TDM" GetQuickMatchUrl
        { GameMode := "", MapName := "", NumPublicConnections := 8 }
        (At FName.MainMenu FName.MessageMenu)).1 (by decide)⟩,
    ⟨by decide,
      (Playing_guard_keeps_pending Engine.FailsAtOnce "/Game/Maps/Map" "TDM" GetQuickMatchUrl
        { GameMode := "", MapName := "", NumPublicConnections := 8 }
        OnlineAtMainMenu).2.1 rfl (by decide)⟩,
    ⟨by decide,
      (Playing_guard_keeps_pending Engine.FailsAtOnce "/Game/Maps/Map" "TDM" GetQuickMatchUrl
        { GameMode := "", MapName := "", NumPublicConnections := 8 }
        OnlineAtMainMenu).2.2.1 rfl (by decide)⟩,
    ⟨by decide,
      (Playing_guard_keeps_pending Engine.FailsAtOnce "/Game/Maps/Map" "TDM" GetQuickMatchUrl
        { GameMode := "", MapName := "", NumPublicConnections := 8 }
        OnlineAtMainMenu).2.2.2.1 (by decide) rfl (by decide)⟩,
    ⟨by decide,
      (Playing_guard_keeps_pending Engine.Desktop "/Game/Maps/Map" "TDM" GetQuickMatchUrl
        { GameMode := "", MapName := "", NumPublicConnections := 8 }
        OnlineAtMainMenu).2.2.2.2.1 (by decide)⟩⟩

/-! ## Completions of a join and of a session creation -/

/-- C19, the code at the failing input: with two local players, a successful
`OnJoinSessionComplete` returns the instance as it was, without a call of
`FinishJoinSession`, of `InternalTravelToSession` or of `ClientTravel`, and a
successful `OnCreatePresenceSessionComplete` (a game session exists) returns
the instance as it was, without a call of `FinishSessionCreation` or of
`ServerTravel`; with a single local player each calls its finishing function
once. -/
theorem Completion_not_concluded_on_split_screen :
    (OnJoinSessionComplete Engine.Desktop EOnJoinSessionCompleteResult.Success
        TwoPlayersJoining = TwoPlayersJoining
      ∧ (CallsSince TwoPlayersJoining
          (OnJoinSessionComplete Engine.Desktop EOnJoinSessionCompleteResult.Success
            TwoPlayersJoining)).count
          (Call.FinishJoinSession EOnJoinSessionCompleteResult.Success) = 0)
    ∧ (Engine.Desktop.GameSession = true
      ∧ OnCreatePresenceSessionComplete Engine.Desktop true TwoPlayersJoining
          = TwoPlayersJoining
      ∧ (CallsSince TwoPlayersJoining
          (OnCreatePresenceSessionComplete Engine.Desktop true TwoPlayersJoining)).count
          (Call.FinishSessionCreation EOnJoinSessionCompleteResult.Success) = 0)
    ∧ ((CallsSince OnePlayerJoining
          (OnJoinSessionComplete Engine.Desktop EOnJoinSessionCompleteResult.Success
            OnePlayerJoining)).count
          (Call.FinishJoinSession EOnJoinSessionCompleteResult.Success) = 1
      ∧ CallsSince OnePlayerJoining
          (OnCreatePresenceSessionComplete Engine.Desktop true OnePlayerJoining)
        = [Call.FinishSessionCreation EOnJoinSessionCompleteResult.Success,
            Call.SendPlayTogetherInvites, Call.ServerTravel GetQuickMatchUrl]) := by
  decide

/-! ## The map name of a travel URL -/

theorem FindFrom_append (pre SubStr post : List Char) (i : Nat) (hne : SubStr ≠ [])
    (hno : ∀ p, p ≠ [] → p <:+ pre → ¬ SubStr <+: p ++ (SubStr ++ post)) :
    FString.FindFrom (pre ++ (SubStr ++ post)) SubStr i = ((i + pre.length : Nat) : Int) := by
  induction pre generalizing i with
  | nil =>
    cases SubStr with
    | nil => exact absurd rfl hne
    | cons c cs =>
      simp [FString.FindFrom, List.isPrefixOf_iff_prefix]
  | cons a pre ih =>
    have hfalse : ¬ SubStr <+: (a :: pre) ++ (SubStr ++ post) :=
      hno (a :: pre) (List.cons_ne_nil _ _) (List.suffix_refl _)
    have hrec := ih (i + 1) (fun p hp hs => hno p hp (hs.trans (List.suffix_cons a pre)))
    simp only [List.cons_append] at hfalse ⊢
    unfold FString.FindFrom
    rw [if_neg]
    · rw [hrec]
      simp only [List.length_cons]
      congr 1
      omega
    · rintro ⟨_, hpre⟩
      exact hfalse (List.isPrefixOf_iff_prefix.mp hpre)

theorem GameOption_no_straddle (p post : List Char) (hp : p ≠ [])
    (hin : ¬ ['?', 'G', 'A', 'M', 'E'] <:+: p) :
    ¬ ['?', 'G', 'A', 'M', 'E'] <+: p ++ (['?', 'G', 'A', 'M', 'E'] ++ post) := by
  intro h
  rcases p with _ | ⟨a, _ | ⟨b, _ | ⟨c, _ | ⟨d, _ | ⟨f, p⟩⟩⟩⟩⟩
  · exact hp rfl
  · simp [List.cons_prefix_cons] at h
  · simp [List.cons_prefix_cons] at h
  · simp [List.cons_prefix_cons] at h
  · simp [List.cons_prefix_cons] at h
  · simp only [List.cons_append, List.cons_prefix_cons] at h
    obtain ⟨ha, hb, hc, hd, hf, _⟩ := h
    subst ha hb hc hd hf
    exact hin (List.prefix_append _ p).isInfix

theorem MapNameOfTravelURL_chopped (m rest : FString)
    (h : ¬ ContainsIgnoringCase m "?game") :
    FString.Find (String.mk (m.data ++ ("?game".data ++ rest.data))) "?game"
      = (m.data.length : Int) := by
  have hU : ("?game" : String).data.map Char.toUpper = ['?', 'G', 'A', 'M', 'E'] := by decide
  unfold FString.Find
  simp only [List.map_append, hU]
  have := FindFrom_append (m.data.map Char.toUpper) ['?', 'G', 'A', 'M', 'E']
    (rest.data.map Char.toUpper) 0 (by simp) (by
      intro p hp hs
      apply GameOption_no_straddle p _ hp
      intro hin
      apply h
      unfold ContainsIgnoringCase
      rw [hU]
      exact hin.trans hs.isInfix)
  rw [this]
  simp

/-- C20: the map name derived from a travel URL in `HostGame` and
`HostQuickSession` is the part between the `/Game/Maps/` prefix and the first
`?game`: for every URL of the form `/Game/Maps/` + `m` + `?game` + `rest` where
`m` does not contain `?game` (compared ignoring case), the map name equals `m`;
for the quick-match URL it is `AlienLab/Lab_Deathmatch`. -/
theorem MapNameOfTravelURL_between (m rest : FString)
    (h : ¬ ContainsIgnoringCase m "?game") :
    MapNameOfTravelURL ("/Game/Maps/" ++ m ++ "?game" ++ rest) = m
      ∧ GetQuickMatchUrl = "/Game/Maps/AlienLab/Lab_Deathmatch?game=TDM?listen"
      ∧ MapNameOfTravelURL GetQuickMatchUrl = "AlienLab/Lab_Deathmatch" := by
  have hgen : ∀ m rest : FString, ¬ ContainsIgnoringCase m "?game" →
      MapNameOfTravelURL ("/Game/Maps/" ++ m ++ "?game" ++ rest) = m := by
    intro m rest h
    have hchop : FString.RightChop ("/Game/Maps/" ++ m ++ "?game" ++ rest)
        (FString.Len "/Game/Maps/") = String.mk (m.data ++ ("?game".data ++ rest.data)) := by
      unfold FString.RightChop FString.Len
      have hl : ("/Game/Maps/" : String).length = 11 := by decide
      simp only [hl, String.data_append, List.append_assoc]
      congr 1
    unfold MapNameOfTravelURL
    simp only [hchop, MapNameOfTravelURL_chopped m rest h]
    unfold FString.LeftChop FString.Len
    have hlen : (String.mk (m.data ++ ("?game".data ++ rest.data))).length
        = m.data.length + (("?game" : String).data ++ rest.data).length := by
      show (m.data ++ (("?game" : String).data ++ rest.data)).length = _
      rw [List.length_append]
    rw [hlen]
    have harith : (((m.data.length + (("?game" : String).data ++ rest.data).length : Nat) : Int)
        - (((m.data.length + (("?game" : String).data ++ rest.data).length : Nat) : Int)
          - (m.data.length : Int))).toNat = m.data.length := by
      omega
    rw [harith]
    simp
  refine ⟨hgen m rest h, rfl, ?_⟩
  have hq : GetQuickMatchUrl
      = "/Game/Maps/" ++ "AlienLab/Lab_Deathmatch" ++ "?game" ++ "=TDM?listen" := by decide
  rw [hq]
  exact hgen "AlienLab/Lab_Deathmatch" "=TDM?listen" (by decide)

/-- Witness of C20: the URL of the map `Highrise` with game mode `FFA`. -/
theorem MapNameOfTravelURL_between_witness :
    ¬ ContainsIgnoringCase "Highrise" "?game"
      ∧ (MapNameOfTravelURL ("/Game/Maps/" ++ "Highrise" ++ "?game" ++ "=FFA?listen")
          = "Highrise"
        ∧ GetQuickMatchUrl = "/Game/Maps/AlienLab/Lab_Deathmatch?game=TDM?listen"
        ∧ MapNameOfTravelURL GetQuickMatchUrl = "AlienLab/Lab_Deathmatch") :=
  ⟨by decide, MapNameOfTravelURL_between "Highrise" "=FFA?listen" (by decide)⟩


/-! ## A message forced over the displayed one -/

/-- C24: when `CurrentState` is `MessageMenu`, the request is not suppressed
and `Message` is not empty, `ShowMessageThenGotoState` returns with
`CurrentState` still `MessageMenu` and `PendingState` unchanged; the next state,
the two captions and the owner of `PendingMessage` are the arguments, and
`PendingMessage.DisplayString` is empty, the new text being consumed by
`BeginMessageMenuState`, which ran after `EndMessageMenuState`. -/
theorem ShowMessageThenGotoState_forced_at_MessageMenu (e : Engine)
    (Message OK Cancel : FText) (NewState : FName) (OverrideExisting : Bool)
    (PlayerOwner : Option ULocalPlayer) (s : UShooterGameInstance)
    (hc : s.CurrentState = ShooterGameInstanceState.MessageMenu)
    (hs : ¬ Suppressed s NewState OverrideExisting) (hm : Message ≠ "") :
    (ShowMessageThenGotoState e Message OK Cancel NewState OverrideExisting PlayerOwner
        s).CurrentState = ShooterGameInstanceState.MessageMenu
      ∧ (ShowMessageThenGotoState e Message OK Cancel NewState OverrideExisting PlayerOwner
          s).PendingState = s.PendingState
      ∧ (ShowMessageThenGotoState e Message OK Cancel NewState OverrideExisting PlayerOwner
          s).PendingMessage =
        { DisplayString := "", OKButtonString := OK, CancelButtonString := Cancel
          NextState := NewState, PlayerOwner := PlayerOwner }
      ∧ CallsSince s (ShowMessageThenGotoState e Message OK Cancel NewState OverrideExisting
          PlayerOwner s) = [Call.EndMessageMenuState, Call.BeginMessageMenuState] := by
  refine ⟨?_, ?_, ?_, ?_⟩
  · rw [ShowMessageThenGotoState_CurrentState, hc]
  · rw [ShowMessageThenGotoState_PendingState e Message OK Cancel NewState OverrideExisting
      PlayerOwner s hm, if_pos (Or.inr hc)]
  · rw [ShowMessageThenGotoState_PendingMessage e Message OK Cancel NewState OverrideExisting
      PlayerOwner s hm, if_neg hs, if_pos hc]
  · unfold CallsSince
    rw [ShowMessageThenGotoState_Calls, if_pos ⟨hs, hc⟩, List.drop_left]

/-- Witness of C24: while a message that leads to `MainMenu` is displayed, a
forced message that leads to `Playing` is written and its text consumed. -/
theorem ShowMessageThenGotoState_forced_at_MessageMenu_witness :
    MessageShown.CurrentState = ShooterGameInstanceState.MessageMenu
      ∧ ¬ Suppressed MessageShown ShooterGameInstanceState.Playing true
      ∧ (ShowMessageThenGotoState Engine.Desktop "Connection lost." "Retry" "Quit"
          ShooterGameInstanceState.Playing true (some 0) MessageShown).CurrentState
        = ShooterGameInstanceState.MessageMenu
      ∧ (ShowMessageThenGotoState Engine.Desktop "Connection lost." "Retry" "Quit"
          ShooterGameInstanceState.Playing true (some 0) MessageShown).PendingMessage =
        { DisplayString := "", OKButtonString := "Retry", CancelButtonString := "Quit"
          NextState := ShooterGameInstanceState.Playing, PlayerOwner := some 0 } :=
  have h := ShowMessageThenGotoState_forced_at_MessageMenu Engine.Desktop "Connection lost."
    "Retry" "Quit" ShooterGameInstanceState.Playing true (some 0) MessageShown rfl
    (by decide) (by decide)
  ⟨rfl, by decide, h.1, h.2.2.1⟩

/-! ## A second run of the transition step -/

/-- C26: `MaybeChangeState` is idempotent.  A second run, whatever the engine
answers, leaves the instance exactly as the first run left it, so
`CurrentState`, `PendingState` and `PendingMessage` are those of one run, and the
second run records no call: it does not transition and runs no hook. -/
theorem MaybeChangeState_idempotent (e e2 : Engine) (s : UShooterGameInstance) :
    MaybeChangeState e2 (MaybeChangeState e s) = MaybeChangeState e s
      ∧ (MaybeChangeState e2 (MaybeChangeState e s)).CurrentState
        = (MaybeChangeState e s).CurrentState
      ∧ (MaybeChangeState e2 (MaybeChangeState e s)).PendingState
        = (MaybeChangeState e s).PendingState
      ∧ (MaybeChangeState e2 (MaybeChangeState e s)).PendingMessage
        = (MaybeChangeState e s).PendingMessage
      ∧ HooksOf (CallsSince s (MaybeChangeState e2 (MaybeChangeState e s)))
        = HooksOf (CallsSince s (MaybeChangeState e s))
      ∧ CallsSince (MaybeChangeState e s) (MaybeChangeState e2 (MaybeChangeState e s))
        = [] := by
  have h : MaybeChangeState e2 (MaybeChangeState e s) = MaybeChangeState e s := by
    have hp := MaybeChangeState_PendingState e s
    generalize MaybeChangeState e s = t at hp
    unfold MaybeChangeState
    rw [if_neg]
    intro hc
    rcases hp with hp | hp
    · exact hc.2 hp
    · exact hc.1 hp
  refine ⟨h, ?_, ?_, ?_, ?_, ?_⟩
  · rw [h]
  · rw [h]
  · rw [h]
  · rw [h]
  · rw [h]
    unfold CallsSince
    exact List.drop_length _

/-! ## Changes of the login status -/

/-- C22: on a build that is not for Switch, `HandleUserLoginChanged` takes a
change for a downgrade exactly when the new status is `NotLoggedIn`, in any
online mode, or the new status is `UsingLocalProfile` and the online mode is not
`Offline`.  A change whose new status is `LoggedIn` only refreshes the license
flag and the stored status of that user: in every online mode and whichever
local player the user is, it records no call, so neither
`HandleSignInChangeMessaging` nor `LabelPlayerAsQuitter` runs, and `LocalPlayers`
is unchanged.  A downgrade of a user who is a local player labels that player as
quitter and then either runs `HandleSignInChangeMessaging` or removes the
player. -/
theorem HandleUserLoginChanged_downgrade (e : Engine) (hsw : e.PLATFORM_SWITCH = false) :
    (∀ (OnlineMode : EOnlineMode) (LoginStatus : ELoginStatus),
        bDowngraded e OnlineMode LoginStatus = true ↔
          (LoginStatus = ELoginStatus.NotLoggedIn
            ∨ (LoginStatus = ELoginStatus.UsingLocalProfile
              ∧ OnlineMode ≠ EOnlineMode.Offline)))
      ∧ (∀ (GameUserIndex : Nat) (PreviousLoginStatus : ELoginStatus)
          (UserId : FUniqueNetId) (s : UShooterGameInstance),
        HandleUserLoginChanged e GameUserIndex PreviousLoginStatus ELoginStatus.LoggedIn
            UserId s =
          { s with
            bIsLicensed := e.ApplicationLicenseValid
            LocalPlayerOnlineStatus :=
              s.LocalPlayerOnlineStatus.set GameUserIndex ELoginStatus.LoggedIn }
        ∧ CallsSince s (HandleUserLoginChanged e GameUserIndex PreviousLoginStatus
            ELoginStatus.LoggedIn UserId s) = []
        ∧ Call.HandleSignInChangeMessaging ∉ CallsSince s (HandleUserLoginChanged e
            GameUserIndex PreviousLoginStatus ELoginStatus.LoggedIn UserId s)
        ∧ (∀ p, Call.LabelPlayerAsQuitter p ∉ CallsSince s (HandleUserLoginChanged e
            GameUserIndex PreviousLoginStatus ELoginStatus.LoggedIn UserId s))
        ∧ (HandleUserLoginChanged e GameUserIndex PreviousLoginStatus ELoginStatus.LoggedIn
            UserId s).LocalPlayers = s.LocalPlayers)
      ∧ (∀ (GameUserIndex : Nat) (PreviousLoginStatus LoginStatus : ELoginStatus)
          (UserId : FUniqueNetId) (LocalPlayer : ULocalPlayer) (s : UShooterGameInstance),
        bDowngraded e s.OnlineMode LoginStatus = true →
        e.FindLocalPlayerFromUniqueNetId UserId = some LocalPlayer →
        HandleUserLoginChanged e GameUserIndex PreviousLoginStatus LoginStatus UserId s =
          if some LocalPlayer = GetFirstGamePlayer s ∨ s.OnlineMode ≠ EOnlineMode.Offline then
            HandleSignInChangeMessaging e (Record (Call.LabelPlayerAsQuitter LocalPlayer)
              { s with
                bIsLicensed := e.ApplicationLicenseValid
                LocalPlayerOnlineStatus :=
                  s.LocalPlayerOnlineStatus.set GameUserIndex LoginStatus })
          else
            RemoveExistingLocalPlayer LocalPlayer (Record (Call.LabelPlayerAsQuitter LocalPlayer)
              { s with
                bIsLicensed := e.ApplicationLicenseValid
                LocalPlayerOnlineStatus :=
                  s.LocalPlayerOnlineStatus.set GameUserIndex LoginStatus })) := by
  have hnot : ∀ OnlineMode, bDowngraded e OnlineMode ELoginStatus.LoggedIn = false := by
    intro OnlineMode
    unfold bDowngraded
    rw [hsw]
    cases OnlineMode <;> decide
  have hres : ∀ (GameUserIndex : Nat) (PreviousLoginStatus : ELoginStatus)
      (UserId : FUniqueNetId) (s : UShooterGameInstance),
      HandleUserLoginChanged e GameUserIndex PreviousLoginStatus ELoginStatus.LoggedIn
          UserId s =
        { s with
          bIsLicensed := e.ApplicationLicenseValid
          LocalPlayerOnlineStatus :=
            s.LocalPlayerOnlineStatus.set GameUserIndex ELoginStatus.LoggedIn } := by
    intro GameUserIndex PreviousLoginStatus UserId s
    unfold HandleUserLoginChanged
    simp only [hnot]
    split <;> simp
  refine ⟨?_, ?_, ?_⟩
  · intro OnlineMode LoginStatus
    unfold bDowngraded
    rw [hsw]
    cases OnlineMode <;> cases LoginStatus <;> decide
  · intro GameUserIndex PreviousLoginStatus UserId s
    have hcalls : CallsSince s (HandleUserLoginChanged e GameUserIndex PreviousLoginStatus
        ELoginStatus.LoggedIn UserId s) = [] := by
      rw [hres]
      unfold CallsSince
      exact List.drop_length _
    refine ⟨hres _ _ _ _, hcalls, ?_, ?_, ?_⟩
    · rw [hcalls]; exact List.not_mem_nil _
    · intro p; rw [hcalls]; exact List.not_mem_nil _
    · rw [hres]
  · intro GameUserIndex PreviousLoginStatus LoginStatus UserId LocalPlayer s hd hp
    unfold HandleUserLoginChanged
    simp only [hd, hp, if_true]
    rfl

/-- Witness of C22: offline, a change to `UsingLocalProfile` is no downgrade; the
second local player signing in records no call. -/
theorem HandleUserLoginChanged_downgrade_witness :
    Engine.UserIsSecondPlayer.PLATFORM_SWITCH = false
      ∧ (bDowngraded Engine.UserIsSecondPlayer EOnlineMode.Offline
            ELoginStatus.UsingLocalProfile = true ↔
          (ELoginStatus.UsingLocalProfile = ELoginStatus.NotLoggedIn
            ∨ (ELoginStatus.UsingLocalProfile = ELoginStatus.UsingLocalProfile
              ∧ EOnlineMode.Offline ≠ EOnlineMode.Offline)))
      ∧ CallsSince TwoPlayersJoining (HandleUserLoginChanged Engine.UserIsSecondPlayer 1
          ELoginStatus.NotLoggedIn ELoginStatus.LoggedIn "user" TwoPlayersJoining) = [] :=
  ⟨rfl,
    (HandleUserLoginChanged_downgrade Engine.UserIsSecondPlayer rfl).1 EOnlineMode.Offline
      ELoginStatus.UsingLocalProfile,
    ((HandleUserLoginChanged_downgrade Engine.UserIsSecondPlayer rfl).2.1 1
      ELoginStatus.NotLoggedIn "user" TwoPlayersJoining).2.1⟩

/-! ## The settings of a quick session -/

/-- C21, as the code behaves: `HostQuickSession` builds `HostSettings`, the
caller's settings with the game mode, the map name `AlienLab/Lab_Deathmatch` of
the quick-match URL and 16 public connections, but hands the caller's own
`SessionSettings` to `HostSession`.  For a caller that brings the mode `FFA`,
the map `Highrise` and eight connections, the session is hosted with exactly
these, which differ from `HostSettings` whatever game mode the URL yields. -/
theorem HostQuickSession_hosts_with_caller_settings :
    CallsSince OnlineAtMainMenu
        (HostQuickSession Engine.Desktop CallerSettings OnlineAtMainMenu).2
      = [Call.HostSessionWithSettings
          { GameMode := "FFA", MapName := "Highrise", NumPublicConnections := 8 },
        Call.ShowLoadingScreen]
      ∧ (∀ GameType : FString, HostSettings GameType CallerSettings =
          { GameMode := GameType, MapName := "AlienLab/Lab_Deathmatch"
            NumPublicConnections := 16 })
      ∧ (∀ GameType : FString,
          Call.HostSessionWithSettings (HostSettings GameType CallerSettings)
            ∉ (HostQuickSession Engine.Desktop CallerSettings OnlineAtMainMenu).2.Calls) := by
  have hs : ∀ GameType : FString, HostSettings GameType CallerSettings =
      { GameMode := GameType, MapName := "AlienLab/Lab_Deathmatch"
        NumPublicConnections := 16 } := by
    intro GameType
    have hm : MapNameOfTravelURL GetQuickMatchUrl = "AlienLab/Lab_Deathmatch" := by decide
    unfold HostSettings
    simp only [hm]
  have hc : (HostQuickSession Engine.Desktop CallerSettings OnlineAtMainMenu).2.Calls
      = [Call.HostSessionWithSettings
          { GameMode := "FFA", MapName := "Highrise", NumPublicConnections := 8 },
        Call.ShowLoadingScreen] := by decide
  refine ⟨by decide, hs, ?_⟩
  intro GameType
  rw [hc, hs]
  simp

/-! ## The encryption key -/

/-- C23: after `Init` the member `DebugTestEncryptionKey` holds 32 bytes, the
byte at index `i` being `i`.  `ReceivedNetworkEncryptionToken` answers `Success`
if and only if the token is not empty: for the empty token the response is
`InvalidToken` with the message `Encryption token is empty.` and no key, for
every other token it is `Success` with `DebugTestEncryptionKey` as the key.
`ReceivedNetworkEncryptionAck` always answers `Success` with that same key. -/
theorem ReceivedNetworkEncryptionToken_answers :
    (InitDebugTestEncryptionKey.length = 32
        ∧ ∀ i : Nat, i < 32 → InitDebugTestEncryptionKey[i]? = some i)
      ∧ (∀ (DebugTestEncryptionKey : List Nat) (EncryptionToken : FString),
          (ReceivedNetworkEncryptionToken DebugTestEncryptionKey EncryptionToken).Response
              = EEncryptionResponse.Success ↔ EncryptionToken ≠ "")
      ∧ (∀ DebugTestEncryptionKey : List Nat,
          ReceivedNetworkEncryptionToken DebugTestEncryptionKey "" =
            { Response := EEncryptionResponse.InvalidToken
              ErrorMsg := "Encryption token is empty.", EncryptionKey := [] })
      ∧ (∀ (DebugTestEncryptionKey : List Nat) (EncryptionToken : FString),
          EncryptionToken ≠ "" →
          (ReceivedNetworkEncryptionToken DebugTestEncryptionKey EncryptionToken).Response
              = EEncryptionResponse.Success
            ∧ (ReceivedNetworkEncryptionToken DebugTestEncryptionKey
                EncryptionToken).EncryptionKey = DebugTestEncryptionKey)
      ∧ (∀ EncryptionToken : FString, EncryptionToken ≠ "" →
          (ReceivedNetworkEncryptionToken InitDebugTestEncryptionKey
              EncryptionToken).EncryptionKey = List.range 32)
      ∧ (∀ DebugTestEncryptionKey : List Nat,
          (ReceivedNetworkEncryptionAck DebugTestEncryptionKey).Response
              = EEncryptionResponse.Success
            ∧ (ReceivedNetworkEncryptionAck DebugTestEncryptionKey).EncryptionKey
              = DebugTestEncryptionKey)
      ∧ (ReceivedNetworkEncryptionAck InitDebugTestEncryptionKey).EncryptionKey
          = List.range 32 := by
  have hk : InitDebugTestEncryptionKey = List.range 32 := by decide
  have hne : ∀ (DebugTestEncryptionKey : List Nat) (EncryptionToken : FString),
      EncryptionToken ≠ "" →
      ReceivedNetworkEncryptionToken DebugTestEncryptionKey EncryptionToken =
        { Response := EEncryptionResponse.Success, ErrorMsg := "Unknown encryption failure"
          EncryptionKey := DebugTestEncryptionKey } := by
    intro Key Token h
    unfold ReceivedNetworkEncryptionToken FString.IsEmpty
    simp only [decide_eq_true_eq]
    rw [if_neg h]
  have he : ∀ DebugTestEncryptionKey : List Nat,
      ReceivedNetworkEncryptionToken DebugTestEncryptionKey "" =
        { Response := EEncryptionResponse.InvalidToken
          ErrorMsg := "Encryption token is empty.", EncryptionKey := [] } := by
    intro Key
    rfl
  refine ⟨⟨?_, ?_⟩, ?_, he, ?_, ?_, ?_, ?_⟩
  · rw [hk]; exact List.length_range 32
  · intro i hi
    rw [hk]
    exact List.getElem?_range hi
  · intro Key Token
    constructor
    · intro h ht
      rw [ht, he] at h
      exact absurd h (by decide)
    · intro h
      rw [hne Key Token h]
  · intro Key Token h
    rw [hne Key Token h]
    exact ⟨rfl, rfl⟩
  · intro Token h
    rw [hne _ Token h]
    exact hk
  · intro Key
    exact ⟨rfl, rfl⟩
  · exact hk

/-- Witness of C23: the last byte of the key is `31`, and the token `player-7`
is answered with the key. -/
theorem ReceivedNetworkEncryptionToken_answers_witness :
    InitDebugTestEncryptionKey[31]? = some 31
      ∧ (ReceivedNetworkEncryptionToken InitDebugTestEncryptionKey "player-7").EncryptionKey
        = List.range 32 :=
  ⟨ReceivedNetworkEncryptionToken_answers.1.2 31 (by decide),
    ReceivedNetworkEncryptionToken_answers.2.2.2.2.1 "player-7" (by decide)⟩

/-! ## The players of a real-time session -/

theorem GetRTPlayerFromPeerIdLoop_eq_find (PeerId : Int) (PlayerList : List RTPlayer) :
    GetRTPlayerFromPeerIdLoop PeerId PlayerList
      = PlayerList.find? (fun rtPlayer => decide (rtPlayer.PeerID = PeerId)) := by
  induction PlayerList with
  | nil => rfl
  | cons p rest ih =>
    unfold GetRTPlayerFromPeerIdLoop
    by_cases h : p.PeerID = PeerId
    · rw [if_pos h, List.find?_cons_of_pos _ (by simpa using h)]
    · rw [if_neg h, List.find?_cons_of_neg _ (by simpa using h), ih]

theorem OnChatMessageReceived_of_OnlineSub (e : Engine)
    (Channel FromDisplayName FromPlayerId MessageText : FString) (s : UShooterGameInstance)
    (ho : e.OnlineSub = true) :
    OnChatMessageReceived e Channel FromDisplayName FromPlayerId MessageText s =
      some { s with Calls := s.Calls ++
        Call.OnChatMessageReceived Channel FromDisplayName FromPlayerId MessageText ::
          (if e.MenuPC = true then
            [Call.MenuPCOnChatMessageReceived Channel FromPlayerId FromDisplayName MessageText]
          else []) } := by
  unfold OnChatMessageReceived
  simp only [ho, if_true, Record]
  split_ifs <;> simp

/-- C27: `GetRTPlayerFromPeerId` returns the first player of
`SessionInfo->PlayerList` whose `PeerID` equals `PeerId`: the players in front of
the returned one have another `PeerID`.  It returns null exactly when
`SessionInfo` is not valid or no player of the list has that `PeerID`, and a
player it returns has `PeerID` equal to the argument.  With the online subsystem
present, `OnPlayerConnect` and `OnPlayerDisconnect` return, and they pass the
system chat message `has connected`, respectively `has disconnected`, to
`OnChatMessageReceived` if and only if the lookup is not null; the message is
then forwarded to the menu player controller when there is one. -/
theorem GetRTPlayerFromPeerId_first_match (e : Engine) (SessionInfo : Option RTSessionInfo)
    (PeerId : Int) (s : UShooterGameInstance) :
    (∀ player : RTPlayer, GetRTPlayerFromPeerId SessionInfo PeerId = some player ↔
        ∃ Info before after, SessionInfo = some Info
          ∧ Info.PlayerList = before ++ player :: after
          ∧ player.PeerID = PeerId ∧ ∀ q ∈ before, q.PeerID ≠ PeerId)
      ∧ (GetRTPlayerFromPeerId SessionInfo PeerId = none ↔
          (SessionInfo = none
            ∨ ∃ Info, SessionInfo = some Info ∧ ∀ q ∈ Info.PlayerList, q.PeerID ≠ PeerId))
      ∧ (∀ player : RTPlayer, GetRTPlayerFromPeerId SessionInfo PeerId = some player →
          player.PeerID = PeerId)
      ∧ (e.OnlineSub = true →
          ∃ r, OnPlayerConnect e SessionInfo PeerId s = some r
            ∧ ((∃ Name, Call.OnChatMessageReceived "System" "System" Name "has connected"
                  ∈ CallsSince s r)
                ↔ GetRTPlayerFromPeerId SessionInfo PeerId ≠ none)
            ∧ (GetRTPlayerFromPeerId SessionInfo PeerId = none → r = s)
            ∧ (∀ player, GetRTPlayerFromPeerId SessionInfo PeerId = some player →
                CallsSince s r =
                  Call.OnChatMessageReceived "System" "System" player.DisplayName
                      "has connected" ::
                    (if e.MenuPC = true then
                      [Call.MenuPCOnChatMessageReceived "System" player.DisplayName "System"
                        "has connected"]
                    else [])))
      ∧ (e.OnlineSub = true →
          ∃ r, OnPlayerDisconnect e SessionInfo PeerId s = some r
            ∧ ((∃ Name, Call.OnChatMessageReceived "System" "System" Name "has disconnected"
                  ∈ CallsSince s r)
                ↔ GetRTPlayerFromPeerId SessionInfo PeerId ≠ none)
            ∧ (GetRTPlayerFromPeerId SessionInfo PeerId = none → r = s)
            ∧ (∀ player, GetRTPlayerFromPeerId SessionInfo PeerId = some player →
                CallsSince s r =
                  Call.OnChatMessageReceived "System" "System" player.DisplayName
                      "has disconnected" ::
                    (if e.MenuPC = true then
                      [Call.MenuPCOnChatMessageReceived "System" player.DisplayName "System"
                        "has disconnected"]
                    else []))) := by
  have hsome : ∀ player : RTPlayer, GetRTPlayerFromPeerId SessionInfo PeerId = some player ↔
      ∃ Info before after, SessionInfo = some Info
        ∧ Info.PlayerList = before ++ player :: after
        ∧ player.PeerID = PeerId ∧ ∀ q ∈ before, q.PeerID ≠ PeerId := by
    intro player
    cases SessionInfo with
    | none => simp [GetRTPlayerFromPeerId]
    | some Info =>
      unfold GetRTPlayerFromPeerId
      simp only [GetRTPlayerFromPeerIdLoop_eq_find, List.find?_eq_some,
        decide_eq_true_eq, Option.some.injEq, Bool.not_eq_true', decide_eq_false_iff_not]
      constructor
      · rintro ⟨hp, before, after, hl, hb⟩
        exact ⟨Info, before, after, rfl, hl, hp, hb⟩
      · rintro ⟨Info2, before, after, hi, hl, hp, hb⟩
        subst hi
        exact ⟨hp, before, after, hl, hb⟩
  have hnone : GetRTPlayerFromPeerId SessionInfo PeerId = none ↔
      (SessionInfo = none
        ∨ ∃ Info, SessionInfo = some Info ∧ ∀ q ∈ Info.PlayerList, q.PeerID ≠ PeerId) := by
    cases SessionInfo with
    | none => simp [GetRTPlayerFromPeerId]
    | some Info =>
      unfold GetRTPlayerFromPeerId
      simp [GetRTPlayerFromPeerIdLoop_eq_find]
  have hchat : ∀ (MessageText : FString) (ho : e.OnlineSub = true),
      ∃ r, (match GetRTPlayerFromPeerId SessionInfo PeerId with
            | some player =>
              OnChatMessageReceived e "System" "System" player.DisplayName MessageText s
            | none => some s) = some r
        ∧ ((∃ Name, Call.OnChatMessageReceived "System" "System" Name MessageText
              ∈ CallsSince s r)
            ↔ GetRTPlayerFromPeerId SessionInfo PeerId ≠ none)
        ∧ (GetRTPlayerFromPeerId SessionInfo PeerId = none → r = s)
        ∧ (∀ player, GetRTPlayerFromPeerId SessionInfo PeerId = some player →
            CallsSince s r =
              Call.OnChatMessageReceived "System" "System" player.DisplayName MessageText ::
                (if e.MenuPC = true then
                  [Call.MenuPCOnChatMessageReceived "System" player.DisplayName "System"
                    MessageText]
                else [])) := by
    intro MessageText ho
    cases hl : GetRTPlayerFromPeerId SessionInfo PeerId with
    | none =>
      refine ⟨s, rfl, ?_, fun _ => rfl, ?_⟩
      · simp [CallsSince]
      · intro player hp
        cases hp
    | some player =>
      refine ⟨_, OnChatMessageReceived_of_OnlineSub e _ _ _ _ s ho, ?_, ?_, ?_⟩
      · simp only [CallsSince, List.drop_left, ne_eq, not_false_eq_true, iff_true,
          reduceCtorEq]
        exact ⟨player.DisplayName, List.mem_cons_self _ _⟩
      · intro hc
        cases hc
      · intro p hp
        cases hp
        simp only [CallsSince, List.drop_left]
  exact ⟨hsome, hnone, fun player hp => ((hsome player).1 hp).elim
      (fun _ h => h.elim (fun _ h => h.elim (fun _ h => h.2.2.1))),
    hchat "has connected", hchat "has disconnected"⟩

/-- Witness of C27: of the two players with peer identifier `2` the lookup
returns the first, and `OnPlayerConnect` passes on its message. -/
theorem GetRTPlayerFromPeerId_first_match_witness :
    GetRTPlayerFromPeerId (some ThreePlayerSession) 2
        = some { DisplayName := "Bob", ID := "b", PeerID := 2, bIsOnline := true }
      ∧ ∃ r, OnPlayerConnect Engine.Desktop (some ThreePlayerSession) 2 OnlineAtMainMenu
          = some r
        ∧ CallsSince OnlineAtMainMenu r =
          [Call.OnChatMessageReceived "System" "System" "Bob" "has connected",
            Call.MenuPCOnChatMessageReceived "System" "Bob" "System" "has connected"] :=
  have h := GetRTPlayerFromPeerId_first_match Engine.Desktop (some ThreePlayerSession) 2
    OnlineAtMainMenu
  ⟨by decide,
    (h.2.2.2.1 rfl).elim (fun r hr => ⟨r, hr.1,
      hr.2.2.2 { DisplayName := "Bob", ID := "b", PeerID := 2, bIsOnline := true }
        (by decide)⟩)⟩

/-! ## The split-screen players -/

theorem RemoveSplitScreenPlayersLoop_LocalPlayers (fuel : Nat) (s : UShooterGameInstance)
    (hnd : s.LocalPlayers.Nodup) :
    (RemoveSplitScreenPlayersLoop fuel s).LocalPlayers
      = s.LocalPlayers.take (max (s.LocalPlayers.length - fuel) 1) := by
  induction fuel generalizing s with
  | zero =>
    show s.LocalPlayers = _
    rw [List.take_of_length_le]
    exact le_max_left _ _
  | succ k ih =>
    unfold RemoveSplitScreenPlayersLoop
    by_cases h : 1 < s.LocalPlayers.length
    · rw [if_pos h]
      split
      · next p hp =>
        obtain ⟨ys, hys⟩ := List.getLast?_eq_some_iff.1 hp
        have hpy : p ∉ ys := by
          rw [hys] at hnd
          intro hin
          exact (List.nodup_append.1 hnd).2.2 hin (List.mem_singleton_self p)
        have hf : (RemoveExistingLocalPlayer p s).LocalPlayers = ys := by
          show s.LocalPlayers.filter (fun q => decide (q ≠ p)) = ys
          rw [hys, List.filter_append]
          have h1 : ys.filter (fun q => decide (q ≠ p)) = ys := by
            rw [List.filter_eq_self]
            intro a ha
            simp only [ne_eq, decide_not, Bool.not_eq_true', decide_eq_false_iff_not]
            intro hap
            exact hpy (hap ▸ ha)
          rw [h1]
          simp
        have hnd2 : (RemoveExistingLocalPlayer p s).LocalPlayers.Nodup := by
          rw [hf]
          rw [hys] at hnd
          exact (List.nodup_append.1 hnd).1
        rw [ih _ hnd2, hf, hys]
        have hlen : 1 ≤ ys.length := by
          rw [hys, List.length_append, List.length_singleton] at h
          omega
        rw [List.length_append, List.length_singleton,
          List.take_append_of_le_length (by omega)]
        congr 1
        omega
      · next hnone =>
        rw [List.getLast?_eq_none_iff] at hnone
        rw [hnone]
        simp
    · rw [if_neg h, List.take_of_length_le]
      omega

/-- C25: `RemoveSplitScreenPlayers` terminates and removes every local player
except the first.  With `RemoveLocalPlayer` removing the given player from
`LocalPlayers`, and the `n` entries of `LocalPlayers` being distinct players:
after `k` rounds of the loop, `k` up to `n - 1`, the players left are the first
`n - k`, so the players go from the back to the front, one in each round; the
condition of the loop holds before each of the first `n - 1` rounds and fails
after them, so the loop runs `n - 1` times (not at all when `n` is `0`) and more
rounds change nothing; at the end `LocalPlayers` holds at most one player, the
original first one when `n` is at least 1, and nothing else of the instance has
changed. -/
theorem RemoveSplitScreenPlayers_keeps_first (s : UShooterGameInstance)
    (hnd : s.LocalPlayers.Nodup) :
    (∀ k : Nat, k ≤ s.LocalPlayers.length - 1 →
        (RemoveSplitScreenPlayersLoop k s).LocalPlayers
          = s.LocalPlayers.take (s.LocalPlayers.length - k))
      ∧ (∀ k : Nat, k < s.LocalPlayers.length - 1 →
          1 < (RemoveSplitScreenPlayersLoop k s).LocalPlayers.length)
      ∧ ¬ 1 < (RemoveSplitScreenPlayersLoop (s.LocalPlayers.length - 1)
          s).LocalPlayers.length
      ∧ (∀ k : Nat, s.LocalPlayers.length - 1 ≤ k →
          RemoveSplitScreenPlayersLoop k s = RemoveSplitScreenPlayers s)
      ∧ RemoveSplitScreenPlayers s = { s with LocalPlayers := s.LocalPlayers.take 1 }
      ∧ (RemoveSplitScreenPlayers s).LocalPlayers.length ≤ 1
      ∧ (RemoveSplitScreenPlayers s).LocalPlayers.head? = s.LocalPlayers.head?
      ∧ (1 ≤ s.LocalPlayers.length →
          ∃ first rest, s.LocalPlayers = first :: rest
            ∧ (RemoveSplitScreenPlayers s).LocalPlayers = [first]) := by
  have hlate : ∀ k : Nat, s.LocalPlayers.length - 1 ≤ k →
      (RemoveSplitScreenPlayersLoop k s).LocalPlayers = s.LocalPlayers.take 1 := by
    intro k hk
    rw [RemoveSplitScreenPlayersLoop_LocalPlayers k s hnd]
    congr 1
    omega
  have hfull : ∀ k : Nat, s.LocalPlayers.length - 1 ≤ k →
      RemoveSplitScreenPlayersLoop k s = { s with LocalPlayers := s.LocalPlayers.take 1 } := by
    intro k hk
    rw [RemoveSplitScreenPlayersLoop_frame, hlate k hk]
  have hend : RemoveSplitScreenPlayers s = { s with LocalPlayers := s.LocalPlayers.take 1 } :=
    hfull _ (Nat.sub_le _ _)
  refine ⟨?_, ?_, ?_, ?_, hend, ?_, ?_, ?_⟩
  · intro k hk
    rw [RemoveSplitScreenPlayersLoop_LocalPlayers k s hnd]
    by_cases h0 : s.LocalPlayers.length = 0
    · rw [List.length_eq_zero.1 h0]
      simp
    · congr 1
      omega
  · intro k hk
    rw [RemoveSplitScreenPlayersLoop_LocalPlayers k s hnd, List.length_take]
    omega
  · rw [hlate _ (le_refl _), List.length_take]
    omega
  · intro k hk
    rw [hfull k hk, hend]
  · rw [hend]
    show (s.LocalPlayers.take 1).length ≤ 1
    rw [List.length_take]
    omega
  · rw [hend]
    show (s.LocalPlayers.take 1).head? = _
    cases s.LocalPlayers <;> rfl
  · intro h1
    rw [hend]
    show ∃ first rest, s.LocalPlayers = first :: rest ∧ s.LocalPlayers.take 1 = [first]
    cases hl : s.LocalPlayers with
    | nil => rw [hl] at h1; exact absurd h1 (by decide)
    | cons a rest => exact ⟨a, rest, rfl, rfl⟩

/-- Witness of C25: of the players `4`, `7`, `9` the first round removes `9`, and
`4` is the one left. -/
theorem RemoveSplitScreenPlayers_keeps_first_witness :
    ({ TwoPlayersJoining with LocalPlayers := [4, 7, 9] } : UShooterGameInstance).LocalPlayers.Nodup
      ∧ (RemoveSplitScreenPlayersLoop 1
          { TwoPlayersJoining with LocalPlayers := [4, 7, 9] }).LocalPlayers = [4, 7]
      ∧ RemoveSplitScreenPlayers { TwoPlayersJoining with LocalPlayers := [4, 7, 9] }
        = { TwoPlayersJoining with LocalPlayers := [4] } :=
  have h := RemoveSplitScreenPlayers_keeps_first
    { TwoPlayersJoining with LocalPlayers := [4, 7, 9] } (by decide)
  ⟨by decide, h.1 1 (by decide), h.2.2.2.2.1⟩
end UShooterGameInstance

end ShooterGame
